import Mathlib

/-!
Outgoing device-message queue of the nRF Cloud multi-service sample.

Shallow embedding of
`samples/cellular/nrf_cloud_mqtt_multi_service/src/message_queue.c`.

The C module keeps two pieces of process-wide state, the kernel message queue
`device_message_queue` (a FIFO of pointers) and the counter `send_failure_count`.
Both are fields of `State`, together with the memory the module reads and writes
and a chronological trace of the calls it makes to its collaborators (transport,
connection control, LEDs).

Everything the module cannot decide by itself is passed in explicitly: the
build-time configuration is a `Config`, and the outcome of every call into the
kernel, the clock, the allocator, the codec library and the transport during one
call of the module is an `EnqueueEnv` or a `ConsumeEnv`.
-/

namespace MessageQueue

/-! ## Memory -/

/-- Pointer values. Memory is split in two regions: `heap a` names the block handed
out by the `a`-th successful `k_malloc` of this module, `ext a` names any other
storage (the callers' stack and static data). A block of the first region is never
reachable by a caller except through a pointer this module hands out, which it never
does. -/
inductive Ptr where
  | null
  | ext (a : Nat)
  | heap (a : Nat)
deriving DecidableEq

/-- The tag `enum nrf_cloud_data_type`. -/
inductive DataType where
  | BLOCK
  | STR
  | DOUBLE
  | INT
deriving DecidableEq

/-- Values of the C type `double` as far as the module handles them: a value a caller
stored (kept as its bit pattern) or the conversion `(double)i` of an `int`. -/
inductive CDouble where
  | bits (b : Nat)
  | ofInt (i : Int)
deriving DecidableEq

/-- The anonymous union of `struct nrf_cloud_sensor_data` together with the tag
`data_type` that selects its active member: `data` (`ptr`, `len`) for
`NRF_CLOUD_DATA_TYPE_BLOCK`, `str_val`, `double_val`, `int_val`. -/
inductive Payload where
  | data (ptr : Ptr) (len : Nat)
  | str_val (p : Ptr)
  | double_val (d : Nat)
  | int_val (i : Int)
deriving DecidableEq

/-- The record `struct nrf_cloud_sensor_data`: sensor `type`, tagged payload,
timestamp `ts_ms` and the optional `app_id` string pointer. -/
structure SensorData where
  type : Nat
  payload : Payload
  ts_ms : Int
  app_id : Ptr
deriving DecidableEq

/-- The tag `data_type` of a message. -/
def SensorData.data_type (m : SensorData) : DataType :=
  match m.payload with
  | .data _ _ => .BLOCK
  | .str_val _ => .STR
  | .double_val _ => .DOUBLE
  | .int_val _ => .INT

/-- An object stored in memory: a message record or an array of bytes (a payload
buffer or a C string). -/
inductive Obj where
  | msg (m : SensorData)
  | bytes (b : List Nat)
deriving DecidableEq

/-- Pointwise update of a memory region. -/
def upd (f : Nat → Option Obj) (a : Nat) (v : Option Obj) : Nat → Option Obj :=
  fun b => if b = a then v else f b

/-! ## Observable calls -/

/-- Data member of an encoded cloud object. -/
inductive Body where
  | empty
  | gnss (record : Option (List Nat))
  | str (s : Option (List Nat))
  | num (d : CDouble)
deriving DecidableEq

/-- Content of a `struct nrf_cloud_obj` built by `encode_device_message`: the string
found at `appid` (`none` when the pointer does not address a string), the timestamp
and the data member. -/
structure CloudObj where
  app_id : Option (List Nat)
  ts : Int
  data : Body
deriving DecidableEq

/-- Calls made by the module to its collaborators. The send events record the
arguments of the call (strings and buffers by content) and the value it returned, and
in `handle` the queue handle of the message the call is made for. -/
inductive Event where
  | await_cloud_ready
  | nrf_cloud_send (handle : Ptr) (obj : CloudObj) (ret : Int)
  | nrf_cloud_coap_location_send (handle : Ptr) (record : Option (List Nat)) (ret : Int)
  | nrf_cloud_coap_sensor_send (handle : Ptr) (app_id : Option (List Nat)) (value : CDouble)
      (ts_ms : Int) (ret : Int)
  | disconnect_cloud
  | k_sleep (seconds : Nat)
  | short_led_pattern_success
  | stop_led_pattern
deriving DecidableEq

/-! ## Configuration and state -/

/-- The two transport bindings, selected at build time by `CONFIG_NRF_CLOUD_MQTT` or
`CONFIG_NRF_CLOUD_COAP`. -/
inductive Binding where
  | MQTT
  | COAP
deriving DecidableEq

/-- Build-time parameters of the module: the Kconfig values it uses, the transport
binding, and the constants and the lookup table it takes from the nRF Cloud library
headers. `CONFIG_MAX_CONSECUTIVE_SEND_FAILURES` is a Kconfig `int` compared with the C
`int` `send_failure_count`, so it is a value of that type (`threshold_fits_int`). -/
structure Config where
  MAX_OUTGOING_MESSAGES : Nat
  MAX_CONSECUTIVE_SEND_FAILURES : Int
  CONSECUTIVE_SEND_FAILURE_COOLDOWN_SECONDS : Nat
  LED_VERBOSE_INDICATION : Bool
  binding : Binding
  SENSOR_GNSS : Nat
  sizeof_gnss_data : Nat
  nrf_cloud_sensor_app_id_lookup : Nat → Ptr
  threshold_fits_int : -2147483648 ≤ MAX_CONSECUTIVE_SEND_FAILURES ∧
    MAX_CONSECUTIVE_SEND_FAILURES ≤ 2147483647

/-- State of the module and of the memory it works on. `live` lists the blocks
obtained from `k_malloc` and not yet given back to `k_free`, newest first; `next` is
the name of the block the next successful `k_malloc` returns. `send_failure_count`
is a C `int` of 32 bits: its increment wraps around (`wrap_int`). -/
structure State where
  ext : Nat → Option Obj
  heap : Nat → Option Obj
  next : Nat
  live : List Nat
  queue : List Ptr
  send_failure_count : Int
  trace : List Event

/-- State at start-up: empty queue, counter 0, nothing allocated. -/
def State.init (ext : Nat → Option Obj) : State :=
  { ext := ext, heap := fun _ => none, next := 0, live := [], queue := [],
    send_failure_count := 0, trace := [] }

/-- Object a pointer addresses, if any. -/
def State.read (s : State) : Ptr → Option Obj
  | .null => none
  | .ext a => s.ext a
  | .heap a => s.heap a

/-- Store an object through a pointer. -/
def State.write (s : State) (p : Ptr) (o : Obj) : State :=
  match p with
  | .null => s
  | .ext a => { s with ext := upd s.ext a (some o) }
  | .heap a => { s with heap := upd s.heap a (some o) }

/-- Message record a pointer addresses, if it addresses one. -/
def State.read_msg (s : State) (p : Ptr) : Option SensorData :=
  match s.read p with
  | some (.msg m) => some m
  | _ => none

/-- Bytes a pointer addresses, if it addresses a byte array. -/
def State.read_bytes (s : State) (p : Ptr) : Option (List Nat) :=
  match s.read p with
  | some (.bytes b) => some b
  | _ => none

/-- Append a call to the trace. -/
def State.emit (s : State) (e : Event) : State :=
  { s with trace := s.trace ++ [e] }

/-- The caller stores `v` at address `a` of its own memory (`none`: it gives the
storage up). -/
def State.caller_store (s : State) (a : Nat) (v : Option Obj) : State :=
  { s with ext := upd s.ext a v }

/-- The value a 32-bit `int` holds after an arithmetic operation whose exact result
is `x`: `x` itself when it lies between `INT_MIN` and `INT_MAX`, otherwise `x` reduced
modulo 2^32 into that range (two's complement wrap-around, so that `INT_MAX + 1` gives
`INT_MIN`). -/
def wrap_int (x : Int) : Int := (x + 2147483648) % 4294967296 - 2147483648

/-! ## Error numbers (Zephyr `errno.h`) -/

def ENOMEM : Int := 12
def EINVAL : Int := 22
def ENOMSG : Int := 35
def ETIME : Int := 62
def ENOTSUP : Int := 134

/-! ## Kernel primitives -/

/-- The allocator `k_malloc`: on success (decided by the environment) a new block,
distinct from every block handed out before, becomes live; on failure `NULL`. -/
def k_malloc (ok : Bool) (s : State) : Ptr × State :=
  if ok then
    (.heap s.next, { s with next := s.next + 1, live := s.next :: s.live })
  else
    (.null, s)

/-- The allocator `k_free`: the block stops being live and its content is gone.
Freeing `NULL` does nothing. -/
def k_free (p : Ptr) (s : State) : State :=
  match p with
  | .heap a => { s with heap := upd s.heap a none, live := s.live.erase a }
  | _ => s

/-- Modelled from the spec: the kernel call `k_msgq_put(&device_message_queue, &p,
K_NO_WAIT)` of the bounded queue declared by `K_MSGQ_DEFINE` with
`CONFIG_MAX_OUTGOING_MESSAGES` slots (`try_push`): appends at the tail and returns 0,
or returns the non-zero `-ENOMSG` at once when every slot is taken. -/
def k_msgq_put (cfg : Config) (s : State) (p : Ptr) : Int × State :=
  if s.queue.length < cfg.MAX_OUTGOING_MESSAGES then
    (0, { s with queue := s.queue ++ [p] })
  else
    (-ENOMSG, s)

/-- Modelled from the spec: the kernel call `k_msgq_get(&device_message_queue, &p,
K_FOREVER)` (`pop_blocking`): removes and returns the head of the queue. `none`
stands for the caller staying suspended on an empty queue. `ret` is the status the
kernel reports; a non-zero status leaves the queue alone and returns no handle. -/
def k_msgq_get (ret : Int) (s : State) : Option (Int × Ptr × State) :=
  if ret ≠ 0 then some (ret, .null, s)
  else
    match s.queue with
    | [] => none
    | p :: rest => some (0, p, { s with queue := rest })

/-! ## Environment of one call -/

/-- Outcomes the environment chooses during one call of `enqueue_device_message`:
`now` is the result of `date_time_now` (`none` for a non-zero error code, `some t`
for success with time `t`), `alloc_msg` and `alloc_data` tell whether the `k_malloc`
of the message record and of the payload buffer succeed. -/
structure EnqueueEnv where
  now : Option Int
  alloc_msg : Bool
  alloc_data : Bool
deriving DecidableEq

/-- The pointer a caller passes for its message: `NULL` or the address of a record
in its own storage. -/
def caller_ptr : Option Nat → Ptr
  | none => .null
  | some a => .ext a

/-- One call of `send_device_message` by a producer thread: the address of the
caller's message (`none` for `NULL`) and the outcomes of the call. -/
structure Submit where
  msg : Option Nat
  env : EnqueueEnv
deriving DecidableEq

/-- Outcomes the environment chooses during one call of `consume_device_message`:
the status of `k_msgq_get`, the calls producers complete while the consumer waits in
`await_cloud_ready`, the results of the codec calls `nrf_cloud_obj_msg_init`,
`nrf_cloud_obj_ts_add` and of the call adding the data member, the result of the
transport send, and the result of `date_time_now` when the message is enqueued
again. -/
structure ConsumeEnv where
  get_ret : Int
  producers : List Submit
  msg_init_ret : Int
  ts_add_ret : Int
  data_add_ret : Int
  send_ret : Int
  now : Option Int

/-! ## The module -/

/-- The bytes `memcpy(dst, src, len)` reads: the first `len` bytes of the array `src`
addresses. `none` stands for undefined behaviour: `src` is `NULL`, addresses no byte
array, or addresses fewer than `len` bytes. -/
def memcpy_src (s : State) (src : Ptr) (len : Nat) : Option (List Nat) :=
  match s.read_bytes src with
  | some b => if len ≤ b.length then some (b.take len) else none
  | none => none

/-- The function `allocate_dev_msg_for_queue`, from the point where `new_msg` has been
allocated and `*new_msg = *msg_to_copy` stored: the copy of a block payload. `none`
stands for undefined behaviour (the `memcpy` reads outside the caller's buffer). -/
def copy_block (o : EnqueueEnv) (s : State) (new_msg : Ptr) (m : SensorData) :
    Option (Ptr × State) :=
  match m.payload with
  | .data ptr len =>
    if (k_malloc o.alloc_data s).1 = .null then
      some (.null, k_free new_msg
        ((k_malloc o.alloc_data s).2.write new_msg (.msg { m with payload := .data .null 0 })))
    else
      (memcpy_src s ptr len).map fun bytes =>
        (new_msg,
          (((k_malloc o.alloc_data s).2.write (k_malloc o.alloc_data s).1 (.bytes bytes)).write
            new_msg (.msg { m with payload := .data (k_malloc o.alloc_data s).1 len })))
  | _ => some (new_msg, s)

/-- The function `allocate_dev_msg_for_queue`. `none` stands for undefined behaviour
(the argument does not address a message record, or the payload of a block message
does not address `data.len` bytes). -/
def allocate_dev_msg_for_queue (o : EnqueueEnv) (s : State) (msg_to_copy : Ptr) :
    Option (Ptr × State) :=
  if msg_to_copy = .null then some (.null, s)
  else
    match s.read_msg msg_to_copy with
    | none => none
    | some m =>
      if (k_malloc o.alloc_msg s).1 = .null then some (.null, (k_malloc o.alloc_msg s).2)
      else
        copy_block o ((k_malloc o.alloc_msg s).2.write (k_malloc o.alloc_msg s).1 (.msg m))
          (k_malloc o.alloc_msg s).1 m

/-- The function `free_queued_dev_msg_message`. `none` stands for undefined behaviour
(a non-null argument that does not address a message record). -/
def free_queued_dev_msg_message (s : State) (msg : Ptr) : Option State :=
  if msg = .null then some s
  else
    match s.read_msg msg with
    | none => none
    | some m =>
      match m.payload with
      | .data ptr _ =>
        some (k_free msg ((k_free ptr s).write msg (.msg { m with payload := .data .null 0 })))
      | _ => some (k_free msg s)

/-- The function `enqueue_device_message` from the comment "Attempt to append data
onto message queue" on: the `k_msgq_put` of `q_msg` and, when it is refused, the
release of the copy. -/
def enqueue_put (cfg : Config) (s : State) (q_msg : Ptr) (create_copy : Bool) :
    Option (Int × State) :=
  if (k_msgq_put cfg s q_msg).1 ≠ 0 then
    if create_copy then
      (free_queued_dev_msg_message (k_msgq_put cfg s q_msg).2 q_msg).map (fun s1 => (-ENOMEM, s1))
    else some (-ENOMEM, (k_msgq_put cfg s q_msg).2)
  else some (0, (k_msgq_put cfg s q_msg).2)

/-- The function `enqueue_device_message`. Returns the `int` result and the new
state; `none` stands for undefined behaviour (`msg` does not address a message
record, or the copy reads outside the caller's payload buffer). -/
def enqueue_device_message (cfg : Config) (o : EnqueueEnv) (s : State) (msg : Ptr)
    (create_copy : Bool) : Option (Int × State) :=
  if msg = .null then some (-EINVAL, s)
  else
    match o.now with
    | none => some (-ETIME, s)
    | some t =>
      match s.read_msg msg with
      | none => none
      | some m =>
        if create_copy then
          match allocate_dev_msg_for_queue o (s.write msg (.msg { m with ts_ms := t })) msg with
          | none => none
          | some a => if a.1 = .null then some (-ENOMEM, a.2) else enqueue_put cfg a.2 a.1 true
        else enqueue_put cfg (s.write msg (.msg { m with ts_ms := t })) msg false

/-- The function `send_device_message`. -/
def send_device_message (cfg : Config) (o : EnqueueEnv) (s : State) (msg : Ptr) :
    Option (Int × State) :=
  enqueue_device_message cfg o s msg true

/-- Producer calls completed one after the other; the results they return to the
producers are not used by the consumer. -/
def run_producers (cfg : Config) : List Submit → State → Option State
  | [], s => some s
  | p :: ps, s =>
    match send_device_message cfg p.env s (caller_ptr p.msg) with
    | none => none
    | some r => run_producers cfg ps r.2

/-- The function `encode_device_message` (MQTT binding): the `int` result and the
object built. -/
def encode_device_message (cfg : Config) (o : ConsumeEnv) (s : State) (appid : Ptr)
    (data : SensorData) : Int × CloudObj :=
  if o.msg_init_ret ≠ 0 then
    (o.msg_init_ret, { app_id := s.read_bytes appid, ts := 0, data := .empty })
  else if o.ts_add_ret ≠ 0 then
    (o.ts_add_ret, { app_id := s.read_bytes appid, ts := data.ts_ms, data := .empty })
  else
    match data.payload with
    | .data ptr len =>
      if data.type ≠ cfg.SENSOR_GNSS ∨ ptr = .null ∨ len ≠ cfg.sizeof_gnss_data then
        (-ENOTSUP, { app_id := s.read_bytes appid, ts := data.ts_ms, data := .empty })
      else
        (o.data_add_ret,
          { app_id := s.read_bytes appid, ts := data.ts_ms, data := .gnss (s.read_bytes ptr) })
    | .str_val p =>
      (o.data_add_ret,
        { app_id := s.read_bytes appid, ts := data.ts_ms, data := .str (s.read_bytes p) })
    | .int_val i =>
      (o.data_add_ret,
        { app_id := s.read_bytes appid, ts := data.ts_ms, data := .num (.ofInt i) })
    | .double_val d =>
      (o.data_add_ret,
        { app_id := s.read_bytes appid, ts := data.ts_ms, data := .num (.bits d) })

/-- The send section of `consume_device_message` under the CoAP binding: the switch
on `data_type`. `ret` is the value the variable `ret` holds on entry. -/
def coap_send (cfg : Config) (o : ConsumeEnv) (s : State) (queued_msg : Ptr) (app_id : Ptr)
    (m : SensorData) (ret : Int) : Int × State :=
  match m.payload with
  | .data ptr len =>
    if m.type = cfg.SENSOR_GNSS ∧ ptr ≠ .null ∧ len = cfg.sizeof_gnss_data then
      (o.send_ret,
        s.emit (.nrf_cloud_coap_location_send queued_msg (s.read_bytes ptr) o.send_ret))
    else (ret, s)
  | .str_val _ => (ret, s)
  | .double_val d =>
    (o.send_ret,
      s.emit (.nrf_cloud_coap_sensor_send queued_msg (s.read_bytes app_id) (.bits d) m.ts_ms
        o.send_ret))
  | .int_val i =>
    (o.send_ret,
      s.emit (.nrf_cloud_coap_sensor_send queued_msg (s.read_bytes app_id) (.ofInt i) m.ts_ms
        o.send_ret))

/-- The failure branch of `consume_device_message` after the message has been
enqueued again (or released): the counter is incremented and compared with
`CONFIG_MAX_CONSECUTIVE_SEND_FAILURES`. -/
def count_failure (cfg : Config) (s : State) : State :=
  if wrap_int (s.send_failure_count + 1) > cfg.MAX_CONSECUTIVE_SEND_FAILURES then
    ({ s with send_failure_count := wrap_int (s.send_failure_count + 1) }.emit .disconnect_cloud).emit
      (.k_sleep cfg.CONSECUTIVE_SEND_FAILURE_COOLDOWN_SECONDS)
  else { s with send_failure_count := wrap_int (s.send_failure_count + 1) }

/-- The success branch of `consume_device_message` after the message has been
released: LED pattern and reset of the counter. -/
def count_success (cfg : Config) (s : State) : State :=
  { (if cfg.LED_VERBOSE_INDICATION then s.emit .short_led_pattern_success
      else s.emit .stop_led_pattern) with send_failure_count := 0 }

/-- The part of `consume_device_message` after the send section: the branch on the
value of `ret`. -/
def after_send (cfg : Config) (o : ConsumeEnv) (s : State) (queued_msg : Ptr) (ret : Int) :
    Option (Int × State) :=
  if ret ≠ 0 then
    match enqueue_device_message cfg ⟨o.now, false, false⟩ s queued_msg false with
    | none => none
    | some r =>
      if r.1 ≠ 0 then
        (free_queued_dev_msg_message r.2 queued_msg).map (fun s1 => (r.1, count_failure cfg s1))
      else some (r.1, count_failure cfg r.2)
  else
    (free_queued_dev_msg_message s queued_msg).map (fun s1 => (ret, count_success cfg s1))

/-- The send section of `consume_device_message`, between `await_cloud_ready` and the
test of `ret`. Under the MQTT binding an encoding error ends the call: `.error err`.
Otherwise `.ok` carries the value of `ret` after the section and the state. `ret` is
the value the variable `ret` holds on entry. -/
def send_section (cfg : Config) (o : ConsumeEnv) (s : State) (queued_msg : Ptr) (app_id : Ptr)
    (m : SensorData) (ret : Int) : Except Int (Int × State) :=
  match cfg.binding with
  | .MQTT =>
    if (encode_device_message cfg o s app_id m).1 ≠ 0 then
      .error (encode_device_message cfg o s app_id m).1
    else
      .ok (o.send_ret,
        s.emit (.nrf_cloud_send queued_msg (encode_device_message cfg o s app_id m).2 o.send_ret))
  | .COAP => .ok (coap_send cfg o s queued_msg app_id m ret)

/-- The function `consume_device_message` from the call of `await_cloud_ready` on,
for a handle whose `app_id` is resolved. `ret` is the value of the variable `ret` at
that point. -/
def send_and_settle (cfg : Config) (o : ConsumeEnv) (s : State) (queued_msg : Ptr)
    (app_id : Ptr) (ret : Int) : Option (Int × State) :=
  match run_producers cfg o.producers (s.emit .await_cloud_ready) with
  | none => none
  | some s1 =>
    match s1.read_msg queued_msg with
    | none => none
    | some m =>
      match send_section cfg o s1 queued_msg app_id m ret with
      | .error err => (free_queued_dev_msg_message s1 queued_msg).map (fun s2 => (err, s2))
      | .ok r => after_send cfg o r.2 queued_msg r.1

/-- The `app_id` used by `consume_device_message` for a dequeued message: its own
when set, otherwise the result of `nrf_cloud_sensor_app_id_lookup` on its type. -/
def resolve_app_id (cfg : Config) (m : SensorData) : Ptr :=
  if m.app_id ≠ .null then m.app_id else cfg.nrf_cloud_sensor_app_id_lookup m.type

/-- The function `consume_device_message`. Returns the `int` result and the new
state. `none` stands for the consumer staying suspended on an empty queue, or for
undefined behaviour (a handle that does not address a message record). -/
def consume_device_message (cfg : Config) (o : ConsumeEnv) (s : State) :
    Option (Int × State) :=
  match k_msgq_get o.get_ret s with
  | none => none
  | some g =>
    if g.1 ≠ 0 then some (-g.1, g.2.2)
    else if g.2.1 = .null then some (-ENOMSG, g.2.2)
    else
      match g.2.2.read_msg g.2.1 with
      | none => none
      | some m =>
        if resolve_app_id cfg m = .null then some (-EINVAL, g.2.2)
        else send_and_settle cfg o g.2.2 g.2.1 (resolve_app_id cfg m) g.1

/-! ## Runs -/

/-- One step of a run: a producer calls `send_device_message`, the consumer thread
runs `consume_device_message` once, or a caller stores into (`some o`) or gives up
(`none`) storage of its own. -/
inductive Step where
  | submit (p : Submit)
  | consume (o : ConsumeEnv)
  | caller_store (a : Nat) (v : Option Obj)

/-- State after one step; `none` when the step does not complete (consumer suspended
on the empty queue) or is undefined. -/
def step (cfg : Config) (st : Step) (s : State) : Option State :=
  match st with
  | .submit p => (send_device_message cfg p.env s (caller_ptr p.msg)).map Prod.snd
  | .consume o => (consume_device_message cfg o s).map Prod.snd
  | .caller_store a v => some (s.caller_store a v)

/-- State after a finite sequence of steps. -/
def run (cfg : Config) : List Step → State → Option State
  | [], s => some s
  | st :: rest, s =>
    match step cfg st s with
    | none => none
    | some s1 => run cfg rest s1

/-- Successive consumer calls. The result lists, for each call, the events the call
added to the trace. -/
def consume_seq (cfg : Config) : List ConsumeEnv → State → Option (List (List Event) × State)
  | [], s => some ([], s)
  | o :: os, s =>
    match consume_device_message cfg o s with
    | none => none
    | some r =>
      match consume_seq cfg os r.2 with
      | none => none
      | some rest => some (r.2.trace.drop s.trace.length :: rest.1, rest.2)

/-- The send section of `consume_device_message` makes a transport call for the
record `m`: under the MQTT binding when `encode_device_message` returns 0, under the
CoAP binding in the cases of the switch that call the transport. Whether it does
depends neither on the memory nor on the handle, so the section is run on an empty
state here. -/
def makes_send (cfg : Config) (o : ConsumeEnv) (m : SensorData) : Bool :=
  match send_section cfg o (State.init fun _ => none) .null (resolve_app_id cfg m) m 0 with
  | .error _ => false
  | .ok r => r.2.trace.length = 1

/-! ## Reading the trace -/

/-- The value a transport send returned, for the events that are transport sends. -/
def Event.send_result : Event → Option Int
  | .nrf_cloud_send _ _ r => some r
  | .nrf_cloud_coap_location_send _ _ r => some r
  | .nrf_cloud_coap_sensor_send _ _ _ _ r => some r
  | _ => none

/-- The handle of the message a transport send was made for. -/
def Event.sent_handle : Event → Option Ptr
  | .nrf_cloud_send q _ _ => some q
  | .nrf_cloud_coap_location_send q _ _ => some q
  | .nrf_cloud_coap_sensor_send q _ _ _ _ => some q
  | _ => none

/-- The time stamp a transport send was given: the `ts` member of the object passed
to `nrf_cloud_send`, the argument `ts_ms` of `nrf_cloud_coap_sensor_send`. The call
`nrf_cloud_coap_location_send` takes none. -/
def Event.sent_ts : Event → Option Int
  | .nrf_cloud_send _ obj _ => some obj.ts
  | .nrf_cloud_coap_sensor_send _ _ _ ts _ => some ts
  | _ => none

/-- The application id string a transport send was given (by content): the `appId` of
the object passed to `nrf_cloud_send`, the argument `app_id` of
`nrf_cloud_coap_sensor_send`. The call `nrf_cloud_coap_location_send` takes none. -/
def Event.sent_app_id : Event → Option (Option (List Nat))
  | .nrf_cloud_send _ obj _ => some obj.app_id
  | .nrf_cloud_coap_sensor_send _ app _ _ _ => some app
  | _ => none

/-- The event is a transport send that returned an error. -/
def Event.send_failed (e : Event) : Bool :=
  match e.send_result with
  | some r => r ≠ 0
  | none => false

/-- The event is a transport send that returned 0. -/
def Event.send_succeeded (e : Event) : Bool :=
  match e.send_result with
  | some r => r = 0
  | none => false

/-- The event is `disconnect_cloud` or the cooldown `k_sleep`. -/
def Event.is_breaker : Event → Bool
  | .disconnect_cloud => true
  | .k_sleep _ => true
  | _ => false

/-- The LED call of the success branch. -/
def led_event (cfg : Config) : Event :=
  if cfg.LED_VERBOSE_INDICATION then .short_led_pattern_success else .stop_led_pattern

/-- The calls of the failure branch when the counter has reached `count`: disconnect
and cooldown when it exceeds `CONFIG_MAX_CONSECUTIVE_SEND_FAILURES`, else none. -/
def breaker_events (cfg : Config) (count : Int) : List Event :=
  if count > cfg.MAX_CONSECUTIVE_SEND_FAILURES then
    [.disconnect_cloud, .k_sleep cfg.CONSECUTIVE_SEND_FAILURE_COOLDOWN_SECONDS]
  else []

/-- Handles of the transport sends in a trace, in order. -/
def sent_handles (tr : List Event) : List Ptr := tr.filterMap Event.sent_handle

/-- Handles of the transport sends that returned 0, in order. -/
def delivered_handles (tr : List Event) : List Ptr :=
  (tr.filter Event.send_succeeded).filterMap Event.sent_handle

/-! ## Ownership of queued messages -/

/-- Blocks that make up the message behind handle `q`: the record and, for a block
message, the payload buffer its `data.ptr` addresses. -/
def State.blocks (s : State) (q : Ptr) : List Ptr :=
  match s.read_msg q with
  | some m =>
    match m.payload with
    | .data ptr _ => [q, ptr]
    | _ => [q]
  | none => [q]

/-- Handle `q` addresses a copy as `allocate_dev_msg_for_queue` makes them: a live
record block whose payload buffer, for a block message, is a live block of bytes. -/
def State.Queued (s : State) (q : Ptr) : Prop :=
  ∃ k m, q = .heap k ∧ s.heap k = some (.msg m) ∧ k ∈ s.live ∧
    ∀ ptr len, m.payload = .data ptr len →
      ∃ j b, ptr = .heap j ∧ s.heap j = some (.bytes b) ∧ j ∈ s.live

/-- The allocator state is consistent: blocks not handed out yet hold nothing, and
the live blocks are distinct blocks handed out before. -/
structure State.HeapOK (s : State) : Prop where
  fresh : ∀ k, s.next ≤ k → s.heap k = none
  live_lt : ∀ k ∈ s.live, k < s.next
  live_nodup : s.live.Nodup

/-- The handles `hs` are owned by the queue module: each addresses a queued copy, and
no block belongs to two of them. -/
structure State.Owns (s : State) (hs : List Ptr) : Prop where
  heap_ok : s.HeapOK
  queued : ∀ q ∈ hs, s.Queued q
  nodup : (hs.flatMap s.blocks).Nodup

/-- The invariant of the module between calls: the queue owns the handles it
holds. -/
def State.Inv (s : State) : Prop := s.Owns s.queue

/-- The record `allocate_dev_msg_for_queue` stores for the message `m` stamped with
time `t` when the next free block is `n`. -/
def queued_copy (m : SensorData) (t : Int) (n : Nat) : SensorData :=
  { m with
    ts_ms := t
    payload := match m.payload with
      | .data _ len => .data (.heap (n + 1)) len
      | p => p }

/-- `s1` arises from `s` by stores into caller memory and allocator activity above the
allocation mark of `s`. -/
structure Grows (s s1 : State) : Prop where
  next_le : s.next ≤ s1.next
  heap_eq : ∀ k, k < s.next → s1.heap k = s.heap k
  live_mono : ∀ k, k ∈ s.live → k ∈ s1.live
  heap_ok : s1.HeapOK

/-- In `s1` the blocks that made up the message behind `q` in `s` have been given
back to the allocator. -/
def Released (s s1 : State) (q : Ptr) : Prop :=
  ∀ p ∈ s.blocks q, ∀ k, p = .heap k → s1.heap k = none ∧ k ∉ s1.live

/-- The payload of a block message addresses, in the caller's memory, an array of
at least `data.len` bytes, as the `memcpy` of the copy requires of its source. -/
def valid_payload (s : State) (m : SensorData) : Prop :=
  ∀ ptr len, m.payload = .data ptr len →
    ∃ c b, ptr = .ext c ∧ s.ext c = some (.bytes b) ∧ len ≤ b.length

/-! ## Example configuration and caller memory -/

/-- An example configuration with `cap` queue slots: failure threshold 3, cooldown 10
seconds, GNSS records of 4 bytes, and application ids known for sensor types 0 (GNSS)
and 1 (TEMP). -/
def example_cfg (b : Binding) (cap : Nat) : Config :=
  { MAX_OUTGOING_MESSAGES := cap
    MAX_CONSECUTIVE_SEND_FAILURES := 3
    CONSECUTIVE_SEND_FAILURE_COOLDOWN_SECONDS := 10
    LED_VERBOSE_INDICATION := false
    binding := b
    SENSOR_GNSS := 0
    sizeof_gnss_data := 4
    nrf_cloud_sensor_app_id_lookup := fun t =>
      if t = 0 then .ext 100 else if t = 1 then .ext 101 else .null
    threshold_fits_int := by decide }

/-- Example caller memory. Messages: 1 a temperature (double), 2 a counter (int) with
its own `app_id`, 3 a GNSS record, 4 a string, 5 an int message of a sensor type
without application id, 6 a GNSS message of the wrong length. Buffers and strings:
50 the GNSS record, 60 the text "hi", 100 "GNSS", 101 "TEMP", 102 "COUNT". -/
def example_ext : Nat → Option Obj := fun a =>
  if a = 1 then some (.msg { type := 1, payload := .double_val 7, ts_ms := 0, app_id := .null })
  else if a = 2 then
    some (.msg { type := 0, payload := .int_val 5, ts_ms := 0, app_id := .ext 102 })
  else if a = 3 then
    some (.msg { type := 0, payload := .data (.ext 50) 4, ts_ms := 0, app_id := .null })
  else if a = 4 then
    some (.msg { type := 1, payload := .str_val (.ext 60), ts_ms := 0, app_id := .null })
  else if a = 5 then
    some (.msg { type := 9, payload := .int_val 1, ts_ms := 0, app_id := .null })
  else if a = 6 then
    some (.msg { type := 0, payload := .data (.ext 50) 3, ts_ms := 0, app_id := .null })
  else if a = 50 then some (.bytes [1, 2, 3, 4])
  else if a = 60 then some (.bytes [104, 105])
  else if a = 100 then some (.bytes [71, 78, 83, 83])
  else if a = 101 then some (.bytes [84, 69, 77, 80])
  else if a = 102 then some (.bytes [67, 79, 85, 78, 84])
  else none

/-- A producer call for the message at caller address `a` at clock time `t`, with
both allocations succeeding. -/
def submit_at (a : Nat) (t : Int) : Submit :=
  { msg := some a, env := { now := some t, alloc_msg := true, alloc_data := true } }

/-- A consumer call in which the queue read and the codec succeed, no producer runs
meanwhile, the transport returns `send_ret` and the clock reads `t`. -/
def consume_with (send_ret : Int) (t : Int) : ConsumeEnv :=
  { get_ret := 0, producers := [], msg_init_ret := 0, ts_add_ret := 0, data_add_ret := 0,
    send_ret := send_ret, now := some t }

/-- The state the example producers leave behind: the messages at the caller
addresses `as` submitted one after the other to the empty queue, at times 10, 11, and
so on. -/
def example_state (cfg : Config) (as : List Nat) : State :=
  (run cfg ((List.range as.length).zipWith (fun i a => Step.submit (submit_at a (10 + i))) as)
    (State.init example_ext)).getD (State.init example_ext)

/-- The state a run over the example memory ends in (the start state when the run
does not complete). -/
def example_run (cfg : Config) (steps : List Step) : State :=
  (run cfg steps (State.init example_ext)).getD (State.init example_ext)

/-- Three producer calls for the example messages 1, 2 and 3, a consumer call whose
send fails and one whose send succeeds. -/
def example_steps : List Step :=
  [.submit (submit_at 1 10), .submit (submit_at 2 11), .submit (submit_at 3 12),
    .consume (consume_with (-5) 13), .consume (consume_with 0 14)]

/-- The per-call events and the end state of successive consumer calls (nothing and
the start state when a call does not complete). -/
def example_consume_seq (cfg : Config) (os : List ConsumeEnv) (s : State) :
    List (List Event) × State :=
  (consume_seq cfg os s).getD ([], s)

/-- The result and the end state of one consumer call (0 and the start state when the
call does not complete). -/
def example_consume (cfg : Config) (o : ConsumeEnv) (s : State) : Int × State :=
  (consume_device_message cfg o s).getD (0, s)

/-- The result and the end state of one producer call (0 and the start state when the
call is undefined). -/
def example_submit (cfg : Config) (p : Submit) (s : State) : Int × State :=
  (send_device_message cfg p.env s (caller_ptr p.msg)).getD (0, s)

/-- The state the example producers leave behind, with `send_failure_count` at
`c`. -/
def example_counted (cfg : Config) (as : List Nat) (c : Int) : State :=
  { example_state cfg as with send_failure_count := c }

/-- The conditions on the environment and on a record under which a transport send is
expected for it: under the MQTT binding the three codec calls succeed; a block payload
is a GNSS record of the size of `struct nrf_cloud_gnss_data` behind a non-null
pointer; a string is sent under the MQTT binding only. -/
def sendable (cfg : Config) (o : ConsumeEnv) (m : SensorData) : Bool :=
  (match cfg.binding with
   | .MQTT => decide (o.msg_init_ret = 0 ∧ o.ts_add_ret = 0 ∧ o.data_add_ret = 0)
   | .COAP => true) &&
  (match m.payload with
   | .data ptr len =>
     decide (m.type = cfg.SENSOR_GNSS ∧ ptr ≠ .null ∧ len = cfg.sizeof_gnss_data)
   | .str_val _ => decide (cfg.binding = .MQTT)
   | .double_val _ => true
   | .int_val _ => true)

/-- Every consumer environment of `os` makes a transport call for every record queued
in `s`, under a resolved `app_id` (decidable form). -/
def sendable_queue (cfg : Config) (os : List ConsumeEnv) (s : State) : Bool :=
  os.all fun o => s.queue.all fun q =>
    match s.read_msg q with
    | some m => decide (resolve_app_id cfg m ≠ .null) && makes_send cfg o m
    | none => true

/-! ## Frame lemmas: what the primitives leave alone -/

/-- An option that holds a value is `some` of what `getD` extracts. -/
theorem some_getD {α : Type} {x : Option α} {d : α} (h : x.isSome = true) :
    x = some (x.getD d) := by
  cases x with
  | none => simp at h
  | some a => rfl


@[simp] theorem write_queue (s : State) (p : Ptr) (o : Obj) : (s.write p o).queue = s.queue := by
  cases p <;> rfl

@[simp] theorem write_live (s : State) (p : Ptr) (o : Obj) : (s.write p o).live = s.live := by
  cases p <;> rfl

@[simp] theorem write_next (s : State) (p : Ptr) (o : Obj) : (s.write p o).next = s.next := by
  cases p <;> rfl

@[simp] theorem write_count (s : State) (p : Ptr) (o : Obj) :
    (s.write p o).send_failure_count = s.send_failure_count := by
  cases p <;> rfl

@[simp] theorem write_trace (s : State) (p : Ptr) (o : Obj) : (s.write p o).trace = s.trace := by
  cases p <;> rfl

@[simp] theorem k_free_queue (s : State) (p : Ptr) : (k_free p s).queue = s.queue := by
  cases p <;> rfl

@[simp] theorem k_free_count (s : State) (p : Ptr) :
    (k_free p s).send_failure_count = s.send_failure_count := by
  cases p <;> rfl

@[simp] theorem k_free_trace (s : State) (p : Ptr) : (k_free p s).trace = s.trace := by
  cases p <;> rfl

@[simp] theorem k_free_next (s : State) (p : Ptr) : (k_free p s).next = s.next := by
  cases p <;> rfl

@[simp] theorem k_free_ext (s : State) (p : Ptr) : (k_free p s).ext = s.ext := by
  cases p <;> rfl

@[simp] theorem k_malloc_queue (b : Bool) (s : State) : (k_malloc b s).2.queue = s.queue := by
  cases b <;> rfl

@[simp] theorem k_malloc_count (b : Bool) (s : State) :
    (k_malloc b s).2.send_failure_count = s.send_failure_count := by
  cases b <;> rfl

@[simp] theorem k_malloc_trace (b : Bool) (s : State) : (k_malloc b s).2.trace = s.trace := by
  cases b <;> rfl

@[simp] theorem k_malloc_ext (b : Bool) (s : State) : (k_malloc b s).2.ext = s.ext := by
  cases b <;> rfl

@[simp] theorem k_malloc_heap (b : Bool) (s : State) : (k_malloc b s).2.heap = s.heap := by
  cases b <;> rfl

@[simp] theorem emit_queue (s : State) (e : Event) : (s.emit e).queue = s.queue := rfl

@[simp] theorem emit_live (s : State) (e : Event) : (s.emit e).live = s.live := rfl

@[simp] theorem emit_count (s : State) (e : Event) :
    (s.emit e).send_failure_count = s.send_failure_count := rfl

@[simp] theorem emit_trace (s : State) (e : Event) : (s.emit e).trace = s.trace ++ [e] := rfl

@[simp] theorem emit_read_msg (s : State) (e : Event) (p : Ptr) :
    (s.emit e).read_msg p = s.read_msg p := by
  cases p <;> rfl

@[simp] theorem emit_read_bytes (s : State) (e : Event) (p : Ptr) :
    (s.emit e).read_bytes p = s.read_bytes p := by
  cases p <;> rfl

@[simp] theorem upd_same (f : Nat → Option Obj) (a : Nat) (v : Option Obj) :
    upd f a v a = v := by
  simp [upd]

/-- The payload copy leaves queue, counter and trace alone. -/
theorem copy_block_frame (o : EnqueueEnv) (s : State) (p : Ptr) (m : SensorData)
    (a : Ptr × State) (h : copy_block o s p m = some a) :
    a.2.queue = s.queue ∧ a.2.send_failure_count = s.send_failure_count ∧
    a.2.trace = s.trace := by
  unfold copy_block at h
  cases hpl : m.payload with
  | data ptr len =>
    rw [hpl] at h
    simp only at h
    by_cases hn : (k_malloc o.alloc_data s).1 = .null
    · rw [if_pos hn] at h
      cases h
      simp
    · rw [if_neg hn] at h
      cases hb : memcpy_src s ptr len with
      | none =>
        rw [hb] at h
        cases h
      | some bytes =>
        rw [hb] at h
        cases h
        simp
  | str_val _ => rw [hpl] at h; cases h; simp
  | double_val _ => rw [hpl] at h; cases h; simp
  | int_val _ => rw [hpl] at h; cases h; simp

/-- The record copy leaves queue, counter and trace alone. -/
theorem allocate_frame (o : EnqueueEnv) (s : State) (p : Ptr) (a : Ptr × State)
    (h : allocate_dev_msg_for_queue o s p = some a) :
    a.2.queue = s.queue ∧ a.2.send_failure_count = s.send_failure_count ∧
    a.2.trace = s.trace := by
  unfold allocate_dev_msg_for_queue at h
  by_cases hp : p = .null
  · simp [hp] at h; subst h; simp
  · cases hm : s.read_msg p with
    | none => simp [hp, hm] at h
    | some m =>
      by_cases hn : (k_malloc o.alloc_msg s).1 = .null
      · simp [hp, hm, hn] at h; subst h; simp
      · simp only [hp, hm, hn, if_false] at h
        have := copy_block_frame o
          ((k_malloc o.alloc_msg s).2.write (k_malloc o.alloc_msg s).1 (.msg m))
          (k_malloc o.alloc_msg s).1 m a h
        simpa using this

/-- Releasing a message leaves queue, counter and trace alone. -/
theorem free_frame (s s1 : State) (p : Ptr) (h : free_queued_dev_msg_message s p = some s1) :
    s1.queue = s.queue ∧ s1.send_failure_count = s.send_failure_count ∧ s1.trace = s.trace := by
  unfold free_queued_dev_msg_message at h
  by_cases hp : p = .null
  · simp [hp] at h; subst h; simp
  · cases hm : s.read_msg p with
    | none => simp [hp, hm] at h
    | some m => cases hpl : m.payload <;> simp [hp, hm, hpl] at h <;> (subst h; simp)

/-- Effect of the `k_msgq_put` section on queue, counter and trace. -/
theorem enqueue_put_frame (cfg : Config) (s : State) (q : Ptr) (cc : Bool) (r : Int × State)
    (h : enqueue_put cfg s q cc = some r) :
    r.2.send_failure_count = s.send_failure_count ∧ r.2.trace = s.trace ∧
    ((r.1 = 0 ∧ s.queue.length < cfg.MAX_OUTGOING_MESSAGES ∧ r.2.queue = s.queue ++ [q]) ∨
     (r.1 = -ENOMEM ∧ cfg.MAX_OUTGOING_MESSAGES ≤ s.queue.length ∧ r.2.queue = s.queue)) := by
  unfold enqueue_put k_msgq_put at h
  by_cases hlen : s.queue.length < cfg.MAX_OUTGOING_MESSAGES
  · simp [hlen] at h; subst h; simp [hlen]
  · cases cc
    · simp [hlen, ENOMSG] at h; subst h; simp [ENOMEM]; omega
    · simp [hlen, ENOMSG] at h
      obtain ⟨s1, hs1, rfl⟩ := h
      have := free_frame _ _ _ hs1
      simp [this, ENOMEM]; omega

/-- Effect of `enqueue_device_message` on queue, counter and trace: counter and trace
are untouched; the queue either gains one handle at its tail (result 0, a slot was
free) or is unchanged (non-zero result). -/
theorem enqueue_frame (cfg : Config) (o : EnqueueEnv) (s : State) (msg : Ptr) (cc : Bool)
    (r : Int × State) (h : enqueue_device_message cfg o s msg cc = some r) :
    r.2.send_failure_count = s.send_failure_count ∧ r.2.trace = s.trace ∧
    ((r.1 = 0 ∧ s.queue.length < cfg.MAX_OUTGOING_MESSAGES ∧ ∃ q, r.2.queue = s.queue ++ [q]) ∨
     (r.1 ≠ 0 ∧ r.2.queue = s.queue)) := by
  unfold enqueue_device_message at h
  by_cases hp : msg = .null
  · simp [hp] at h; subst h; simp [EINVAL]
  · cases hnow : o.now with
    | none => simp [hp, hnow] at h; subst h; simp [ETIME]
    | some t =>
      cases hm : s.read_msg msg with
      | none => simp [hp, hnow, hm] at h
      | some m =>
        cases cc
        · simp [hp, hnow, hm] at h
          obtain ⟨h1, h2, h3 | h3⟩ := enqueue_put_frame _ _ _ _ _ h
          · simp at h1 h2 h3; simp [h1, h2, h3]
          · simp at h1 h2 h3; simp [h1, h2, h3, ENOMEM]
        · simp only [hp, hnow, hm, if_true, if_false] at h
          cases ha : allocate_dev_msg_for_queue o
              (s.write msg (.msg { m with ts_ms := t })) msg with
          | none => simp [ha] at h
          | some a =>
            have hfr := allocate_frame _ _ _ _ ha
            simp at hfr
            by_cases hn : a.1 = .null
            · simp [ha, hn] at h; subst h; simp [hfr, ENOMEM]
            · simp [ha, hn] at h
              obtain ⟨h1, h2, h3 | h3⟩ := enqueue_put_frame _ _ _ _ _ h
              · simp [hfr] at h1 h2 h3; simp [h1, h2, h3]
              · simp [hfr] at h1 h2 h3; simp [h1, h2, h3, ENOMEM]

/-- A call of `enqueue_device_message` keeps the queue within its capacity. -/
theorem enqueue_queue_le (cfg : Config) (o : EnqueueEnv) (s : State) (msg : Ptr) (cc : Bool)
    (r : Int × State) (h : enqueue_device_message cfg o s msg cc = some r)
    (hle : s.queue.length ≤ cfg.MAX_OUTGOING_MESSAGES) :
    r.2.queue.length ≤ cfg.MAX_OUTGOING_MESSAGES := by
  obtain ⟨-, -, h1 | h1⟩ := enqueue_frame cfg o s msg cc r h
  · obtain ⟨-, hlt, q, hq⟩ := h1
    rw [hq]; simp; omega
  · rw [h1.2]; exact hle

/-- Producer calls keep the queue within its capacity. -/
theorem run_producers_queue_le (cfg : Config) (ps : List Submit) (s s1 : State)
    (h : run_producers cfg ps s = some s1)
    (hle : s.queue.length ≤ cfg.MAX_OUTGOING_MESSAGES) :
    s1.queue.length ≤ cfg.MAX_OUTGOING_MESSAGES := by
  induction ps generalizing s with
  | nil => simp [run_producers] at h; subst h; exact hle
  | cons p ps ih =>
    simp only [run_producers] at h
    cases hs : send_device_message cfg p.env s (caller_ptr p.msg) with
    | none => simp [hs] at h
    | some r =>
      simp [hs] at h
      exact ih r.2 h (enqueue_queue_le cfg _ _ _ _ _ hs hle)

/-- Producer calls leave counter and trace alone. -/
theorem run_producers_frame (cfg : Config) (ps : List Submit) (s s1 : State)
    (h : run_producers cfg ps s = some s1) :
    s1.send_failure_count = s.send_failure_count ∧ s1.trace = s.trace := by
  induction ps generalizing s with
  | nil => simp [run_producers] at h; subst h; simp
  | cons p ps ih =>
    simp only [run_producers] at h
    cases hs : send_device_message cfg p.env s (caller_ptr p.msg) with
    | none => simp [hs] at h
    | some r =>
      simp [hs] at h
      obtain ⟨h1, h2, -⟩ := enqueue_frame cfg _ _ _ _ _ hs
      obtain ⟨h3, h4⟩ := ih r.2 h
      exact ⟨h3.trans h1, h4.trans h2⟩

@[simp] theorem count_failure_queue (cfg : Config) (s : State) :
    (count_failure cfg s).queue = s.queue := by
  unfold count_failure; split <;> rfl

@[simp] theorem count_success_queue (cfg : Config) (s : State) :
    (count_success cfg s).queue = s.queue := by
  unfold count_success; split <;> rfl

@[simp] theorem coap_send_queue (cfg : Config) (o : ConsumeEnv) (s : State) (q a : Ptr)
    (m : SensorData) (ret : Int) : (coap_send cfg o s q a m ret).2.queue = s.queue := by
  unfold coap_send
  cases m.payload with
  | data ptr len => simp only []; split <;> rfl
  | str_val _ => rfl
  | double_val _ => rfl
  | int_val _ => rfl

/-- The tail of `consume_device_message` keeps the queue within its capacity. -/
theorem after_send_queue_le (cfg : Config) (o : ConsumeEnv) (s : State) (q : Ptr)
    (ret : Int) (r : Int × State) (h : after_send cfg o s q ret = some r)
    (hle : s.queue.length ≤ cfg.MAX_OUTGOING_MESSAGES) :
    r.2.queue.length ≤ cfg.MAX_OUTGOING_MESSAGES := by
  unfold after_send at h
  by_cases hret : ret = 0
  · simp [hret] at h
    obtain ⟨s1, hf, rfl⟩ := h
    simpa [(free_frame _ _ _ hf).1] using hle
  · simp only [ne_eq, hret, not_false_eq_true, if_true] at h
    cases he : enqueue_device_message cfg ⟨o.now, false, false⟩ s q false with
    | none => simp [he] at h
    | some e =>
      have h2 := enqueue_queue_le cfg _ _ _ _ _ he hle
      by_cases he1 : e.1 = 0
      · simp [he, he1] at h; subst h; simpa using h2
      · simp [he, he1] at h
        obtain ⟨s1, hf, rfl⟩ := h
        simpa [(free_frame _ _ _ hf).1] using h2

@[simp] theorem count_failure_heap (cfg : Config) (s : State) :
    (count_failure cfg s).heap = s.heap := by
  unfold count_failure; split <;> rfl

@[simp] theorem count_failure_ext (cfg : Config) (s : State) :
    (count_failure cfg s).ext = s.ext := by
  unfold count_failure; split <;> rfl

@[simp] theorem count_failure_live (cfg : Config) (s : State) :
    (count_failure cfg s).live = s.live := by
  unfold count_failure; split <;> rfl

@[simp] theorem count_failure_next (cfg : Config) (s : State) :
    (count_failure cfg s).next = s.next := by
  unfold count_failure; split <;> rfl

@[simp] theorem count_failure_count (cfg : Config) (s : State) :
    (count_failure cfg s).send_failure_count = wrap_int (s.send_failure_count + 1) := by
  unfold count_failure; split <;> rfl

@[simp] theorem count_success_heap (cfg : Config) (s : State) :
    (count_success cfg s).heap = s.heap := by
  unfold count_success; split <;> rfl

@[simp] theorem count_success_ext (cfg : Config) (s : State) :
    (count_success cfg s).ext = s.ext := by
  unfold count_success; split <;> rfl

@[simp] theorem count_success_live (cfg : Config) (s : State) :
    (count_success cfg s).live = s.live := by
  unfold count_success; split <;> rfl

@[simp] theorem count_success_next (cfg : Config) (s : State) :
    (count_success cfg s).next = s.next := by
  unfold count_success; split <;> rfl

@[simp] theorem count_success_count (cfg : Config) (s : State) :
    (count_success cfg s).send_failure_count = 0 := by
  unfold count_success; split <;> rfl

/-- The send section leaves everything but the trace alone, and an encoding error is
never 0. -/
theorem send_section_frame (cfg : Config) (o : ConsumeEnv) (s : State) (q a : Ptr)
    (m : SensorData) (ret : Int) :
    (∃ e, send_section cfg o s q a m ret = .error e ∧ e ≠ 0 ∧ cfg.binding = .MQTT) ∨
    (∃ r, send_section cfg o s q a m ret = .ok r ∧ r.2.queue = s.queue ∧ r.2.heap = s.heap ∧
      r.2.ext = s.ext ∧ r.2.live = s.live ∧ r.2.next = s.next ∧
      r.2.send_failure_count = s.send_failure_count ∧
      ((r.1 = ret ∧ r.2 = s ∧ cfg.binding = .COAP) ∨
       (r.1 = o.send_ret ∧ ∃ ev, r.2 = s.emit ev ∧
         (ev = .nrf_cloud_send q (encode_device_message cfg o s a m).2 o.send_ret ∨
          (∃ b, ev = .nrf_cloud_coap_location_send q b o.send_ret) ∨
          (∃ b v, ev = .nrf_cloud_coap_sensor_send q b v m.ts_ms o.send_ret))))) := by
  unfold send_section
  cases hb : cfg.binding with
  | MQTT =>
    by_cases he : (encode_device_message cfg o s a m).1 = 0
    · right
      simp only [he, ne_eq, not_true_eq_false, if_false]
      exact ⟨_, rfl, rfl, rfl, rfl, rfl, rfl, rfl, Or.inr ⟨rfl, _, rfl, Or.inl rfl⟩⟩
    · left
      simp only [ne_eq, he, not_false_eq_true, if_true]
      exact ⟨_, rfl, he, by simp⟩
  | COAP =>
    right
    refine ⟨_, rfl, ?_⟩
    unfold coap_send
    cases m.payload with
    | data ptr len =>
      by_cases hc : m.type = cfg.SENSOR_GNSS ∧ ptr ≠ .null ∧ len = cfg.sizeof_gnss_data
      · simp only []
        rw [if_pos hc]
        exact ⟨rfl, rfl, rfl, rfl, rfl, rfl, Or.inr ⟨rfl, _, rfl, Or.inr (Or.inl ⟨_, rfl⟩)⟩⟩
      · simp only []
        rw [if_neg hc]
        exact ⟨rfl, rfl, rfl, rfl, rfl, rfl, Or.inl ⟨rfl, rfl, by simp⟩⟩
    | str_val _ => exact ⟨rfl, rfl, rfl, rfl, rfl, rfl, Or.inl ⟨rfl, rfl, by simp⟩⟩
    | double_val d =>
      exact ⟨rfl, rfl, rfl, rfl, rfl, rfl, Or.inr ⟨rfl, _, rfl, Or.inr (Or.inr ⟨_, _, rfl⟩)⟩⟩
    | int_val i =>
      exact ⟨rfl, rfl, rfl, rfl, rfl, rfl, Or.inr ⟨rfl, _, rfl, Or.inr (Or.inr ⟨_, _, rfl⟩)⟩⟩

/-- The send section and the tail of `consume_device_message` keep the queue within
its capacity. -/
theorem send_and_settle_queue_le (cfg : Config) (o : ConsumeEnv) (s : State) (q a : Ptr)
    (ret : Int) (r : Int × State) (h : send_and_settle cfg o s q a ret = some r)
    (hle : s.queue.length ≤ cfg.MAX_OUTGOING_MESSAGES) :
    r.2.queue.length ≤ cfg.MAX_OUTGOING_MESSAGES := by
  unfold send_and_settle at h
  cases hprod : run_producers cfg o.producers (s.emit .await_cloud_ready) with
  | none => simp [hprod] at h
  | some s1 =>
    have h1 := run_producers_queue_le cfg _ _ _ hprod (by simpa using hle)
    cases hm : s1.read_msg q with
    | none => simp [hprod, hm] at h
    | some m =>
      simp only [hprod, hm] at h
      rcases send_section_frame cfg o s1 q a m ret with ⟨e, he, -, -⟩ | ⟨r1, hr1, hq, -⟩
      · simp [he] at h
        obtain ⟨s2, hf, rfl⟩ := h
        simpa [(free_frame _ _ _ hf).1] using h1
      · simp only [hr1] at h
        exact after_send_queue_le cfg o _ _ _ _ h (by rw [hq]; exact h1)

/-- A call of `consume_device_message` keeps the queue within its capacity. -/
theorem consume_queue_le (cfg : Config) (o : ConsumeEnv) (s : State) (r : Int × State)
    (h : consume_device_message cfg o s = some r)
    (hle : s.queue.length ≤ cfg.MAX_OUTGOING_MESSAGES) :
    r.2.queue.length ≤ cfg.MAX_OUTGOING_MESSAGES := by
  unfold consume_device_message at h
  cases hget : k_msgq_get o.get_ret s with
  | none => simp [hget] at h
  | some g =>
    have hg : g.2.2.queue.length ≤ cfg.MAX_OUTGOING_MESSAGES := by
      unfold k_msgq_get at hget
      by_cases hr : o.get_ret = 0
      · cases hq : s.queue with
        | nil => simp [hr, hq] at hget
        | cons p rest =>
          simp [hr, hq] at hget; subst hget
          simp [hq] at hle ⊢; omega
      · simp [hr] at hget; subst hget; exact hle
    simp only [hget] at h
    by_cases h1 : g.1 = 0
    · by_cases h2 : g.2.1 = .null
      · simp [h1, h2] at h; subst h; exact hg
      · cases hm : g.2.2.read_msg g.2.1 with
        | none => simp [h1, h2, hm] at h
        | some m =>
          by_cases h3 : resolve_app_id cfg m = .null
          · simp [h1, h2, hm, h3] at h; subst h; exact hg
          · simp only [h1, h2, hm, h3, ne_eq, not_true_eq_false, if_false] at h
            exact send_and_settle_queue_le cfg o _ _ _ _ _ h hg
    · simp [h1] at h; subst h; exact hg

/-- Every step keeps the queue within its capacity. -/
theorem step_queue_le (cfg : Config) (st : Step) (s s1 : State) (h : step cfg st s = some s1)
    (hle : s.queue.length ≤ cfg.MAX_OUTGOING_MESSAGES) :
    s1.queue.length ≤ cfg.MAX_OUTGOING_MESSAGES := by
  cases st with
  | submit p =>
    simp [step] at h
    obtain ⟨r, hr⟩ := h
    exact enqueue_queue_le cfg _ _ _ _ (r, s1) hr hle
  | consume o =>
    simp [step] at h
    obtain ⟨r, hr⟩ := h
    exact consume_queue_le cfg _ _ (r, s1) hr hle
  | caller_store a v =>
    simp [step] at h; subst h; exact hle

/-- Every run keeps the queue within its capacity. -/
theorem run_queue_le (cfg : Config) (steps : List Step) (s s1 : State)
    (h : run cfg steps s = some s1) (hle : s.queue.length ≤ cfg.MAX_OUTGOING_MESSAGES) :
    s1.queue.length ≤ cfg.MAX_OUTGOING_MESSAGES := by
  induction steps generalizing s with
  | nil => simp [run] at h; subst h; exact hle
  | cons st rest ih =>
    simp only [run] at h
    cases hs : step cfg st s with
    | none => simp [hs] at h
    | some s2 =>
      simp [hs] at h
      exact ih s2 h (step_queue_le cfg st s s2 hs hle)

/-- Trace and counter after the failure branch. -/
theorem count_failure_trace (cfg : Config) (s : State) :
    (count_failure cfg s).trace = s.trace ++ breaker_events cfg (wrap_int (s.send_failure_count + 1)) := by
  unfold count_failure breaker_events
  split <;> simp [State.emit]

/-- Trace after the success branch. -/
theorem count_success_trace (cfg : Config) (s : State) :
    (count_success cfg s).trace = s.trace ++ [led_event cfg] := by
  unfold count_success led_event
  split <;> simp [State.emit]

/-- Trace, counter and result after the branch on `ret`. -/
theorem after_send_trace (cfg : Config) (o : ConsumeEnv) (s : State) (q : Ptr) (ret : Int)
    (r : Int × State) (h : after_send cfg o s q ret = some r) :
    (ret ≠ 0 ∧ r.2.send_failure_count = wrap_int (s.send_failure_count + 1) ∧
      r.2.trace = s.trace ++ breaker_events cfg (wrap_int (s.send_failure_count + 1))) ∨
    (ret = 0 ∧ r.1 = 0 ∧ r.2.send_failure_count = 0 ∧ r.2.trace = s.trace ++ [led_event cfg]) := by
  unfold after_send at h
  by_cases hret : ret = 0
  · right
    simp [hret] at h
    obtain ⟨s1, hf, rfl⟩ := h
    obtain ⟨-, h2, h3⟩ := free_frame _ _ _ hf
    simp [hret, count_success_trace, h3]
  · left
    simp only [ne_eq, hret, not_false_eq_true, if_true] at h
    cases he : enqueue_device_message cfg ⟨o.now, false, false⟩ s q false with
    | none => simp [he] at h
    | some e =>
      obtain ⟨h2, h3, -⟩ := enqueue_frame cfg _ _ _ _ _ he
      by_cases he1 : e.1 = 0
      · simp [he, he1] at h; subst h
        simp [count_failure_trace, h2, h3, hret]
      · simp [he, he1] at h
        obtain ⟨s1, hf, rfl⟩ := h
        obtain ⟨-, h4, h5⟩ := free_frame _ _ _ hf
        simp [count_failure_trace, h2, h3, h4, h5, hret]

/-- What a consumer call adds to the trace and does to the counter, case by case:
it ends before `await_cloud_ready`; it ends on an encoding error; its send fails; its
send succeeds; or (CoAP binding only) it makes no send and takes the success
branch. -/
theorem consume_trace (cfg : Config) (o : ConsumeEnv) (s : State) (r : Int × State)
    (h : consume_device_message cfg o s = some r) :
    (r.2.trace = s.trace ∧ r.2.send_failure_count = s.send_failure_count) ∨
    (r.2.trace = s.trace ++ [.await_cloud_ready] ∧
      r.2.send_failure_count = s.send_failure_count ∧ r.1 ≠ 0 ∧ cfg.binding = .MQTT) ∨
    (∃ ev, ev.send_result = some o.send_ret ∧ o.send_ret ≠ 0 ∧
      r.2.trace = s.trace ++ [.await_cloud_ready, ev] ++
        breaker_events cfg (wrap_int (s.send_failure_count + 1)) ∧
      r.2.send_failure_count = wrap_int (s.send_failure_count + 1)) ∨
    (∃ ev, ev.send_result = some o.send_ret ∧ o.send_ret = 0 ∧ r.1 = 0 ∧
      r.2.trace = s.trace ++ [.await_cloud_ready, ev, led_event cfg] ∧
      r.2.send_failure_count = 0) ∨
    (cfg.binding = .COAP ∧ r.1 = 0 ∧
      r.2.trace = s.trace ++ [.await_cloud_ready, led_event cfg] ∧
      r.2.send_failure_count = 0) := by
  unfold consume_device_message at h
  cases hget : k_msgq_get o.get_ret s with
  | none => simp [hget] at h
  | some g =>
    have hg : g.2.2.trace = s.trace ∧ g.2.2.send_failure_count = s.send_failure_count ∧
        (g.1 = 0 → o.get_ret = 0) := by
      unfold k_msgq_get at hget
      by_cases hr : o.get_ret = 0
      · cases hq : s.queue with
        | nil => simp [hr, hq] at hget
        | cons p rest => simp [hr, hq] at hget; subst hget; simp [hr]
      · simp [hr] at hget; subst hget; simp [hr]
    simp only [hget] at h
    by_cases h1 : g.1 = 0
    · by_cases h2 : g.2.1 = .null
      · simp [h1, h2] at h; subst h; exact Or.inl ⟨hg.1, hg.2.1⟩
      · cases hm : g.2.2.read_msg g.2.1 with
        | none => simp [h1, h2, hm] at h
        | some m =>
          by_cases h3 : resolve_app_id cfg m = .null
          · simp [h1, h2, hm, h3] at h; subst h; exact Or.inl ⟨hg.1, hg.2.1⟩
          · simp only [h1, h2, hm, h3, ne_eq, not_true_eq_false, if_false] at h
            right
            unfold send_and_settle at h
            cases hprod : run_producers cfg o.producers (g.2.2.emit .await_cloud_ready) with
            | none => simp [hprod] at h
            | some s1 =>
              obtain ⟨hc1, ht1⟩ := run_producers_frame cfg _ _ _ hprod
              simp only [emit_count, emit_trace] at hc1 ht1
              cases hm1 : s1.read_msg g.2.1 with
              | none => simp [hprod, hm1] at h
              | some m1 =>
                simp only [hprod, hm1] at h
                rcases send_section_frame cfg o s1 g.2.1 (resolve_app_id cfg m) m1 0 with
                  ⟨e, he, hne, hb⟩ | ⟨r1, hr1, -, -, -, -, -, hcnt, hcase⟩
                · left
                  simp [he] at h
                  obtain ⟨s2, hf, rfl⟩ := h
                  obtain ⟨-, hf2, hf3⟩ := free_frame _ _ _ hf
                  exact ⟨by simp [hf3, ht1, hg.1], by simp [hf2, hc1, hg.2.1], hne, hb⟩
                · right
                  simp only [hr1] at h
                  rcases hcase with ⟨hret, hs1, hb⟩ | ⟨hret, ev, hev, hkind⟩
                  · right; right
                    rcases after_send_trace cfg o _ _ _ _ h with ⟨hn, -, -⟩ | ⟨-, hz, hcz, htz⟩
                    · exact absurd hret hn
                    · refine ⟨hb, hz, ?_, hcz⟩
                      rw [htz, hs1, ht1, hg.1]; simp
                  · have hsr : ev.send_result = some o.send_ret := by
                      rcases hkind with rfl | ⟨b, rfl⟩ | ⟨b, v, rfl⟩ <;> rfl
                    rcases after_send_trace cfg o _ _ _ _ h with ⟨hn, hcn, htn⟩ | ⟨hz0, hz, hcz, htz⟩
                    · left
                      refine ⟨ev, hsr, by rw [← hret]; exact hn, ?_, ?_⟩
                      · rw [htn, hcnt, hev, hc1, hg.2.1]; simp [ht1, hg.1]
                      · rw [hcn, hcnt, hc1, hg.2.1]
                    · right; left
                      refine ⟨ev, hsr, by rw [← hret]; exact hz0, hz, ?_, hcz⟩
                      rw [htz, hev]; simp [ht1, hg.1]
    · simp [h1] at h; subst h; exact Or.inl ⟨hg.1, hg.2.1⟩

theorem led_event_send_result (cfg : Config) : (led_event cfg).send_result = none := by
  unfold led_event; split <;> rfl

theorem led_event_is_breaker (cfg : Config) : (led_event cfg).is_breaker = false := by
  unfold led_event; split <;> rfl

theorem send_failed_eq {ev : Event} {r : Int} (h : ev.send_result = some r) :
    ev.send_failed = decide (r ≠ 0) := by
  simp [Event.send_failed, h]

theorem send_succeeded_eq {ev : Event} {r : Int} (h : ev.send_result = some r) :
    ev.send_succeeded = decide (r = 0) := by
  simp [Event.send_succeeded, h]

theorem send_failed_of_none {ev : Event} (h : ev.send_result = none) :
    ev.send_failed = false := by
  simp [Event.send_failed, h]

theorem send_succeeded_of_none {ev : Event} (h : ev.send_result = none) :
    ev.send_succeeded = false := by
  simp [Event.send_succeeded, h]

theorem is_breaker_of_send {ev : Event} {r : Int} (h : ev.send_result = some r) :
    ev.is_breaker = false := by
  cases ev <;> simp [Event.send_result] at h <;> rfl

theorem breaker_events_filter (cfg : Config) (c : Int) :
    (breaker_events cfg c).filter Event.is_breaker = breaker_events cfg c := by
  unfold breaker_events; split <;> rfl

theorem breaker_events_send_result (cfg : Config) (c : Int) :
    ∀ e ∈ breaker_events cfg c, e.send_result = none := by
  unfold breaker_events
  split <;> simp [Event.send_result]

theorem breaker_events_any_failed (cfg : Config) (c : Int) :
    (breaker_events cfg c).any Event.send_failed = false := by
  rw [List.any_eq_false]
  intro e he
  simp [send_failed_of_none (breaker_events_send_result cfg c e he)]

theorem breaker_events_any_succeeded (cfg : Config) (c : Int) :
    (breaker_events cfg c).any Event.send_succeeded = false := by
  rw [List.any_eq_false]
  intro e he
  simp [send_succeeded_of_none (breaker_events_send_result cfg c e he)]

/-- A consumer call whose transport send fails increments the counter and makes the
breaker calls the new counter value asks for, and no other. -/
theorem consume_send_failed (cfg : Config) (o : ConsumeEnv) (s : State) (r : Int × State)
    (h : consume_device_message cfg o s = some r)
    (hf : (r.2.trace.drop s.trace.length).any Event.send_failed = true) :
    r.2.send_failure_count = wrap_int (s.send_failure_count + 1) ∧
    (r.2.trace.drop s.trace.length).filter Event.is_breaker =
      breaker_events cfg (wrap_int (s.send_failure_count + 1)) := by
  have hawait : Event.await_cloud_ready.send_failed = false := rfl
  have hled := send_failed_of_none (led_event_send_result cfg)
  rcases consume_trace cfg o s r h with ⟨ht, -⟩ | ⟨ht, -, -, -⟩ | ⟨ev, hev, hne, ht, hc⟩ |
    ⟨ev, hev, hz, -, ht, -⟩ | ⟨-, -, ht, -⟩
  · rw [ht] at hf; simp at hf
  · rw [ht, List.drop_left] at hf; simp [hawait] at hf
  · refine ⟨hc, ?_⟩
    rw [ht, List.append_assoc, List.drop_left, List.filter_append, breaker_events_filter]
    have hb : ev.is_breaker = false := is_breaker_of_send hev
    have ha : Event.await_cloud_ready.is_breaker = false := rfl
    simp [List.filter_cons, hb, ha]
  · rw [ht, List.drop_left] at hf
    simp [hawait, hled, send_failed_eq hev, hz] at hf
  · rw [ht, List.drop_left] at hf
    simp [hawait, hled] at hf

/-- A consumer call whose transport send succeeds sets the counter to 0 and makes no
breaker call. -/
theorem consume_send_succeeded (cfg : Config) (o : ConsumeEnv) (s : State) (r : Int × State)
    (h : consume_device_message cfg o s = some r)
    (hf : (r.2.trace.drop s.trace.length).any Event.send_succeeded = true) :
    r.2.send_failure_count = 0 ∧
    (r.2.trace.drop s.trace.length).filter Event.is_breaker = [] := by
  have hawait : Event.await_cloud_ready.send_succeeded = false := rfl
  have hled := send_succeeded_of_none (led_event_send_result cfg)
  rcases consume_trace cfg o s r h with ⟨ht, -⟩ | ⟨ht, -, -, -⟩ | ⟨ev, hev, hne, ht, hc⟩ |
    ⟨ev, hev, hz, -, ht, hc⟩ | ⟨-, -, ht, -⟩
  · rw [ht] at hf; simp at hf
  · rw [ht, List.drop_left] at hf; simp [hawait] at hf
  · rw [ht, List.append_assoc, List.drop_left, List.any_append,
      breaker_events_any_succeeded] at hf
    simp [hawait, send_succeeded_eq hev, hne] at hf
  · refine ⟨hc, ?_⟩
    rw [ht, List.drop_left]
    have hb : ev.is_breaker = false := is_breaker_of_send hev
    have ha : Event.await_cloud_ready.is_breaker = false := rfl
    simp [List.filter_cons, hb, ha, led_event_is_breaker]
  · rw [ht, List.drop_left] at hf
    simp [hawait, hled] at hf

/-- An exact result within the range of `int` is kept as it is. -/
theorem wrap_int_eq (x : Int) (h1 : -2147483648 ≤ x) (h2 : x ≤ 2147483647) :
    wrap_int x = x := by
  unfold wrap_int
  omega

/-- Incrementing `INT_MAX` gives `INT_MIN`. -/
theorem wrap_int_overflow : wrap_int (2147483647 + 1) = -2147483648 := by
  decide

/-- At `INT_MAX` the failure branch wraps the counter to `INT_MIN` and, the new value
not exceeding the threshold, makes no breaker call. -/
theorem count_failure_overflow (cfg : Config) (s : State)
    (h : s.send_failure_count = 2147483647) :
    (count_failure cfg s).send_failure_count = -2147483648 ∧
    (count_failure cfg s).trace = s.trace := by
  have hT := cfg.threshold_fits_int.1
  have hw : wrap_int (s.send_failure_count + 1) = -2147483648 := by
    rw [h]
    exact wrap_int_overflow
  unfold count_failure
  rw [hw, if_neg (by omega)]
  exact ⟨rfl, rfl⟩

/-- The value `wrap_int` gives lies within the range of `int`. -/
theorem wrap_int_range (x : Int) : -2147483648 ≤ wrap_int x ∧ wrap_int x ≤ 2147483647 := by
  unfold wrap_int
  omega

/-- Successive consumer calls that all complete give one list of events per call. -/
theorem consume_seq_length (cfg : Config) (os : List ConsumeEnv) (s : State)
    (res : List (List Event) × State) (h : consume_seq cfg os s = some res) :
    res.1.length = os.length := by
  induction os generalizing s res with
  | nil =>
    simp [consume_seq] at h
    subst h
    rfl
  | cons o os ih =>
    simp only [consume_seq] at h
    cases hc : consume_device_message cfg o s with
    | none => simp [hc] at h
    | some r =>
      cases hr : consume_seq cfg os r.2 with
      | none => simp [hc, hr] at h
      | some rest =>
        simp [hc, hr] at h
        subst h
        simp [ih r.2 rest hr]

/-- Consecutive consumer calls whose sends all fail, while the counter stays within
the range of `int`: the call number `i` (from 0) leaves the counter at its start value
plus `i + 1` and makes the breaker calls that value asks for. -/
theorem consume_seq_failures (cfg : Config) (os : List ConsumeEnv) (s : State)
    (res : List (List Event) × State) (h : consume_seq cfg os s = some res)
    (hf : ∀ evs ∈ res.1, evs.any Event.send_failed = true)
    (hlo : -2147483648 ≤ s.send_failure_count)
    (hhi : s.send_failure_count + res.1.length ≤ 2147483647) :
    res.2.send_failure_count = s.send_failure_count + res.1.length ∧
    ∀ (i : Nat) (evs : List Event), res.1[i]? = some evs →
      evs.filter Event.is_breaker = breaker_events cfg (s.send_failure_count + (i + 1)) := by
  induction os generalizing s res with
  | nil =>
    simp [consume_seq] at h
    subst h
    simp
  | cons o os ih =>
    simp only [consume_seq] at h
    cases hc : consume_device_message cfg o s with
    | none => simp [hc] at h
    | some r =>
      cases hr : consume_seq cfg os r.2 with
      | none => simp [hc, hr] at h
      | some rest =>
        simp [hc, hr] at h
        subst h
        simp only [List.length_cons] at hhi
        push_cast at hhi
        obtain ⟨h1, h2⟩ := consume_send_failed cfg o s r hc (hf _ (by simp))
        have hw : wrap_int (s.send_failure_count + 1) = s.send_failure_count + 1 :=
          wrap_int_eq _ (by omega) (by omega)
        rw [hw] at h1 h2
        obtain ⟨h3, h4⟩ := ih r.2 rest hr (fun evs he => hf evs (by simp [he]))
          (by rw [h1]; omega) (by rw [h1]; omega)
        refine ⟨?_, ?_⟩
        · simp [h3, h1]; ring
        · intro i evs hi
          cases i with
          | zero =>
            simp at hi
            subst hi
            simpa using h2
          | succ n =>
            simp at hi
            have := h4 n evs hi
            rw [this, h1]
            congr 1
            push_cast
            ring

/-! ## Ownership lemmas -/

/-- The blocks of a handle depend on its record only through the payload pointer. -/
theorem blocks_congr (s s1 : State) (q : Ptr)
    (h : (s1.read_msg q).map (·.payload) = (s.read_msg q).map (·.payload)) :
    s1.blocks q = s.blocks q := by
  unfold State.blocks
  cases h1 : s1.read_msg q <;> cases h2 : s.read_msg q <;> simp [h1, h2] at h ⊢
  rw [h]

/-- Equal blocks handle by handle give equal block lists. -/
theorem flatMap_blocks_congr (s s1 : State) (hs : List Ptr)
    (h : ∀ q ∈ hs, s1.blocks q = s.blocks q) : hs.flatMap s1.blocks = hs.flatMap s.blocks := by
  induction hs with
  | nil => rfl
  | cons q hs ih =>
    simp only [List.flatMap_cons]
    rw [h q (by simp), ih (fun q' hq' => h q' (by simp [hq']))]

/-- A queued handle lies below the allocation mark. -/
theorem State.Queued.lt_next {s : State} {k : Nat} (h : s.Queued (.heap k)) (hok : s.HeapOK) :
    k < s.next := by
  obtain ⟨k', m, hk, hm, hl, -⟩ := h
  cases hk
  exact hok.live_lt _ hl

/-- Reading a record through a heap handle. -/
theorem read_msg_heap (s : State) (k : Nat) (m : SensorData) (h : s.heap k = some (.msg m)) :
    s.read_msg (.heap k) = some m := by
  simp [State.read_msg, State.read, h]

/-- Blocks of a queued handle. -/
theorem State.Queued.blocks_eq {s : State} {q : Ptr} (h : s.Queued q) :
    ∃ k m, q = .heap k ∧ s.heap k = some (.msg m) ∧ k ∈ s.live ∧
      ((∃ j b len, m.payload = .data (.heap j) len ∧ s.heap j = some (.bytes b) ∧ j ∈ s.live ∧
          s.blocks q = [.heap k, .heap j]) ∨
       ((∀ ptr len, m.payload ≠ .data ptr len) ∧ s.blocks q = [.heap k])) := by
  obtain ⟨k, m, rfl, hm, hl, hp⟩ := h
  refine ⟨k, m, rfl, hm, hl, ?_⟩
  cases hpl : m.payload with
  | data ptr len =>
    obtain ⟨j, b, rfl, hj, hjl⟩ := hp ptr len hpl
    left
    exact ⟨j, b, len, rfl, hj, hjl, by simp [State.blocks, read_msg_heap s k m hm, hpl]⟩
  | str_val _ => right; simp [State.blocks, read_msg_heap s k m hm, hpl]
  | double_val _ => right; simp [State.blocks, read_msg_heap s k m hm, hpl]
  | int_val _ => right; simp [State.blocks, read_msg_heap s k m hm, hpl]

/-- A state that agrees with `s` on the blocks of a queued handle (content and
liveness) has the same queued handle with the same blocks. -/
theorem State.Queued.transfer {s t : State} {q : Ptr} (h : s.Queued q)
    (hagree : ∀ k, .heap k ∈ s.blocks q → t.heap k = s.heap k ∧ (k ∈ s.live → k ∈ t.live)) :
    t.Queued q ∧ t.blocks q = s.blocks q ∧ t.read_msg q = s.read_msg q := by
  obtain ⟨k, m, rfl, hm, hl, hc⟩ := h.blocks_eq
  have hk := hagree k (by rcases hc with ⟨j, b, len, -, -, -, hb⟩ | ⟨-, hb⟩ <;> simp [hb])
  have hm1 : t.heap k = some (.msg m) := by rw [hk.1, hm]
  have hr : t.read_msg (.heap k) = s.read_msg (.heap k) := by
    rw [read_msg_heap _ _ _ hm1, read_msg_heap _ _ _ hm]
  refine ⟨?_, ?_, hr⟩
  · refine ⟨k, m, rfl, hm1, hk.2 hl, ?_⟩
    intro ptr len hpl
    rcases hc with ⟨j, b, len', hpl', hj, hjl, hb⟩ | ⟨hno, -⟩
    · rw [hpl] at hpl'
      cases hpl'
      have := hagree j (by simp [hb])
      exact ⟨j, b, rfl, by rw [this.1, hj], this.2 hjl⟩
    · exact absurd hpl (hno ptr len)
  · exact blocks_congr _ _ _ (by rw [hr])

/-- Ownership carries over to a state in which every owned handle is still a queued
copy with the same blocks. -/
theorem State.Owns.carry_over {s s1 : State} {hs : List Ptr} (h : s.Owns hs) (hok : s1.HeapOK)
    (hq : ∀ q ∈ hs, s1.Queued q ∧ s1.blocks q = s.blocks q) : s1.Owns hs := by
  refine ⟨hok, fun q hq1 => (hq q hq1).1, ?_⟩
  rw [flatMap_blocks_congr s s1 hs (fun q hq1 => (hq q hq1).2)]
  exact h.nodup

/-- Ownership of a list of handles only depends on the handles up to order. -/
theorem State.Owns.perm {s : State} {hs hs1 : List Ptr} (h : s.Owns hs) (hp : hs.Perm hs1) :
    s.Owns hs1 := by
  refine ⟨h.heap_ok, fun q hq => h.queued q (hp.mem_iff.mpr hq), ?_⟩
  exact (List.Perm.nodup_iff (List.Perm.flatMap_right _ hp)).mp h.nodup

/-- Ownership of a list of handles gives ownership of its tail. -/
theorem State.Owns.tail {s : State} {q : Ptr} {hs : List Ptr} (h : s.Owns (q :: hs)) : s.Owns hs := by
  refine ⟨h.heap_ok, fun q1 hq => h.queued q1 (by simp [hq]), ?_⟩
  have := h.nodup
  simp only [List.flatMap_cons] at this
  exact (List.nodup_append.mp this).2.1

/-- Blocks of an owned handle are not blocks of another owned handle. -/
theorem State.Owns.disjoint {s : State} {q : Ptr} {hs : List Ptr} (h : s.Owns (q :: hs))
    (q1 : Ptr) (hq1 : q1 ∈ hs) (p : Ptr) (hp : p ∈ s.blocks q1) : p ∉ s.blocks q := by
  have := h.nodup
  simp only [List.flatMap_cons] at this
  have hd := (List.nodup_append.mp this).2.2
  intro hpq
  exact hd hpq (List.mem_flatMap.mpr ⟨q1, hq1, hp⟩)

/-- Releasing an owned handle: the call is defined, gives both blocks of the message
back, and leaves every other owned handle as it was. -/
theorem free_owned (s : State) (q : Ptr) (hs : List Ptr) (h : s.Owns (q :: hs)) :
    ∃ s1, free_queued_dev_msg_message s q = some s1 ∧ s1.Owns hs ∧ s1.queue = s.queue ∧
      s1.ext = s.ext ∧ s1.next = s.next ∧ s1.trace = s.trace ∧
      s1.send_failure_count = s.send_failure_count ∧
      (∀ q1 ∈ hs, s1.read_msg q1 = s.read_msg q1) ∧
      (∀ p ∈ s.blocks q, ∀ k, p = .heap k → s1.heap k = none ∧ k ∉ s1.live) ∧
      (∀ k ∈ s1.live, k ∈ s.live) := by
  obtain ⟨k, m, rfl, hm, hl, hc⟩ := (h.queued q (by simp)).blocks_eq
  have hok := h.heap_ok
  rcases hc with ⟨j, b, len, hpl, hj, hjl, hb⟩ | ⟨hno, hb⟩
  · have hkj : k ≠ j := by rintro rfl; rw [hm] at hj; cases hj
    refine ⟨k_free (.heap k) ((k_free (.heap j) s).write (.heap k)
      (.msg { m with payload := .data .null 0 })), ?_, ?_, ?_, ?_, ?_, ?_, ?_, ?_, ?_, ?_⟩
    · simp [free_queued_dev_msg_message, read_msg_heap s k m hm, hpl]
    · have hok1 : (k_free (.heap k) ((k_free (.heap j) s).write (.heap k)
          (.msg { m with payload := .data .null 0 }))).HeapOK := by
        refine ⟨?_, ?_, ?_⟩
        · intro x hx
          simp only [k_free, State.write, k_free_next, write_next] at hx ⊢
          simp only [upd]
          split_ifs <;> first | rfl | exact hok.fresh x hx
        · intro x hx
          simp only [k_free, State.write] at hx ⊢
          exact hok.live_lt x (List.mem_of_mem_erase (List.mem_of_mem_erase hx))
        · simp only [k_free, State.write]
          exact (hok.live_nodup.erase j).erase k
      refine h.tail.carry_over hok1 (fun q1 hq1 => ?_)
      have hq := (h.tail.queued q1 hq1).transfer
        (t := k_free (.heap k) ((k_free (.heap j) s).write (.heap k)
          (.msg { m with payload := .data .null 0 }))) (fun x hx => ?_)
      · exact ⟨hq.1, hq.2.1⟩
      · have hd := h.disjoint q1 hq1 _ hx
        rw [hb] at hd
        simp at hd
        simp only [k_free, State.write]
        refine ⟨by simp [upd, hd.1, hd.2], fun hxl => ?_⟩
        exact (List.mem_erase_of_ne hd.1).mpr ((List.mem_erase_of_ne hd.2).mpr hxl)
    · simp
    · simp [k_free, State.write]
    · simp
    · simp
    · simp
    · intro q1 hq1
      obtain ⟨k1, m1, rfl, hm1, -, -⟩ := h.tail.queued q1 hq1
      have hd := h.disjoint _ hq1 (.heap k1) (by
        simp only [State.blocks, read_msg_heap s k1 m1 hm1]
        cases m1.payload <;> simp)
      rw [hb] at hd
      simp at hd
      simp [State.read_msg, State.read, k_free, State.write, upd, hd.1, hd.2]
    · intro p hp x hx
      subst hx
      rw [hb] at hp
      simp at hp
      simp only [k_free, State.write]
      rcases hp with rfl | rfl
      · refine ⟨by simp [upd], ?_⟩
        intro hmem
        exact ((hok.live_nodup.erase j).mem_erase_iff.mp hmem).1 rfl
      · refine ⟨by simp [upd, hkj.symm], ?_⟩
        intro hmem
        exact (hok.live_nodup.mem_erase_iff.mp (List.mem_of_mem_erase hmem)).1 rfl
    · intro x hx
      simp only [k_free, State.write] at hx
      exact List.mem_of_mem_erase (List.mem_of_mem_erase hx)
  · have hfree : free_queued_dev_msg_message s (.heap k) = some (k_free (.heap k) s) := by
      simp only [free_queued_dev_msg_message, read_msg_heap s k m hm]
      cases hpl : m.payload with
      | data ptr len => exact absurd hpl (hno ptr len)
      | str_val _ => simp
      | double_val _ => simp
      | int_val _ => simp
    refine ⟨k_free (.heap k) s, hfree, ?_, ?_, ?_, ?_, ?_, ?_, ?_, ?_, ?_⟩
    · have hok1 : (k_free (.heap k) s).HeapOK := by
        refine ⟨?_, ?_, ?_⟩
        · intro x hx
          simp only [k_free] at hx ⊢
          simp only [upd]
          split_ifs <;> first | rfl | exact hok.fresh x hx
        · intro x hx
          simp only [k_free] at hx ⊢
          exact hok.live_lt x (List.mem_of_mem_erase hx)
        · simp only [k_free]
          exact hok.live_nodup.erase k
      refine h.tail.carry_over hok1 (fun q1 hq1 => ?_)
      have hq := (h.tail.queued q1 hq1).transfer (t := k_free (.heap k) s) (fun x hx => ?_)
      · exact ⟨hq.1, hq.2.1⟩
      · have hd := h.disjoint q1 hq1 _ hx
        rw [hb] at hd
        simp at hd
        simp only [k_free]
        refine ⟨by simp [upd, hd], fun hxl => ?_⟩
        exact (List.mem_erase_of_ne hd).mpr hxl
    · simp
    · simp [k_free]
    · simp
    · simp
    · simp
    · intro q1 hq1
      obtain ⟨k1, m1, rfl, hm1, -, -⟩ := h.tail.queued q1 hq1
      have hd := h.disjoint _ hq1 (.heap k1) (by
        simp only [State.blocks, read_msg_heap s k1 m1 hm1]
        cases m1.payload <;> simp)
      rw [hb] at hd
      simp at hd
      simp [State.read_msg, State.read, k_free, upd, hd]
    · intro p hp x hx
      subst hx
      rw [hb] at hp
      simp at hp
      subst hp
      simp only [k_free]
      refine ⟨by simp [upd], ?_⟩
      intro hmem
      exact (hok.live_nodup.mem_erase_iff.mp hmem).1 rfl
    · intro x hx
      simp only [k_free] at hx
      exact List.mem_of_mem_erase hx

/-- A producer call only stores into caller memory and allocates above the mark. When
it returns a non-zero result the queue and the live blocks are as before; when it
returns 0 the new handle is at the tail of the queue and addresses the copy. -/
theorem submit_grows (cfg : Config) (o : EnqueueEnv) (s : State) (pm : Option Nat)
    (r : Int × State) (hok : s.HeapOK)
    (hr : send_device_message cfg o s (caller_ptr pm) = some r) :
    Grows s r.2 ∧
    ((r.1 ≠ 0 ∧ r.2.queue = s.queue ∧ r.2.live = s.live) ∨
     (r.1 = 0 ∧ s.queue.length < cfg.MAX_OUTGOING_MESSAGES ∧
      r.2.queue = s.queue ++ [.heap s.next] ∧ r.2.Queued (.heap s.next) ∧
      (∀ p ∈ r.2.blocks (.heap s.next), ∃ k, p = .heap k ∧ s.next ≤ k) ∧
      (r.2.blocks (.heap s.next)).Nodup ∧
      ∃ a m t, pm = some a ∧ s.ext a = some (.msg m) ∧ o.now = some t ∧
        r.2.read_msg (.heap s.next) = some (queued_copy m t s.next))) := by
  have hself : Grows s s := ⟨le_refl _, fun _ _ => rfl, fun _ h => h, hok⟩
  have hnl : s.next ∉ s.live := fun h => absurd (hok.live_lt _ h) (lt_irrefl _)
  have hnl1 : s.next + 1 ∉ s.live := fun h => absurd (hok.live_lt _ h) (by omega)
  cases pm with
  | none =>
    simp [send_device_message, enqueue_device_message, caller_ptr] at hr
    subst hr
    exact ⟨hself, Or.inl ⟨by simp [EINVAL], rfl, rfl⟩⟩
  | some a =>
    cases hnow : o.now with
    | none =>
      simp [send_device_message, enqueue_device_message, caller_ptr, hnow] at hr
      subst hr
      exact ⟨hself, Or.inl ⟨by simp [ETIME], rfl, rfl⟩⟩
    | some t =>
      cases hm : s.ext a with
      | none =>
        simp [send_device_message, enqueue_device_message, caller_ptr, hnow, State.read_msg,
          State.read, hm] at hr
      | some ob =>
        cases ob with
        | bytes b =>
          simp [send_device_message, enqueue_device_message, caller_ptr, hnow, State.read_msg,
            State.read, hm] at hr
        | msg m =>
          by_cases hlen : s.queue.length < cfg.MAX_OUTGOING_MESSAGES <;>
          cases ham : o.alloc_msg <;> cases had : o.alloc_data <;> cases hpl : m.payload <;>
          simp [send_device_message, enqueue_device_message, caller_ptr, hnow, State.read_msg,
            State.read, hm, allocate_dev_msg_for_queue, k_malloc, ham, had, copy_block, hpl,
            enqueue_put, k_msgq_put, hlen, ENOMSG, free_queued_dev_msg_message, State.write,
            k_free] at hr <;>
          first
            | subst hr
            | (generalize memcpy_src _ _ _ = mb at hr
               cases mb <;>
                 simp [enqueue_put, k_msgq_put, hlen, ENOMSG, free_queued_dev_msg_message,
                   State.read_msg, State.read, State.write, k_free, upd] at hr
               subst hr)
          all_goals (
            refine ⟨⟨?_, ?_, ?_, ⟨?_, ?_, ?_⟩⟩, ?_⟩
            · simp <;> omega
            · intro k hk
              have h1 : k ≠ s.next := by omega
              have h2 : k ≠ s.next + 1 := by omega
              simp [upd, h1, h2]
            · intro k hk
              simp [hk]
            · intro k hk
              simp at hk
              have h3 := hok.fresh k (by omega)
              simp only [upd]
              first | exact h3 | (split_ifs <;> first | rfl | exact h3 | omega)
            · intro k hk
              simp at hk ⊢
              have h4 := hok.live_lt k
              first
                | (have h5 := h4 hk; omega)
                | (rcases hk with hk | hk <;> first | omega | (have h5 := h4 hk; omega))
                | (rcases hk with hk | hk | hk <;> first | omega | (have h5 := h4 hk; omega))
            · simp [hnl, hnl1, hok.live_nodup]
            · first
                | (left; simp [ENOMEM]; done)
                | (right
                   simp [State.Queued, State.blocks, State.read_msg, State.read, upd, queued_copy,
                     hpl, hlen, hm]))

/-- Every block of a queued handle is a live heap block. -/
theorem State.Queued.block_live {s : State} {q : Ptr} (h : s.Queued q) (p : Ptr)
    (hp : p ∈ s.blocks q) : ∃ k, p = .heap k ∧ k ∈ s.live := by
  obtain ⟨k, m, rfl, hm, hl, hc⟩ := h.blocks_eq
  rcases hc with ⟨j, b, len, -, -, hjl, hb⟩ | ⟨-, hb⟩
  · rw [hb] at hp
    simp at hp
    rcases hp with rfl | rfl
    · exact ⟨k, rfl, hl⟩
    · exact ⟨j, rfl, hjl⟩
  · rw [hb] at hp
    simp at hp
    subst hp
    exact ⟨k, rfl, hl⟩

/-- Owned handles survive stores into caller memory and allocator activity above the
allocation mark. -/
theorem Grows.owns {s s1 : State} {hs : List Ptr} (hg : Grows s s1) (h : s.Owns hs) :
    s1.Owns hs ∧ (∀ q ∈ hs, s1.read_msg q = s.read_msg q) ∧
    (∀ q ∈ hs, s1.blocks q = s.blocks q) := by
  have key : ∀ q ∈ hs, s1.Queued q ∧ s1.blocks q = s.blocks q ∧ s1.read_msg q = s.read_msg q := by
    intro q hq
    refine (h.queued q hq).transfer (fun k hk => ?_)
    obtain ⟨k1, hk1, hl⟩ := (h.queued q hq).block_live _ hk
    cases hk1
    exact ⟨hg.heap_eq k (h.heap_ok.live_lt k hl), fun _ => hg.live_mono k hl⟩
  exact ⟨h.carry_over hg.heap_ok (fun q hq => ⟨(key q hq).1, (key q hq).2.1⟩),
    fun q hq => (key q hq).2.2, fun q hq => (key q hq).2.1⟩

/-- Growth composes. -/
theorem Grows.trans {s s1 s2 : State} (h1 : Grows s s1) (h2 : Grows s1 s2) : Grows s s2 :=
  ⟨le_trans h1.next_le h2.next_le,
   fun k hk => by rw [h2.heap_eq k (lt_of_lt_of_le hk h1.next_le), h1.heap_eq k hk],
   fun k hk => h2.live_mono k (h1.live_mono k hk), h2.heap_ok⟩

/-- A producer call keeps what is owned and, when it returns 0, adds the new handle
to it. -/
theorem submit_owned (cfg : Config) (o : EnqueueEnv) (s : State) (pm : Option Nat)
    (hs : List Ptr) (r : Int × State) (h : s.Owns hs)
    (hr : send_device_message cfg o s (caller_ptr pm) = some r) :
    ∃ new, r.2.queue = s.queue ++ new ∧ r.2.Owns (hs ++ new) ∧ Grows s r.2 := by
  obtain ⟨hg, hc⟩ := submit_grows cfg o s pm r h.heap_ok hr
  obtain ⟨ho, -, hb⟩ := hg.owns h
  rcases hc with ⟨-, hq, -⟩ | ⟨-, -, hq, hqd, hge, hnd, -⟩
  · exact ⟨[], by simpa using hq, by simpa using ho, hg⟩
  · refine ⟨[.heap s.next], hq, ⟨hg.heap_ok, ?_, ?_⟩, hg⟩
    · intro q hq1
      simp at hq1
      rcases hq1 with hq1 | rfl
      · exact ho.queued q hq1
      · exact hqd
    · simp only [List.flatMap_append, List.flatMap_cons, List.flatMap_nil, List.append_nil]
      refine List.nodup_append.mpr ⟨ho.nodup, hnd, ?_⟩
      intro p hp1 hp2
      obtain ⟨q, hq1, hpq⟩ := List.mem_flatMap.mp hp1
      rw [hb q hq1] at hpq
      obtain ⟨k, rfl, hl⟩ := (h.queued q hq1).block_live _ hpq
      obtain ⟨k1, hk1, hge1⟩ := hge _ hp2
      cases hk1
      have := h.heap_ok.live_lt k hl
      omega

/-- Producer calls keep what is owned and add the handles they enqueue. -/
theorem run_producers_owned (cfg : Config) (ps : List Submit) (s s1 : State) (hs : List Ptr)
    (h : s.Owns hs) (hr : run_producers cfg ps s = some s1) :
    ∃ new, s1.queue = s.queue ++ new ∧ s1.Owns (hs ++ new) ∧ Grows s s1 := by
  induction ps generalizing s hs with
  | nil =>
    simp [run_producers] at hr
    subst hr
    exact ⟨[], by simp, by simpa using h, ⟨le_refl _, fun _ _ => rfl, fun _ hk => hk, h.heap_ok⟩⟩
  | cons p ps ih =>
    simp only [run_producers] at hr
    cases hsub : send_device_message cfg p.env s (caller_ptr p.msg) with
    | none => simp [hsub] at hr
    | some r =>
      simp only [hsub] at hr
      obtain ⟨new1, hq1, ho1, hg1⟩ := submit_owned cfg _ _ _ hs r h hsub
      obtain ⟨new2, hq2, ho2, hg2⟩ := ih r.2 (hs ++ new1) ho1 hr
      exact ⟨new1 ++ new2, by rw [hq2, hq1, List.append_assoc],
        by rw [← List.append_assoc]; exact ho2, hg1.trans hg2⟩

/-- Ownership only looks at the heap, the live blocks and the allocation mark. -/
theorem State.Owns.congr {s t : State} {hs : List Ptr} (h : s.Owns hs)
    (hh : t.heap = s.heap) (hl : t.live = s.live) (hn : t.next = s.next) : t.Owns hs := by
  have hok : t.HeapOK := by
    refine ⟨?_, ?_, ?_⟩
    · intro k hk; rw [hh]; exact h.heap_ok.fresh k (by rw [← hn]; exact hk)
    · intro k hk; rw [hn]; exact h.heap_ok.live_lt k (by rw [← hl]; exact hk)
    · rw [hl]; exact h.heap_ok.live_nodup
  refine h.carry_over hok (fun q hq => ?_)
  have := (h.queued q hq).transfer (t := t) (fun k _ => ⟨by rw [hh], fun hk => by rw [hl]; exact hk⟩)
  exact ⟨this.1, this.2.1⟩

/-- Enqueueing an owned handle again (no copy): the call is defined; it stamps the
record with the clock reading and appends the handle when a slot is free, and changes
nothing else. -/
theorem requeue_owned (cfg : Config) (o : EnqueueEnv) (s : State) (q : Ptr) (hs : List Ptr)
    (h : s.Owns (q :: hs)) :
    ∃ r, enqueue_device_message cfg o s q false = some r ∧ r.2.Owns (q :: hs) ∧
      r.2.ext = s.ext ∧ r.2.next = s.next ∧ r.2.live = s.live ∧
      (∀ q1 ∈ hs, r.2.read_msg q1 = s.read_msg q1) ∧ r.2.blocks q = s.blocks q ∧
      ((r.1 = 0 ∧ s.queue.length < cfg.MAX_OUTGOING_MESSAGES ∧ r.2.queue = s.queue ++ [q] ∧
          ∃ t m, o.now = some t ∧ s.read_msg q = some m ∧
            r.2.read_msg q = some { m with ts_ms := t }) ∨
       (r.1 = -ETIME ∧ o.now = none ∧ r.2 = s) ∨
       (r.1 = -ENOMEM ∧ cfg.MAX_OUTGOING_MESSAGES ≤ s.queue.length ∧ r.2.queue = s.queue ∧
          ∃ t m, o.now = some t ∧ s.read_msg q = some m ∧
            r.2.read_msg q = some { m with ts_ms := t })) := by
  obtain ⟨k, m, rfl, hm, hl, hc⟩ := (h.queued q (by simp)).blocks_eq
  have hrm := read_msg_heap s k m hm
  cases hnow : o.now with
  | none =>
    refine ⟨(-ETIME, s), by simp [enqueue_device_message, hnow], h, rfl, rfl, rfl,
      fun _ _ => rfl, rfl, Or.inr (Or.inl ⟨rfl, rfl, rfl⟩)⟩
  | some t =>
    have hok1 : (s.write (.heap k) (.msg { m with ts_ms := t })).HeapOK := by
      refine ⟨?_, ?_, ?_⟩
      · intro x hx
        simp only [State.write, write_next] at hx ⊢
        have hkl := h.heap_ok.live_lt k hl
        have : x ≠ k := by omega
        simp [upd, this, h.heap_ok.fresh x hx]
      · simpa [State.write] using h.heap_ok.live_lt
      · simpa [State.write] using h.heap_ok.live_nodup
    have hother : ∀ q1 ∈ hs, (s.write (.heap k) (.msg { m with ts_ms := t })).Queued q1 ∧
        (s.write (.heap k) (.msg { m with ts_ms := t })).blocks q1 = s.blocks q1 ∧
        (s.write (.heap k) (.msg { m with ts_ms := t })).read_msg q1 = s.read_msg q1 := by
      intro q1 hq1
      refine (h.tail.queued q1 hq1).transfer (fun x hx => ?_)
      have hd := h.disjoint q1 hq1 _ hx
      have hxk : x ≠ k := by
        rintro rfl
        apply hd
        rcases hc with ⟨j, b, len, -, -, -, hb⟩ | ⟨-, hb⟩ <;> simp [hb]
      exact ⟨by simp [State.write, upd, hxk], fun hxl => by simpa [State.write] using hxl⟩
    have hself_read : (s.write (.heap k) (.msg { m with ts_ms := t })).read_msg (.heap k) =
        some { m with ts_ms := t } := by
      simp [State.read_msg, State.read, State.write]
    have hself_blocks : (s.write (.heap k) (.msg { m with ts_ms := t })).blocks (.heap k) =
        s.blocks (.heap k) := by
      apply blocks_congr
      rw [hself_read, hrm]
      rfl
    have hself_q : (s.write (.heap k) (.msg { m with ts_ms := t })).Queued (.heap k) := by
      refine ⟨k, { m with ts_ms := t }, rfl, by simp [State.write], by simpa [State.write] using hl,
        ?_⟩
      intro ptr len hpl
      rcases hc with ⟨j, b, len', hpl', hj, hjl, hb⟩ | ⟨hno, -⟩
      · simp only at hpl
        rw [hpl] at hpl'
        cases hpl'
        have hjk : j ≠ k := by rintro rfl; rw [hm] at hj; cases hj
        exact ⟨j, b, rfl, by simp [State.write, upd, hjk, hj], by simpa [State.write] using hjl⟩
      · exact absurd hpl (hno ptr len)
    have howns : (s.write (.heap k) (.msg { m with ts_ms := t })).Owns (.heap k :: hs) := by
      refine h.carry_over hok1 (fun q1 hq1 => ?_)
      simp at hq1
      rcases hq1 with rfl | hq1
      · exact ⟨hself_q, hself_blocks⟩
      · exact ⟨(hother q1 hq1).1, (hother q1 hq1).2.1⟩
    by_cases hlen : s.queue.length < cfg.MAX_OUTGOING_MESSAGES
    · refine ⟨(0, { s.write (.heap k) (.msg { m with ts_ms := t }) with
          queue := s.queue ++ [.heap k] }), ?_, ?_, ?_, ?_, ?_, ?_, ?_, ?_⟩
      · simp [enqueue_device_message, hnow, hrm, enqueue_put, k_msgq_put, hlen, State.write]
      · exact howns.congr rfl rfl rfl
      · simp [State.write]
      · simp [State.write]
      · simp [State.write]
      · exact fun q1 hq1 => (hother q1 hq1).2.2
      · exact hself_blocks
      · exact Or.inl ⟨rfl, hlen, rfl, t, m, rfl, hrm, hself_read⟩
    · refine ⟨(-ENOMEM, s.write (.heap k) (.msg { m with ts_ms := t })), ?_, howns, ?_, ?_, ?_,
        ?_, hself_blocks, ?_⟩
      · simp [enqueue_device_message, hnow, hrm, enqueue_put, k_msgq_put, hlen, ENOMSG]
      · simp [State.write]
      · simp [State.write]
      · simp [State.write]
      · exact fun q1 hq1 => (hother q1 hq1).2.2
      · exact Or.inr (Or.inr ⟨rfl, by omega, by simp, t, m, rfl, hrm, hself_read⟩)

/-- The branch on `ret` for an owned handle: the call is defined and re-establishes
the invariant. On `ret = 0` the message is released. Otherwise it is back at the tail
of the queue, stamped with the clock reading, when the clock could be read and a slot
was free, and released when not. -/
theorem after_send_owned (cfg : Config) (o : ConsumeEnv) (s : State) (q : Ptr) (ret : Int)
    (h : s.Owns (q :: s.queue)) :
    ∃ r, after_send cfg o s q ret = some r ∧ r.2.Inv ∧ r.2.ext = s.ext ∧ r.2.next = s.next ∧
      (∀ q1 ∈ s.queue, r.2.read_msg q1 = s.read_msg q1) ∧ (∀ k ∈ r.2.live, k ∈ s.live) ∧
      ((ret = 0 ∧ r.1 = 0 ∧ r.2.queue = s.queue ∧ Released s r.2 q) ∨
       (ret ≠ 0 ∧ r.1 = 0 ∧ s.queue.length < cfg.MAX_OUTGOING_MESSAGES ∧
          r.2.queue = s.queue ++ [q] ∧ r.2.live = s.live ∧
          ∃ t m, o.now = some t ∧ s.read_msg q = some m ∧
            r.2.read_msg q = some { m with ts_ms := t }) ∨
       (ret ≠ 0 ∧ r.1 ≠ 0 ∧ (o.now = none ∨ cfg.MAX_OUTGOING_MESSAGES ≤ s.queue.length) ∧
          r.2.queue = s.queue ∧ Released s r.2 q)) := by
  by_cases hret : ret = 0
  · obtain ⟨s1, hf, ho, hq, hext, hnext, -, -, hrd, hrel, hlive⟩ := free_owned s q s.queue h
    refine ⟨(ret, count_success cfg s1), ?_, ?_, ?_, ?_, ?_, ?_, ?_⟩
    · simp [after_send, hret, hf]
    · exact State.Owns.congr (t := count_success cfg s1) (by simpa [hq] using ho)
        (by simp) (by simp) (by simp)
    · simpa using hext
    · simpa using hnext
    · intro q1 hq1
      rw [← hrd q1 hq1]
      simp [State.read_msg, State.read]
    · intro k hk
      exact hlive k (by simpa using hk)
    · refine Or.inl ⟨hret, hret, by simpa using hq, ?_⟩
      intro p hp k hk
      simpa using hrel p hp k hk
  · obtain ⟨r, he, ho, hext, hnext, hlive, hrd, hbl, hc⟩ :=
      requeue_owned cfg ⟨o.now, false, false⟩ s q s.queue h
    rcases hc with ⟨hr0, hlen, hq, t, m, hnow, hm, hm1⟩ | ⟨hrt, hnow, hrs⟩ |
      ⟨hrm, hlen, hq, t, m, hnow, hm, hm1⟩
    · refine ⟨(r.1, count_failure cfg r.2), ?_, ?_, ?_, ?_, ?_, ?_, ?_⟩
      · simp [after_send, hret, he, hr0]
      · have hp : r.2.Owns r.2.queue := by
          rw [hq]
          exact ho.perm (by simpa using (@List.perm_append_comm _ [q] s.queue))
        exact State.Owns.congr (t := count_failure cfg r.2) (by simpa using hp)
          (by simp) (by simp) (by simp)
      · simpa using hext
      · simpa using hnext
      · intro q1 hq1
        rw [← hrd q1 hq1]
        simp [State.read_msg, State.read]
      · intro k hk
        rw [← hlive]
        simpa using hk
      · refine Or.inr (Or.inl ⟨hret, hr0, hlen, by simpa using hq, by simpa using hlive,
          t, m, hnow, hm, ?_⟩)
        rw [← hm1]
        simp [State.read_msg, State.read]
    · have hs : r.2 = s := hrs
      obtain ⟨s1, hf, ho1, hq1, hext1, hnext1, -, -, hrd1, hrel1, hlive1⟩ :=
        free_owned s q s.queue h
      refine ⟨(r.1, count_failure cfg s1), ?_, ?_, ?_, ?_, ?_, ?_, ?_⟩
      · simp [after_send, hret, he, hrt, ETIME, hs, hf]
      · exact State.Owns.congr (t := count_failure cfg s1) (by simpa [hq1] using ho1)
          (by simp) (by simp) (by simp)
      · simpa using hext1
      · simpa using hnext1
      · intro q1 hq1'
        rw [← hrd1 q1 hq1']
        simp [State.read_msg, State.read]
      · intro k hk
        exact hlive1 k (by simpa using hk)
      · refine Or.inr (Or.inr ⟨hret, by simp [hrt, ETIME], Or.inl hnow, by simpa using hq1, ?_⟩)
        intro p hp k hk
        simpa using hrel1 p hp k hk
    · have ho' : r.2.Owns (q :: r.2.queue) := by rw [hq]; exact ho
      obtain ⟨s1, hf, ho1, hq1, hext1, hnext1, -, -, hrd1, hrel1, hlive1⟩ :=
        free_owned r.2 q r.2.queue ho'
      refine ⟨(r.1, count_failure cfg s1), ?_, ?_, ?_, ?_, ?_, ?_, ?_⟩
      · simp [after_send, hret, he, hrm, ENOMEM, hf]
      · exact State.Owns.congr (t := count_failure cfg s1) (by simpa [hq1] using ho1)
          (by simp) (by simp) (by simp)
      · simp [hext1, hext]
      · simp [hnext1, hnext]
      · intro q1 hq1'
        rw [← hrd q1 hq1', ← hrd1 q1 (by rw [hq]; exact hq1')]
        simp [State.read_msg, State.read]
      · intro k hk
        rw [← hlive]
        exact hlive1 k (by simpa using hk)
      · refine Or.inr (Or.inr ⟨hret, by simp [hrm, ENOMEM], Or.inr hlen,
          by simp [hq1, hq], ?_⟩)
        intro p hp k hk
        rw [← hbl] at hp
        simpa using hrel1 p hp k hk

/-- A consumer call on a state that satisfies the invariant, with a message at the
head of the queue: the head addresses a record; when its `app_id` does not resolve
the call returns `-EINVAL` having only removed the handle from the queue; otherwise
the call continues, after the producers that ran meanwhile, with the send section on
a state in which the handle is still owned and its record unchanged. -/
theorem consume_owned (cfg : Config) (o : ConsumeEnv) (s : State) (q : Ptr) (rest : List Ptr)
    (hinv : s.Inv) (hq : s.queue = q :: rest) (hget : o.get_ret = 0) :
    ∃ m, s.read_msg q = some m ∧
      (resolve_app_id cfg m = .null →
        consume_device_message cfg o s = some (-EINVAL, { s with queue := rest })) ∧
      (resolve_app_id cfg m ≠ .null → ∀ s2,
        run_producers cfg o.producers ({ s with queue := rest }.emit .await_cloud_ready) =
          some s2 →
        consume_device_message cfg o s =
          (match send_section cfg o s2 q (resolve_app_id cfg m) m 0 with
           | .error err => (free_queued_dev_msg_message s2 q).map (fun s3 => (err, s3))
           | .ok r => after_send cfg o r.2 q r.1) ∧
        s2.Owns (q :: s2.queue) ∧ s2.read_msg q = some m ∧ s2.blocks q = s.blocks q ∧
        (∃ new, s2.queue = rest ++ new) ∧ s2.trace = s.trace ++ [.await_cloud_ready] ∧
        s2.send_failure_count = s.send_failure_count ∧ Grows s s2) := by
  have ho : s.Owns (q :: rest) := by rw [← hq]; exact hinv
  obtain ⟨k, m, rfl, hm, hl, -⟩ := ho.queued q (by simp)
  have hrm := read_msg_heap s k m hm
  have hget1 : k_msgq_get o.get_ret s = some (0, .heap k, { s with queue := rest }) := by
    simp [k_msgq_get, hget, hq]
  have hrm1 : ({ s with queue := rest } : State).read_msg (.heap k) = some m := by
    simpa [State.read_msg, State.read] using hrm
  refine ⟨m, hrm, ?_, ?_⟩
  · intro hres
    simp [consume_device_message, hget1, hrm1, hres]
  · intro hres s2 hprod
    have ho0 : (({ s with queue := rest } : State).emit .await_cloud_ready).Owns
        (.heap k :: rest) := ho.congr rfl rfl rfl
    obtain ⟨new, hq2, ho2, hg⟩ := run_producers_owned cfg _ _ _ _ ho0 hprod
    obtain ⟨-, hrd2, hbl2⟩ := hg.owns ho0
    obtain ⟨hc2, ht2⟩ := run_producers_frame cfg _ _ _ hprod
    have hrm2 : s2.read_msg (.heap k) = some m := by
      rw [hrd2 _ (by simp)]
      simpa [State.read_msg, State.read] using hrm
    refine ⟨?_, ?_, hrm2, ?_, ⟨new, by simpa using hq2⟩, by simpa using ht2, by simpa using hc2,
      ?_⟩
    · simp [consume_device_message, hget1, hrm1, hres, send_and_settle, hprod, hrm2]
    · have : s2.queue = rest ++ new := by simpa using hq2
      rw [this]
      exact ho2
    · rw [hbl2 _ (by simp)]
      exact blocks_congr _ _ _ (by simp [State.read_msg, State.read, State.emit])
    · exact ⟨hg.next_le, hg.heap_eq, hg.live_mono, hg.heap_ok⟩

/-- A consumer call keeps the invariant. -/
theorem consume_inv (cfg : Config) (o : ConsumeEnv) (s : State) (r : Int × State)
    (hinv : s.Inv) (h : consume_device_message cfg o s = some r) : r.2.Inv := by
  by_cases hget : o.get_ret = 0
  · cases hq : s.queue with
    | nil => simp [consume_device_message, k_msgq_get, hget, hq] at h
    | cons q rest =>
      obtain ⟨m, hm, h1, h2⟩ := consume_owned cfg o s q rest hinv hq hget
      by_cases hres : resolve_app_id cfg m = .null
      · rw [h1 hres] at h
        cases h
        have ho : s.Owns (q :: rest) := by rw [← hq]; exact hinv
        exact ho.tail.congr rfl rfl rfl
      · cases hprod : run_producers cfg o.producers
            ({ s with queue := rest }.emit .await_cloud_ready) with
        | none =>
          have ho : s.Owns (q :: rest) := by rw [← hq]; exact hinv
          obtain ⟨k, m1, rfl, hm1, -, -⟩ := ho.queued q (by simp)
          have hrm1 : ({ s with queue := rest } : State).read_msg (.heap k) = some m := by
            simpa [State.read_msg, State.read] using hm
          simp [consume_device_message, k_msgq_get, hget, hq, hrm1, hres, send_and_settle,
            hprod] at h
        | some s2 =>
          obtain ⟨heq, ho2, hm2, -, -, -, -, -⟩ := h2 hres s2 hprod
          rw [heq] at h
          rcases send_section_frame cfg o s2 q (resolve_app_id cfg m) m 0 with
            ⟨e, he, -, -⟩ | ⟨r1, hr1, hq1, hh1, -, hl1, hn1, -, -⟩
          · simp only [he] at h
            obtain ⟨s3, hf, ho3, hq3, -⟩ := free_owned s2 q s2.queue ho2
            simp [hf] at h
            subst h
            show s3.Owns s3.queue
            rw [hq3]; exact ho3
          · simp only [hr1] at h
            have ho3 : r1.2.Owns (q :: r1.2.queue) := by
              rw [hq1]; exact ho2.congr hh1 hl1 hn1
            obtain ⟨r2, hr2, hinv2, -⟩ := after_send_owned cfg o r1.2 q r1.1 ho3
            rw [hr2] at h
            cases h
            exact hinv2
  · simp [consume_device_message, k_msgq_get, hget] at h
    subst h
    exact hinv

/-- A step keeps the invariant. -/
theorem step_inv (cfg : Config) (st : Step) (s s1 : State) (hinv : s.Inv)
    (h : step cfg st s = some s1) : s1.Inv := by
  cases st with
  | submit p =>
    simp [step] at h
    obtain ⟨r, hr⟩ := h
    obtain ⟨new, hq, ho, -⟩ := submit_owned cfg _ _ _ s.queue (r, s1) hinv hr
    show s1.Owns s1.queue
    simp only at hq ho
    rw [hq]; exact ho
  | consume o =>
    simp [step] at h
    obtain ⟨r, hr⟩ := h
    exact consume_inv cfg o s (r, s1) hinv hr
  | caller_store a v =>
    simp [step] at h
    subst h
    exact State.Owns.congr (s := s) hinv rfl rfl rfl

/-- The start state satisfies the invariant. -/
theorem init_inv (ext : Nat → Option Obj) : (State.init ext).Inv :=
  ⟨⟨fun _ _ => rfl, fun k hk => by simp [State.init] at hk, by simp [State.init]⟩,
   fun q hq => by simp [State.init] at hq, by simp [State.init]⟩

/-- Every state a run reaches satisfies the invariant. -/
theorem run_inv (cfg : Config) (steps : List Step) (s s1 : State) (hinv : s.Inv)
    (h : run cfg steps s = some s1) : s1.Inv := by
  induction steps generalizing s with
  | nil => simp [run] at h; subst h; exact hinv
  | cons st rest ih =>
    simp only [run] at h
    cases hs : step cfg st s with
    | none => simp [hs] at h
    | some s2 =>
      simp [hs] at h
      exact ih s2 (step_inv cfg st s s2 hinv hs) h

/-- The head of a list of owned handles does not occur in its tail. -/
theorem State.Owns.head_not_mem {s : State} {q : Ptr} {hs : List Ptr} (h : s.Owns (q :: hs)) :
    q ∉ hs := by
  intro hq
  have hmem : ∀ q1, q1 ∈ s.blocks q1 := by
    intro q1
    unfold State.blocks
    cases s.read_msg q1 with
    | none => simp
    | some m => simp only []; split <;> simp
  exact h.disjoint q hq q (hmem q) (hmem q)

/-- Release is stated in terms of the blocks of the message, in whatever state lists
them. -/
theorem Released.of_blocks {s s0 s1 : State} {q : Ptr} (hb : s0.blocks q = s.blocks q)
    (h : ∀ p ∈ s0.blocks q, ∀ k, p = .heap k → s1.heap k = none ∧ k ∉ s1.live) :
    Released s s1 q := by
  intro p hp k hk
  rw [← hb] at hp
  exact h p hp k hk

/-- Outcome of a consumer call that finds a message with a resolved `app_id` at the
head of the queue, in a state that satisfies the invariant; `s2` is the state after
the producers that ran during `await_cloud_ready`. The call is defined, keeps the
invariant and every other queued record, and ends in one of these ways: (E) encoding
error, message released, no send; (N) CoAP binding, no send and success branch,
message released; (S) a send for the handle, followed on success by the release of
the message, and on failure by its return to the tail of the queue with a new time
stamp, or by its release when the clock read fails or no slot is free. -/
theorem consume_classify (cfg : Config) (o : ConsumeEnv) (s s2 : State) (q : Ptr)
    (rest : List Ptr) (m : SensorData) (hinv : s.Inv) (hq : s.queue = q :: rest)
    (hget : o.get_ret = 0) (hm : s.read_msg q = some m) (hres : resolve_app_id cfg m ≠ .null)
    (hprod : run_producers cfg o.producers ({ s with queue := rest }.emit .await_cloud_ready) =
      some s2) :
    ∃ r, consume_device_message cfg o s = some r ∧ r.2.Inv ∧
      (∀ q1 ∈ s2.queue, r.2.read_msg q1 = s2.read_msg q1) ∧ q ∉ s2.queue ∧
      (∃ new, s2.queue = rest ++ new) ∧
      ((∃ e, send_section cfg o s2 q (resolve_app_id cfg m) m 0 = .error e ∧ r.1 = e ∧ e ≠ 0 ∧
          cfg.binding = .MQTT ∧ r.2.trace = s.trace ++ [.await_cloud_ready] ∧
          r.2.send_failure_count = s.send_failure_count ∧ r.2.queue = s2.queue ∧
          Released s r.2 q) ∨
       (send_section cfg o s2 q (resolve_app_id cfg m) m 0 = .ok (0, s2) ∧ cfg.binding = .COAP ∧
          r.1 = 0 ∧ r.2.trace = s.trace ++ [.await_cloud_ready, led_event cfg] ∧
          r.2.send_failure_count = 0 ∧ r.2.queue = s2.queue ∧ Released s r.2 q) ∨
       (∃ ev, send_section cfg o s2 q (resolve_app_id cfg m) m 0 = .ok (o.send_ret, s2.emit ev) ∧
          ev.sent_handle = some q ∧ ev.send_result = some o.send_ret ∧
          ((o.send_ret = 0 ∧ r.1 = 0 ∧
              r.2.trace = s.trace ++ [.await_cloud_ready, ev, led_event cfg] ∧
              r.2.send_failure_count = 0 ∧ r.2.queue = s2.queue ∧ Released s r.2 q) ∨
           (o.send_ret ≠ 0 ∧
              r.2.trace = s.trace ++ [.await_cloud_ready, ev] ++
                breaker_events cfg (wrap_int (s.send_failure_count + 1)) ∧
              r.2.send_failure_count = wrap_int (s.send_failure_count + 1) ∧
              ((r.1 = 0 ∧ s2.queue.length < cfg.MAX_OUTGOING_MESSAGES ∧
                  r.2.queue = s2.queue ++ [q] ∧ r.2.live = s2.live ∧
                  ∃ t, o.now = some t ∧ r.2.read_msg q = some { m with ts_ms := t }) ∨
               (r.1 ≠ 0 ∧ (o.now = none ∨ cfg.MAX_OUTGOING_MESSAGES ≤ s2.queue.length) ∧
                  r.2.queue = s2.queue ∧ Released s r.2 q)))))) := by
  obtain ⟨m1, hm1, -, h2⟩ := consume_owned cfg o s q rest hinv hq hget
  rw [hm] at hm1
  cases hm1
  obtain ⟨heq, ho2, hm2, hbl2, hnew, ht2, hc2, -⟩ := h2 hres s2 hprod
  have hnot := ho2.head_not_mem
  rcases send_section_frame cfg o s2 q (resolve_app_id cfg m) m 0 with
    ⟨e, he, hne, hb⟩ | ⟨r1, hr1, hq1, hh1, he1, hl1, hn1, hcnt1, hcase⟩
  · obtain ⟨s3, hf, ho3, hq3, -, -, ht3, hc3, hrd3, hrel3, -⟩ := free_owned s2 q s2.queue ho2
    refine ⟨(e, s3), ?_, ?_, hrd3, hnot, hnew, Or.inl ⟨e, he, rfl, hne, hb, ?_, ?_, hq3, ?_⟩⟩
    · rw [heq]; simp [he, hf]
    · show s3.Owns s3.queue
      rw [hq3]; exact ho3
    · simp [ht3, ht2]
    · simp [hc3, hc2]
    · exact Released.of_blocks hbl2 hrel3
  · have ho3 : r1.2.Owns (q :: r1.2.queue) := by
      rw [hq1]; exact ho2.congr hh1 hl1 hn1
    obtain ⟨r2, hr2, hinv2, -, -, hrd, -, hc⟩ := after_send_owned cfg o r1.2 q r1.1 ho3
    have hrd2 : ∀ q1 ∈ s2.queue, r2.2.read_msg q1 = s2.read_msg q1 := by
      intro q1 hq1'
      rw [hrd q1 (by rw [hq1]; exact hq1')]
      cases q1 <;> simp [State.read_msg, State.read, hh1, he1]
    have hblr : r1.2.blocks q = s.blocks q := by
      rw [← hbl2]
      apply blocks_congr
      cases q <;> simp [State.read_msg, State.read, hh1, he1]
    have hrmr : r1.2.read_msg q = some m := by
      rw [← hm2]
      cases q <;> simp [State.read_msg, State.read, hh1, he1]
    have htr := after_send_trace cfg o r1.2 q r1.1 r2 hr2
    refine ⟨r2, by rw [heq]; simp [hr1, hr2], hinv2, hrd2, hnot, hnew, Or.inr ?_⟩
    rcases hcase with ⟨hret, hs1, hb⟩ | ⟨hret, ev, hev, hkind⟩
    · left
      have hr1eq : r1 = (0, s2) := Prod.ext hret hs1
      rcases htr with ⟨hn, -, -⟩ | ⟨-, hz, hcz, htz⟩
      · exact absurd hret hn
      · rcases hc with ⟨-, -, hqz, hrel⟩ | ⟨hn, -⟩ | ⟨hn, -⟩
        · refine ⟨by rw [hr1, hr1eq], hb, hz, ?_, hcz, by rw [hqz, hq1], ?_⟩
          · rw [htz, hs1, ht2]; simp
          · exact Released.of_blocks hblr hrel
        · exact absurd hret hn
        · exact absurd hret hn
    · right
      have hsr : ev.send_result = some o.send_ret := by
        rcases hkind with rfl | ⟨b, rfl⟩ | ⟨b, v, rfl⟩ <;> rfl
      have hsh : ev.sent_handle = some q := by
        rcases hkind with rfl | ⟨b, rfl⟩ | ⟨b, v, rfl⟩ <;> rfl
      have hr1eq : r1 = (o.send_ret, s2.emit ev) := Prod.ext hret hev
      refine ⟨ev, by rw [hr1, hr1eq], hsh, hsr, ?_⟩
      have hqe : r1.2.queue = s2.queue := hq1
      have hle : r1.2.live = s2.live := hl1
      rcases htr with ⟨hn, hcn, htn⟩ | ⟨hz0, hz, hcz, htz⟩
      · right
        refine ⟨by rw [← hret]; exact hn, ?_, by rw [hcn, hcnt1, hc2], ?_⟩
        · rw [htn, hcnt1, hev, hc2]; simp [ht2]
        · rcases hc with ⟨hz1, -⟩ | ⟨-, hr0, hlen, hqq, hlv, t, m', hnow, hm', hmt⟩ |
            ⟨-, hrn, hwhy, hqq, hrel⟩
          · exact absurd hz1 hn
          · left
            rw [hrmr] at hm'
            cases hm'
            exact ⟨hr0, by rw [← hqe]; exact hlen, by rw [hqq, hqe], by rw [hlv, hle],
              t, hnow, hmt⟩
          · right
            refine ⟨hrn, by rw [← hqe]; exact hwhy, by rw [hqq, hqe], ?_⟩
            exact Released.of_blocks hblr hrel
      · left
        rcases hc with ⟨-, -, hqz, hrel⟩ | ⟨hn, -⟩ | ⟨hn, -⟩
        · refine ⟨by rw [← hret]; exact hz0, hz, ?_, hcz, by rw [hqz, hqe], ?_⟩
          · rw [htz, hev]; simp [ht2]
          · exact Released.of_blocks hblr hrel
        · exact absurd hz0 hn
        · exact absurd hz0 hn

/-! ## Consumer calls that send -/

/-- Whether `encode_device_message` succeeds depends neither on the memory nor on the
`app_id`. -/
theorem encode_result_indep (cfg : Config) (o : ConsumeEnv) (s s1 : State) (app app1 : Ptr)
    (m : SensorData) :
    (encode_device_message cfg o s app m).1 = (encode_device_message cfg o s1 app1 m).1 := by
  unfold encode_device_message
  by_cases h1 : o.msg_init_ret = 0
  · by_cases h2 : o.ts_add_ret = 0
    · simp only [h1, h2, ne_eq, not_true_eq_false, if_false]
      cases m.payload with
      | data ptr len =>
        simp only []
        by_cases hc : m.type ≠ cfg.SENSOR_GNSS ∨ ptr = .null ∨ len ≠ cfg.sizeof_gnss_data
        · rw [if_pos hc, if_pos hc]
        · rw [if_neg hc, if_neg hc]
      | str_val _ => rfl
      | double_val _ => rfl
      | int_val _ => rfl
    · simp [h1, h2]
  · simp [h1]

/-- For a record the send section makes a transport call for, the section returns the
result of that call and adds exactly the send event, made for the handle. -/
theorem makes_send_ok (cfg : Config) (o : ConsumeEnv) (m : SensorData)
    (h : makes_send cfg o m = true) (s : State) (q : Ptr) :
    ∃ ev, send_section cfg o s q (resolve_app_id cfg m) m 0 = .ok (o.send_ret, s.emit ev) ∧
      ev.sent_handle = some q ∧ ev.send_result = some o.send_ret := by
  unfold makes_send send_section at h
  unfold send_section
  cases hb : cfg.binding with
  | MQTT =>
    simp only [hb] at h
    have hi := encode_result_indep cfg o s (State.init fun _ => none) (resolve_app_id cfg m)
      (resolve_app_id cfg m) m
    by_cases he : (encode_device_message cfg o (State.init fun _ => none)
        (resolve_app_id cfg m) m).1 = 0
    · rw [← hi] at he
      simp only [he, ne_eq, not_true_eq_false, if_false]
      exact ⟨_, rfl, rfl, rfl⟩
    · simp [he] at h
  | COAP =>
    simp only [hb] at h
    unfold coap_send at h ⊢
    cases hp : m.payload with
    | data ptr len =>
      simp only [hp] at h
      by_cases hc : m.type = cfg.SENSOR_GNSS ∧ ptr ≠ .null ∧ len = cfg.sizeof_gnss_data
      · simp only []
        rw [if_pos hc]
        exact ⟨_, rfl, rfl, rfl⟩
      · rw [if_neg hc] at h
        simp [State.init] at h
    | str_val p =>
      simp only [hp] at h
      simp [State.init] at h
    | double_val d => exact ⟨_, rfl, rfl, rfl⟩
    | int_val i => exact ⟨_, rfl, rfl, rfl⟩

/-- Whether the send section makes a transport call does not depend on the time
stamp of the record. -/
theorem makes_send_ts (cfg : Config) (o : ConsumeEnv) (m : SensorData) (t : Int) :
    makes_send cfg o { m with ts_ms := t } = makes_send cfg o m := by
  unfold makes_send send_section
  have hr : resolve_app_id cfg { m with ts_ms := t } = resolve_app_id cfg m := rfl
  rw [hr]
  cases hb : cfg.binding with
  | MQTT =>
    simp only []
    have : (encode_device_message cfg o (State.init fun _ => none) (resolve_app_id cfg m)
        { m with ts_ms := t }).1 = (encode_device_message cfg o (State.init fun _ => none)
        (resolve_app_id cfg m) m).1 := by
      unfold encode_device_message
      by_cases h1 : o.msg_init_ret = 0
      · by_cases h2 : o.ts_add_ret = 0
        · simp only [h1, h2, ne_eq, not_true_eq_false, if_false]
          cases m.payload with
          | data ptr len =>
            simp only []
            by_cases hc : m.type ≠ cfg.SENSOR_GNSS ∨ ptr = .null ∨ len ≠ cfg.sizeof_gnss_data
            · rw [if_pos hc, if_pos hc]
            · rw [if_neg hc, if_neg hc]
          | str_val _ => rfl
          | double_val _ => rfl
          | int_val _ => rfl
        · simp [h1, h2]
      · simp [h1]
    rw [this]
    by_cases he : (encode_device_message cfg o (State.init fun _ => none)
        (resolve_app_id cfg m) m).1 = 0
    · simp [he, State.emit]
    · simp [he]
  | COAP =>
    simp only []
    unfold coap_send
    cases m.payload with
    | data ptr len => rfl
    | str_val _ => rfl
    | double_val _ => rfl
    | int_val _ => rfl

/-- A state is not the same state with one more event in its trace. -/
theorem emit_ne (s : State) (ev : Event) : s.emit ev ≠ s := by
  intro h
  have := congrArg (fun x => x.trace.length) h
  simp [State.emit] at this

/-- A consumer call, with no producer running meanwhile, on a message for which the
send section makes a transport call: the call is defined, keeps the invariant and
every other queued record, sends for the handle at the head of the queue, and then
releases the message (send succeeded, or re-insertion refused) or puts it back at the
tail of the queue with a new time stamp. -/
theorem consume_sent (cfg : Config) (o : ConsumeEnv) (s : State) (q : Ptr) (rest : List Ptr)
    (m : SensorData) (hinv : s.Inv) (hq : s.queue = q :: rest) (hget : o.get_ret = 0)
    (hprod : o.producers = []) (hm : s.read_msg q = some m)
    (hres : resolve_app_id cfg m ≠ .null) (hms : makes_send cfg o m = true) :
    ∃ r ev, consume_device_message cfg o s = some r ∧ r.2.Inv ∧ ev.sent_handle = some q ∧
      ev.send_result = some o.send_ret ∧ (∀ q1 ∈ rest, r.2.read_msg q1 = s.read_msg q1) ∧
      q ∉ rest ∧
      ((o.send_ret = 0 ∧ r.1 = 0 ∧
          r.2.trace = s.trace ++ [.await_cloud_ready, ev, led_event cfg] ∧
          r.2.send_failure_count = 0 ∧ r.2.queue = rest ∧ Released s r.2 q) ∨
       (o.send_ret ≠ 0 ∧
          r.2.trace = s.trace ++ [.await_cloud_ready, ev] ++
            breaker_events cfg (wrap_int (s.send_failure_count + 1)) ∧
          r.2.send_failure_count = wrap_int (s.send_failure_count + 1) ∧
          ((r.1 = 0 ∧ rest.length < cfg.MAX_OUTGOING_MESSAGES ∧ r.2.queue = rest ++ [q] ∧
              ∃ t, o.now = some t ∧ r.2.read_msg q = some { m with ts_ms := t }) ∨
           (r.1 ≠ 0 ∧ (o.now = none ∨ cfg.MAX_OUTGOING_MESSAGES ≤ rest.length) ∧
              r.2.queue = rest ∧ Released s r.2 q)))) := by
  have hrun : run_producers cfg o.producers ({ s with queue := rest }.emit .await_cloud_ready) =
      some ({ s with queue := rest }.emit .await_cloud_ready) := by
    rw [hprod]; rfl
  obtain ⟨r, hr, hinv1, hrd, hnot, -, hc⟩ :=
    consume_classify cfg o s _ q rest m hinv hq hget hm hres hrun
  obtain ⟨ev0, hev0, -, -⟩ := makes_send_ok cfg o m hms
    ({ s with queue := rest }.emit .await_cloud_ready) q
  have hrd1 : ∀ q1 ∈ rest, r.2.read_msg q1 = s.read_msg q1 := by
    intro q1 hq1
    rw [hrd q1 hq1]
    cases q1 <;> rfl
  rcases hc with ⟨e, he, -⟩ | ⟨hn, -⟩ | ⟨ev, hev, hsh, hsr, hcase⟩
  · rw [hev0] at he; cases he
  · rw [hev0] at hn
    have := (Except.ok.inj hn)
    exact absurd (congrArg Prod.snd this) (emit_ne _ _)
  · refine ⟨r, ev, hr, hinv1, hsh, hsr, hrd1, hnot, ?_⟩
    rcases hcase with ⟨h0, hr0, ht, hcnt, hqq, hrel⟩ | ⟨hne, ht, hcnt, hsub⟩
    · exact Or.inl ⟨h0, hr0, ht, hcnt, hqq, hrel⟩
    · refine Or.inr ⟨hne, ht, hcnt, ?_⟩
      rcases hsub with ⟨hr0, hlen, hqq, -, t, hnow, hmt⟩ | ⟨hrn, hwhy, hqq, hrel⟩
      · exact Or.inl ⟨hr0, hlen, hqq, t, hnow, hmt⟩
      · exact Or.inr ⟨hrn, hwhy, hqq, hrel⟩

theorem led_event_sent_handle (cfg : Config) : (led_event cfg).sent_handle = none := by
  unfold led_event; split <;> rfl

theorem breaker_events_sent_handles (cfg : Config) (c : Int) :
    sent_handles (breaker_events cfg c) = [] := by
  unfold breaker_events sent_handles
  split <;> rfl

theorem breaker_events_delivered (cfg : Config) (c : Int) :
    delivered_handles (breaker_events cfg c) = [] := by
  unfold breaker_events delivered_handles
  split <;> rfl

/-- Handles sent and delivered in the events of a call whose send succeeds. -/
theorem handles_of_success (cfg : Config) (ev : Event) (q : Ptr) (hsh : ev.sent_handle = some q)
    (hsr : ev.send_result = some 0) :
    sent_handles [.await_cloud_ready, ev, led_event cfg] = [q] ∧
    delivered_handles [.await_cloud_ready, ev, led_event cfg] = [q] := by
  have h1 : ev.send_succeeded = true := by simp [send_succeeded_eq hsr]
  have h2 : (led_event cfg).send_succeeded = false :=
    send_succeeded_of_none (led_event_send_result cfg)
  have h3 : Event.await_cloud_ready.send_succeeded = false := rfl
  have h4 : Event.await_cloud_ready.sent_handle = none := rfl
  constructor
  · simp only [sent_handles, List.filterMap_cons, hsh, led_event_sent_handle, h4,
      List.filterMap_nil]
  · simp only [delivered_handles, List.filter_cons, h1, h2, h3, List.filterMap_cons, hsh,
      List.filter_nil, List.filterMap_nil, if_true, if_false, Bool.false_eq_true]

/-- Handles sent and delivered in the events of a call whose send fails. -/
theorem handles_of_failure (cfg : Config) (ev : Event) (q : Ptr) (r c : Int)
    (hsh : ev.sent_handle = some q) (hsr : ev.send_result = some r) (hr : r ≠ 0) :
    sent_handles ([.await_cloud_ready, ev] ++ breaker_events cfg c) = [q] ∧
    delivered_handles ([.await_cloud_ready, ev] ++ breaker_events cfg c) = [] := by
  have h1 : ev.send_succeeded = false := by simp [send_succeeded_eq hsr, hr]
  have h3 : Event.await_cloud_ready.send_succeeded = false := rfl
  have hb := breaker_events_sent_handles cfg c
  have hd := breaker_events_delivered cfg c
  unfold sent_handles at hb ⊢
  unfold delivered_handles at hd ⊢
  have h4 : Event.await_cloud_ready.sent_handle = none := rfl
  constructor
  · rw [List.filterMap_append, hb]
    simp only [List.filterMap_cons, hsh, h4, List.filterMap_nil, List.append_nil]
  · rw [List.filter_append, List.filterMap_append, hd]
    simp only [List.filter_cons, h1, h3, List.filter_nil, List.filterMap_nil, List.append_nil,
      if_false, Bool.false_eq_true]

/-- Successive consumer calls whose sends all succeed, with no producer running:
they send the queued messages in queue order, one per call, and empty the queue. -/
theorem consume_seq_all_ok (cfg : Config) (qs : List Ptr) (os : List ConsumeEnv) (s : State)
    (hinv : s.Inv) (hq : s.queue = qs) (hlen : os.length = qs.length)
    (ho : ∀ o ∈ os, o.get_ret = 0 ∧ o.producers = [] ∧ o.send_ret = 0)
    (hms : ∀ o ∈ os, ∀ q ∈ qs, ∀ m, s.read_msg q = some m →
      resolve_app_id cfg m ≠ .null ∧ makes_send cfg o m = true) :
    ∃ res, consume_seq cfg os s = some res ∧
      res.1.map sent_handles = qs.map (fun q => [q]) ∧
      res.1.map delivered_handles = qs.map (fun q => [q]) ∧
      res.2.queue = [] ∧ res.2.Inv := by
  induction qs generalizing os s with
  | nil =>
    cases os with
    | nil => exact ⟨([], s), rfl, rfl, rfl, hq, hinv⟩
    | cons o os => simp at hlen
  | cons q rest ih =>
    cases os with
    | nil => simp at hlen
    | cons o os =>
      obtain ⟨hget, hprod, hsend⟩ := ho o (by simp)
      have hqd : s.Queued q := hinv.queued q (by rw [hq]; simp)
      obtain ⟨k, m, rfl, hmk, -, -⟩ := hqd
      have hm := read_msg_heap s k m hmk
      obtain ⟨hres, hmk1⟩ := hms o (by simp) (.heap k) (by simp) m hm
      obtain ⟨r, ev, hr, hinv1, hsh, hsr, hrd, -, hc⟩ :=
        consume_sent cfg o s (.heap k) rest m hinv hq hget hprod hm hres hmk1
      rcases hc with ⟨-, -, ht, -, hqq, -⟩ | ⟨hne, -⟩
      · obtain ⟨res, hres1, hs1, hd1, hq1, hinv2⟩ := ih os r.2 hinv1 hqq (by simpa using hlen)
          (fun o1 ho1 => ho o1 (by simp [ho1]))
          (fun o1 ho1 q1 hq1 m1 hm1 =>
            hms o1 (by simp [ho1]) q1 (by simp [hq1]) m1 (by rw [← hrd q1 hq1]; exact hm1))
        rw [hsend] at hsr
        obtain ⟨hh1, hh2⟩ := handles_of_success cfg ev (.heap k) hsh hsr
        refine ⟨(r.2.trace.drop s.trace.length :: res.1, res.2), ?_, ?_, ?_, hq1, hinv2⟩
        · simp [consume_seq, hr, hres1]
        · simp only [List.map_cons, ht, List.drop_left, hh1, hs1]
        · simp only [List.map_cons, ht, List.drop_left, hh2, hd1]
      · exact absurd hsend hne

/-- An accepted producer call on a state that satisfies the invariant: the new handle
names the next block, is appended to the queue, and the invariant holds again; a slot
was free. -/
theorem submit_accepted (cfg : Config) (e : EnqueueEnv) (s s1 : State) (a : Nat)
    (hinv : s.Inv) (h : send_device_message cfg e s (.ext a) = some (0, s1)) :
    s1.Inv ∧ s1.queue = s.queue ++ [.heap s.next] ∧
    s.queue.length < cfg.MAX_OUTGOING_MESSAGES ∧ s1.trace = s.trace ∧
    s1.send_failure_count = s.send_failure_count := by
  have h1 : send_device_message cfg e s (caller_ptr (some a)) = some (0, s1) := h
  obtain ⟨-, hc⟩ := submit_grows cfg e s (some a) (0, s1) hinv.heap_ok h1
  obtain ⟨new, hq, ho, -⟩ := submit_owned cfg e s (some a) s.queue (0, s1) hinv h1
  obtain ⟨hcnt, htr, -⟩ := enqueue_frame cfg e s (.ext a) true (0, s1) h
  rcases hc with ⟨hne, -⟩ | ⟨-, hlen, hq1, -⟩
  · exact absurd rfl hne
  · refine ⟨?_, hq1, hlen, htr, hcnt⟩
    show s1.Owns s1.queue
    simp only at hq ho
    rw [hq]; exact ho

/-- Unfolding of `consume_seq` at a call that completes. -/
theorem consume_seq_cons (cfg : Config) (o : ConsumeEnv) (os : List ConsumeEnv) (s : State)
    (r : Int × State) (res : List (List Event) × State)
    (h1 : consume_device_message cfg o s = some r) (h2 : consume_seq cfg os r.2 = some res) :
    consume_seq cfg (o :: os) s = some (r.2.trace.drop s.trace.length :: res.1, res.2) := by
  simp only [consume_seq, h1, h2]

/-- The decidable form of the sendability of a queue gives its statement. -/
theorem sendable_queue_spec (cfg : Config) (os : List ConsumeEnv) (s : State)
    (h : sendable_queue cfg os s = true) :
    ∀ o ∈ os, ∀ q ∈ s.queue, ∀ m, s.read_msg q = some m →
      resolve_app_id cfg m ≠ .null ∧ makes_send cfg o m = true := by
  intro o ho q hq m hm
  unfold sendable_queue at h
  have h1 := List.all_eq_true.mp h o ho
  have h2 := List.all_eq_true.mp h1 q hq
  rw [hm] at h2
  simpa using h2

/-! ## Caller stores commute with the consumer -/

/-- Caller stores do not reach the heap. -/
@[simp] theorem caller_store_read_msg_heap (s : State) (a : Nat) (v : Option Obj) (k : Nat) :
    (s.caller_store a v).read_msg (.heap k) = s.read_msg (.heap k) := rfl

/-- A caller store only changes what is read through its own address. -/
theorem caller_store_read_bytes (s : State) (a : Nat) (v : Option Obj) (p : Ptr)
    (h : p ≠ .ext a) : (s.caller_store a v).read_bytes p = s.read_bytes p := by
  cases p with
  | null => rfl
  | heap k => rfl
  | ext b =>
    have : b ≠ a := fun hb => h (by rw [hb])
    simp [State.read_bytes, State.read, State.caller_store, upd, this]

theorem k_free_caller_store (s : State) (a : Nat) (v : Option Obj) (p : Ptr) :
    k_free p (s.caller_store a v) = (k_free p s).caller_store a v := by
  cases p <;> rfl

theorem write_heap_caller_store (s : State) (a : Nat) (v : Option Obj) (k : Nat) (ob : Obj) :
    (s.caller_store a v).write (.heap k) ob = (s.write (.heap k) ob).caller_store a v := rfl

theorem emit_caller_store (s : State) (a : Nat) (v : Option Obj) (e : Event) :
    (s.caller_store a v).emit e = (s.emit e).caller_store a v := rfl

theorem free_caller_store (s : State) (a : Nat) (v : Option Obj) (k : Nat) :
    free_queued_dev_msg_message (s.caller_store a v) (.heap k) =
      (free_queued_dev_msg_message s (.heap k)).map (fun s1 => s1.caller_store a v) := by
  unfold free_queued_dev_msg_message
  simp only [caller_store_read_msg_heap]
  cases s.read_msg (.heap k) with
  | none => rfl
  | some m =>
    cases hp : m.payload <;> simp [hp, k_free_caller_store, write_heap_caller_store]

theorem count_failure_caller_store (cfg : Config) (s : State) (a : Nat) (v : Option Obj) :
    count_failure cfg (s.caller_store a v) = (count_failure cfg s).caller_store a v := by
  unfold count_failure
  by_cases h : wrap_int (s.send_failure_count + 1) > cfg.MAX_CONSECUTIVE_SEND_FAILURES
  · rw [if_pos h, if_pos (show wrap_int ((s.caller_store a v).send_failure_count + 1) > _ from h)]; rfl
  · rw [if_neg h, if_neg (show ¬ wrap_int ((s.caller_store a v).send_failure_count + 1) > _ from h)]; rfl

theorem count_success_caller_store (cfg : Config) (s : State) (a : Nat) (v : Option Obj) :
    count_success cfg (s.caller_store a v) = (count_success cfg s).caller_store a v := by
  unfold count_success
  cases cfg.LED_VERBOSE_INDICATION <;> rfl

theorem requeue_caller_store (cfg : Config) (o : EnqueueEnv) (s : State) (a : Nat)
    (v : Option Obj) (k : Nat) :
    enqueue_device_message cfg o (s.caller_store a v) (.heap k) false =
      (enqueue_device_message cfg o s (.heap k) false).map
        (fun r => (r.1, r.2.caller_store a v)) := by
  unfold enqueue_device_message
  simp only [caller_store_read_msg_heap]
  cases o.now with
  | none => rfl
  | some t =>
    cases s.read_msg (.heap k) with
    | none => rfl
    | some m =>
      simp only [write_heap_caller_store, enqueue_put, k_msgq_put]
      by_cases hlen : s.queue.length < cfg.MAX_OUTGOING_MESSAGES
      · have : (s.caller_store a v).queue.length < cfg.MAX_OUTGOING_MESSAGES := hlen
        simp [hlen, State.caller_store, State.write]
      · simp [hlen, State.caller_store, State.write, ENOMSG]

theorem after_send_caller_store (cfg : Config) (o : ConsumeEnv) (s : State) (a : Nat)
    (v : Option Obj) (k : Nat) (ret : Int) :
    after_send cfg o (s.caller_store a v) (.heap k) ret =
      (after_send cfg o s (.heap k) ret).map (fun r => (r.1, r.2.caller_store a v)) := by
  unfold after_send
  by_cases hret : ret = 0
  · simp only [hret, ne_eq, not_true_eq_false, if_false, free_caller_store]
    cases free_queued_dev_msg_message s (.heap k) with
    | none => rfl
    | some s1 => simp [count_success_caller_store]
  · simp only [ne_eq, hret, not_false_eq_true, if_true, requeue_caller_store]
    cases enqueue_device_message cfg ⟨o.now, false, false⟩ s (.heap k) false with
    | none => rfl
    | some r =>
      by_cases hr : r.1 = 0
      · simp [hr, count_failure_caller_store]
      · simp only [Option.map_some', hr, ne_eq, not_false_eq_true, if_true, free_caller_store]
        cases free_queued_dev_msg_message r.2 (.heap k) with
        | none => rfl
        | some s1 => simp [count_failure_caller_store]

theorem encode_caller_store (cfg : Config) (o : ConsumeEnv) (s : State) (a : Nat)
    (v : Option Obj) (app : Ptr) (m : SensorData) (happ : app ≠ .ext a)
    (hstr : m.payload ≠ .str_val (.ext a)) (hdata : ∀ len, m.payload ≠ .data (.ext a) len) :
    encode_device_message cfg o (s.caller_store a v) app m =
      encode_device_message cfg o s app m := by
  unfold encode_device_message
  rw [caller_store_read_bytes s a v app happ]
  cases hp : m.payload with
  | data ptr len =>
    have : ptr ≠ .ext a := by
      rintro rfl
      exact hdata len hp
    simp only [caller_store_read_bytes s a v ptr this]
  | str_val p =>
    have : p ≠ .ext a := by
      rintro rfl
      exact hstr hp
    simp only [caller_store_read_bytes s a v p this]
  | double_val _ => rfl
  | int_val _ => rfl

theorem send_section_caller_store (cfg : Config) (o : ConsumeEnv) (s : State) (a : Nat)
    (v : Option Obj) (q app : Ptr) (m : SensorData) (ret : Int) (happ : app ≠ .ext a)
    (hstr : m.payload ≠ .str_val (.ext a)) (hdata : ∀ len, m.payload ≠ .data (.ext a) len) :
    send_section cfg o (s.caller_store a v) q app m ret =
      (send_section cfg o s q app m ret).map (fun r => (r.1, r.2.caller_store a v)) := by
  unfold send_section
  cases cfg.binding with
  | MQTT =>
    simp only [encode_caller_store cfg o s a v app m happ hstr hdata]
    by_cases he : (encode_device_message cfg o s app m).1 = 0
    · simp only [he, ne_eq, not_true_eq_false, if_false]
      rfl
    · simp only [ne_eq, he, not_false_eq_true, if_true]
      rfl
  | COAP =>
    simp only []
    unfold coap_send
    cases hp : m.payload with
    | data ptr len =>
      have : ptr ≠ .ext a := by
        rintro rfl
        exact hdata len hp
      simp only [caller_store_read_bytes s a v ptr this]
      by_cases hc : m.type = cfg.SENSOR_GNSS ∧ ptr ≠ .null ∧ len = cfg.sizeof_gnss_data
      · rw [if_pos hc, if_pos hc]; rfl
      · rw [if_neg hc, if_neg hc]; rfl
    | str_val p => rfl
    | double_val d =>
      simp only [caller_store_read_bytes s a v app happ]
      rfl
    | int_val i =>
      simp only [caller_store_read_bytes s a v app happ]
      rfl

/-- A consumer call does not depend on what a caller keeps at an address of its own
memory, unless the message at the head of the queue refers to that address through its
`app_id` or `str_val` pointer: storing at the address before the call or after it
gives the same result, trace and state. -/
theorem consume_caller_store (cfg : Config) (o : ConsumeEnv) (s : State) (a : Nat)
    (v : Option Obj) (k : Nat) (rest : List Ptr) (m : SensorData)
    (hq : s.queue = .heap k :: rest) (hm : s.heap k = some (.msg m))
    (hprod : o.producers = []) (happ : resolve_app_id cfg m ≠ .ext a)
    (hstr : m.payload ≠ .str_val (.ext a)) (hdata : ∀ len, m.payload ≠ .data (.ext a) len) :
    consume_device_message cfg o (s.caller_store a v) =
      (consume_device_message cfg o s).map (fun r => (r.1, r.2.caller_store a v)) := by
  have hq1 : (s.caller_store a v).queue = .heap k :: rest := hq
  have hrm := read_msg_heap s k m hm
  by_cases hget : o.get_ret = 0
  · have hg1 : k_msgq_get o.get_ret s = some (0, .heap k, { s with queue := rest }) := by
      simp [k_msgq_get, hget, hq]
    have hg2 : k_msgq_get o.get_ret (s.caller_store a v) =
        some (0, .heap k, ({ s with queue := rest } : State).caller_store a v) := by
      simp [k_msgq_get, hget, hq1]
      rfl
    have hrm1 : ({ s with queue := rest } : State).read_msg (.heap k) = some m := by
      simpa [State.read_msg, State.read] using hrm
    unfold consume_device_message
    simp only [hg1, hg2, caller_store_read_msg_heap, hrm1]
    by_cases hres : resolve_app_id cfg m = .null
    · simp [hres]
    · simp only [hres, if_false, ne_eq, not_true_eq_false, reduceCtorEq]
      unfold send_and_settle
      simp only [hprod, run_producers, emit_caller_store, caller_store_read_msg_heap,
        emit_read_msg, hrm1]
      rw [send_section_caller_store cfg o _ a v _ _ m 0 happ hstr hdata]
      cases send_section cfg o (({ s with queue := rest } : State).emit .await_cloud_ready)
          (.heap k) (resolve_app_id cfg m) m 0 with
      | error e =>
        simp only [Except.map, free_caller_store]
        cases free_queued_dev_msg_message
            (({ s with queue := rest } : State).emit .await_cloud_ready) (.heap k) with
        | none => rfl
        | some s1 => rfl
      | ok r =>
        simp only [Except.map, after_send_caller_store]
  · simp [consume_device_message, k_msgq_get, hget]

/-! ## Arguments of the transport calls -/

/-- Calls that are not transport sends carry neither an application id nor a time
stamp. -/
theorem non_send_args {e : Event} (h : e.send_result = none) :
    e.sent_app_id = none ∧ e.sent_ts = none := by
  cases e <;> simp_all [Event.send_result, Event.sent_app_id, Event.sent_ts]

/-- The object `encode_device_message` builds carries the string found at `appid`. -/
theorem encode_app_id (cfg : Config) (o : ConsumeEnv) (s : State) (a : Ptr) (m : SensorData) :
    (encode_device_message cfg o s a m).2.app_id = s.read_bytes a := by
  unfold encode_device_message
  by_cases h1 : o.msg_init_ret ≠ 0
  · rw [if_pos h1]
  · rw [if_neg h1]
    by_cases h2 : o.ts_add_ret ≠ 0
    · rw [if_pos h2]
    · rw [if_neg h2]
      cases hpl : m.payload with
      | data ptr len =>
        simp only
        by_cases h3 : m.type ≠ cfg.SENSOR_GNSS ∨ ptr = .null ∨ len ≠ cfg.sizeof_gnss_data
        · rw [if_pos h3]
        · rw [if_neg h3]
      | str_val p => rfl
      | double_val d => rfl
      | int_val i => rfl

/-- When `encode_device_message` returns 0, the object it builds carries the time
stamp of the message. -/
theorem encode_ts (cfg : Config) (o : ConsumeEnv) (s : State) (a : Ptr) (m : SensorData)
    (h : (encode_device_message cfg o s a m).1 = 0) :
    (encode_device_message cfg o s a m).2.ts = m.ts_ms := by
  unfold encode_device_message at h ⊢
  by_cases h1 : o.msg_init_ret ≠ 0
  · rw [if_pos h1] at h
    exact absurd h h1
  · rw [if_neg h1]
    by_cases h2 : o.ts_add_ret ≠ 0
    · rw [if_neg h1, if_pos h2] at h
      exact absurd h h2
    · rw [if_neg h2]
      cases hpl : m.payload with
      | data ptr len =>
        simp only
        by_cases h3 : m.type ≠ cfg.SENSOR_GNSS ∨ ptr = .null ∨ len ≠ cfg.sizeof_gnss_data
        · rw [if_pos h3]
        · rw [if_neg h3]
      | str_val p => rfl
      | double_val d => rfl
      | int_val i => rfl

/-- Two states that arise from one state by one call each are equal only when the
calls are. -/
theorem emit_inj (s : State) (e1 e2 : Event) (h : s.emit e1 = s.emit e2) : e1 = e2 := by
  have h1 : (s.emit e1).trace = (s.emit e2).trace := by rw [h]
  simpa [State.emit] using h1

/-- The transport call of the send section is given the string found at `app_id` and
the time stamp of the record. -/
theorem send_section_args (cfg : Config) (o : ConsumeEnv) (s : State) (q a : Ptr)
    (m : SensorData) (ret : Int) (r : Int × State) (ev : Event)
    (h : send_section cfg o s q a m ret = .ok r) (hev : r.2 = s.emit ev) :
    (∀ x, ev.sent_app_id = some x → x = s.read_bytes a) ∧
    (∀ ts, ev.sent_ts = some ts → ts = m.ts_ms) := by
  unfold send_section at h
  cases hb : cfg.binding with
  | MQTT =>
    rw [hb] at h
    simp only at h
    by_cases h1 : (encode_device_message cfg o s a m).1 ≠ 0
    · rw [if_pos h1] at h
      cases h
    · rw [if_neg h1] at h
      have h2 := Except.ok.inj h
      rw [← h2] at hev
      have h3 := emit_inj _ _ _ hev
      rw [← h3]
      refine ⟨fun x hx => ?_, fun ts hts => ?_⟩
      · simp only [Event.sent_app_id, Option.some.injEq] at hx
        rw [← hx]
        exact encode_app_id cfg o s a m
      · simp only [Event.sent_ts, Option.some.injEq] at hts
        rw [← hts]
        exact encode_ts cfg o s a m (not_not.mp h1)
  | COAP =>
    rw [hb] at h
    simp only at h
    have h2 := Except.ok.inj h
    rw [← h2] at hev
    unfold coap_send at hev
    cases hpl : m.payload with
    | data ptr len =>
      rw [hpl] at hev
      simp only at hev
      by_cases hc : m.type = cfg.SENSOR_GNSS ∧ ptr ≠ .null ∧ len = cfg.sizeof_gnss_data
      · rw [if_pos hc] at hev
        have h3 := emit_inj _ _ _ hev
        rw [← h3]
        simp [Event.sent_app_id, Event.sent_ts]
      · rw [if_neg hc] at hev
        exact absurd hev.symm (emit_ne _ _)
    | str_val p =>
      rw [hpl] at hev
      exact absurd hev.symm (emit_ne _ _)
    | double_val d =>
      rw [hpl] at hev
      have h3 := emit_inj _ _ _ hev
      rw [← h3]
      simp [Event.sent_app_id, Event.sent_ts]
    | int_val i =>
      rw [hpl] at hev
      have h3 := emit_inj _ _ _ hev
      rw [← h3]
      simp [Event.sent_app_id, Event.sent_ts]

/-- Every transport call a consumer call makes is given the string found at the
resolved `app_id` of the dequeued message and the time stamp of its record. -/
theorem consume_send_args (cfg : Config) (o : ConsumeEnv) (s s2 : State) (q : Ptr)
    (rest : List Ptr) (m : SensorData) (hinv : s.Inv) (hq : s.queue = q :: rest)
    (hget : o.get_ret = 0) (hm : s.read_msg q = some m) (hres : resolve_app_id cfg m ≠ .null)
    (hprod : run_producers cfg o.producers ({ s with queue := rest }.emit .await_cloud_ready) =
      some s2) :
    ∃ r, consume_device_message cfg o s = some r ∧
      ∀ ev ∈ r.2.trace.drop s.trace.length,
        (∀ x, ev.sent_app_id = some x → x = s2.read_bytes (resolve_app_id cfg m)) ∧
        (∀ ts, ev.sent_ts = some ts → ts = m.ts_ms) := by
  obtain ⟨r, hr, -, -, -, -, hc⟩ :=
    consume_classify cfg o s s2 q rest m hinv hq hget hm hres hprod
  refine ⟨r, hr, ?_⟩
  have hnone : ∀ e : Event, e.send_result = none →
      (∀ x, e.sent_app_id = some x → x = s2.read_bytes (resolve_app_id cfg m)) ∧
      (∀ ts, e.sent_ts = some ts → ts = m.ts_ms) := by
    intro e he
    obtain ⟨h1, h2⟩ := non_send_args he
    rw [h1, h2]
    simp
  have hawait : Event.await_cloud_ready.send_result = none := rfl
  rcases hc with ⟨e, -, -, -, -, ht, -⟩ | ⟨-, -, -, ht, -⟩ | ⟨ev, hev, -, -, hcase⟩
  · intro ev1 hmem
    rw [ht, List.drop_left] at hmem
    simp at hmem
    rw [hmem]
    exact hnone _ hawait
  · intro ev1 hmem
    rw [ht, List.drop_left] at hmem
    simp at hmem
    rcases hmem with rfl | rfl
    · exact hnone _ hawait
    · exact hnone _ (led_event_send_result cfg)
  · have hargs := send_section_args cfg o s2 q (resolve_app_id cfg m) m 0 _ ev hev rfl
    rcases hcase with ⟨-, -, ht, -⟩ | ⟨-, ht, -⟩
    · intro ev1 hmem
      rw [ht, List.drop_left] at hmem
      simp at hmem
      rcases hmem with rfl | rfl | rfl
      · exact hnone _ hawait
      · exact hargs
      · exact hnone _ (led_event_send_result cfg)
    · intro ev1 hmem
      rw [ht, List.append_assoc, List.drop_left] at hmem
      simp at hmem
      rcases hmem with rfl | rfl | hb
      · exact hnone _ hawait
      · exact hargs
      · exact hnone _ (breaker_events_send_result cfg _ ev1 hb)

/-- Neither `send_device_message` nor the calls of producers use the lookup table of
application ids. -/
theorem run_producers_lookup (cfg : Config) (f : Nat → Ptr) (ps : List Submit) (s : State) :
    run_producers { cfg with nrf_cloud_sensor_app_id_lookup := f } ps s =
      run_producers cfg ps s := by
  induction ps generalizing s with
  | nil => rfl
  | cons p ps ih =>
    have h : send_device_message { cfg with nrf_cloud_sensor_app_id_lookup := f } p.env s
        (caller_ptr p.msg) = send_device_message cfg p.env s (caller_ptr p.msg) := rfl
    simp only [run_producers, h]
    cases send_device_message cfg p.env s (caller_ptr p.msg) with
    | none => rfl
    | some r => exact ih r.2

/-- From `await_cloud_ready` on, a consumer call does not use the lookup table of
application ids. -/
theorem send_and_settle_lookup (cfg : Config) (f : Nat → Ptr) (o : ConsumeEnv) (s : State)
    (q a : Ptr) (ret : Int) :
    send_and_settle { cfg with nrf_cloud_sensor_app_id_lookup := f } o s q a ret =
      send_and_settle cfg o s q a ret := by
  simp only [send_and_settle, run_producers_lookup]
  rfl

/-- A consumer call that dequeues a message with a resolved `app_id` is the rest of
the function, from `await_cloud_ready` on, run on the state without the handle. -/
theorem consume_after_dequeue (cfg : Config) (o : ConsumeEnv) (s : State) (q : Ptr)
    (rest : List Ptr) (m : SensorData) (hq : s.queue = q :: rest) (hget : o.get_ret = 0)
    (hm : s.read_msg q = some m) (hres : resolve_app_id cfg m ≠ .null) :
    consume_device_message cfg o s =
      send_and_settle cfg o { s with queue := rest } q (resolve_app_id cfg m) 0 := by
  have hq0 : q ≠ .null := by
    intro h
    rw [h] at hm
    simp [State.read_msg, State.read] at hm
  have hm1 : ({ s with queue := rest } : State).read_msg q = some m := hm
  simp [consume_device_message, k_msgq_get, hq, hget, hq0, hm1, hres]

/-- Putting a message back into the queue writes its record block only. -/
theorem requeue_heap (cfg : Config) (e : EnqueueEnv) (s : State) (k : Nat) (r : Int × State)
    (h : enqueue_device_message cfg e s (.heap k) false = some r) (j : Nat) (hj : j ≠ k) :
    r.2.heap j = s.heap j := by
  cases hn : e.now with
  | none =>
    simp [enqueue_device_message, hn] at h
    rw [← h]
  | some t =>
    cases hm : s.read_msg (.heap k) with
    | none => simp [enqueue_device_message, hn, hm] at h
    | some m =>
      simp only [enqueue_device_message, hn, hm, enqueue_put, k_msgq_put] at h
      simp only [reduceCtorEq, if_false, Bool.false_eq_true] at h
      split_ifs at h <;>
        (cases h
         simp [State.write, upd, hj])

/-- A failed send followed by an accepted re-insertion writes the record block of the
message only. -/
theorem after_send_requeued (cfg : Config) (o : ConsumeEnv) (s : State) (k : Nat) (ret : Int)
    (r : Int × State) (h : after_send cfg o s (.heap k) ret = some r) (hret : ret ≠ 0)
    (h0 : r.1 = 0) (j : Nat) (hj : j ≠ k) : r.2.heap j = s.heap j := by
  unfold after_send at h
  rw [if_pos hret] at h
  cases he : enqueue_device_message cfg ⟨o.now, false, false⟩ s (.heap k) false with
  | none =>
    rw [he] at h
    cases h
  | some r1 =>
    rw [he] at h
    simp only at h
    by_cases h1 : r1.1 ≠ 0
    · rw [if_pos h1] at h
      cases hf : free_queued_dev_msg_message r1.2 (.heap k) with
      | none =>
        rw [hf] at h
        cases h
      | some s1 =>
        rw [hf] at h
        cases h
        exact absurd h0 h1
    · rw [if_neg h1] at h
      cases h
      simp only [count_failure_heap]
      exact requeue_heap cfg _ s k r1 he j hj

/-- Under the conditions of `sendable` the send section makes a transport call for
the record, with its handle, the string at `app_id` when the call takes one, and the
time stamp of the record. -/
theorem sendable_send (cfg : Config) (o : ConsumeEnv) (m : SensorData)
    (h : sendable cfg o m = true) (s : State) (q a : Ptr) :
    ∃ ev, send_section cfg o s q a m 0 = .ok (o.send_ret, s.emit ev) ∧
      ev.sent_handle = some q ∧ ev.send_result = some o.send_ret ∧
      ((cfg.binding = .MQTT ∨ ∀ ptr len, m.payload ≠ .data ptr len) →
        ev.sent_app_id = some (s.read_bytes a) ∧ ev.sent_ts = some m.ts_ms) := by
  unfold sendable at h
  cases hb : cfg.binding with
  | MQTT =>
    rw [hb] at h
    simp only [Bool.and_eq_true, decide_eq_true_eq] at h
    obtain ⟨⟨h1, h2, h3⟩, hp⟩ := h
    have henc : (encode_device_message cfg o s a m).1 = 0 := by
      unfold encode_device_message
      rw [if_neg (by simp [h1]), if_neg (by simp [h2])]
      cases hpl : m.payload with
      | data ptr len =>
        rw [hpl] at hp
        simp only [decide_eq_true_eq] at hp
        simp only
        rw [if_neg (by
          intro hc
          rcases hc with hc | hc | hc
          · exact hc hp.1
          · exact hp.2.1 hc
          · exact hc hp.2.2)]
        exact h3
      | str_val p => exact h3
      | double_val d => exact h3
      | int_val i => exact h3
    refine ⟨.nrf_cloud_send q (encode_device_message cfg o s a m).2 o.send_ret, ?_, rfl, rfl,
      fun _ => ⟨?_, ?_⟩⟩
    · simp [send_section, hb, henc]
    · simp only [Event.sent_app_id]
      rw [encode_app_id]
    · simp only [Event.sent_ts]
      rw [encode_ts cfg o s a m henc]
  | COAP =>
    rw [hb] at h
    simp only [Bool.true_and] at h
    cases hpl : m.payload with
    | data ptr len =>
      rw [hpl] at h
      simp only [decide_eq_true_eq] at h
      refine ⟨.nrf_cloud_coap_location_send q (s.read_bytes ptr) o.send_ret, ?_, rfl, rfl,
        fun hc => ?_⟩
      · simp [send_section, hb, coap_send, hpl, h]
      · rcases hc with hc | hc
        · cases hc
        · exact absurd rfl (hc ptr len)
    | str_val p =>
      rw [hpl] at h
      simp at h
    | double_val d =>
      refine ⟨.nrf_cloud_coap_sensor_send q (s.read_bytes a) (.bits d) m.ts_ms o.send_ret, ?_,
        rfl, rfl, fun _ => ⟨rfl, rfl⟩⟩
      simp [send_section, hb, coap_send, hpl]
    | int_val i =>
      refine ⟨.nrf_cloud_coap_sensor_send q (s.read_bytes a) (.ofInt i) m.ts_ms o.send_ret, ?_,
        rfl, rfl, fun _ => ⟨rfl, rfl⟩⟩
      simp [send_section, hb, coap_send, hpl]

/-- The application ids given to the transport in the calls of one consumer call that
makes a send with the string `x`. -/
theorem app_ids_of_call (cfg : Config) (ev : Event) (x : Option (List Nat))
    (h : ev.sent_app_id = some x) (c : Int) :
    [.await_cloud_ready, ev, led_event cfg].filterMap Event.sent_app_id = [x] ∧
    ([.await_cloud_ready, ev] ++ breaker_events cfg c).filterMap Event.sent_app_id = [x] := by
  have h1 : Event.await_cloud_ready.sent_app_id = none := rfl
  have h2 : (led_event cfg).sent_app_id = none :=
    (non_send_args (led_event_send_result cfg)).1
  have h3 : (breaker_events cfg c).filterMap Event.sent_app_id = [] := by
    rw [List.filterMap_eq_nil_iff]
    intro e he
    exact (non_send_args (breaker_events_send_result cfg c e he)).1
  refine ⟨?_, ?_⟩
  · simp [List.filterMap_cons, h1, h2, h]
  · rw [List.filterMap_append, h3]
    simp [List.filterMap_cons, h1, h]

/-- An accepted producer call for a block message has read `data.len` bytes at
`data.ptr` and the new payload buffer holds exactly these bytes. -/
theorem submit_copies_bytes (cfg : Config) (e : EnqueueEnv) (s s1 : State) (a : Nat)
    (m : SensorData) (ptr : Ptr) (len : Nat) (hok : s.HeapOK)
    (hmsg : s.ext a = some (.msg m)) (hpl : m.payload = .data ptr len)
    (hsub : send_device_message cfg e s (.ext a) = some (0, s1)) :
    ∃ b, s.read_bytes ptr = some b ∧ len ≤ b.length ∧
      s1.read_bytes (.heap (s.next + 1)) = some (b.take len) := by
  have hfresh := hok.fresh s.next (le_refl _)
  have key : ∀ (X Y : SensorData) (n : Nat) (l : List Nat) (qs : List Ptr) (c : Int)
      (tr : List Event),
      memcpy_src ⟨upd s.ext a (some (.msg X)), upd s.heap s.next (some (.msg Y)), n, l, qs, c,
        tr⟩ ptr len = memcpy_src s ptr len := by
    intro X Y n l qs c tr
    unfold memcpy_src
    have hrb : State.read_bytes ⟨upd s.ext a (some (.msg X)),
        upd s.heap s.next (some (.msg Y)), n, l, qs, c, tr⟩ ptr = s.read_bytes ptr := by
      cases ptr with
      | null => rfl
      | ext c1 =>
        by_cases h1 : c1 = a
        · subst h1
          simp [State.read_bytes, State.read, upd, hmsg]
        · simp [State.read_bytes, State.read, upd, h1]
      | heap k =>
        by_cases h1 : k = s.next
        · subst h1
          simp [State.read_bytes, State.read, upd, hfresh]
        · simp [State.read_bytes, State.read, upd, h1]
    rw [hrb]
  cases hnow : e.now with
  | none =>
    simp [send_device_message, enqueue_device_message, hnow, ETIME] at hsub
  | some t =>
    by_cases hlen : s.queue.length < cfg.MAX_OUTGOING_MESSAGES <;>
    cases ham : e.alloc_msg <;> cases had : e.alloc_data <;>
    simp [send_device_message, enqueue_device_message, hnow, State.read_msg,
      State.read, hmsg, allocate_dev_msg_for_queue, k_malloc, ham, had, copy_block, hpl,
      enqueue_put, k_msgq_put, hlen, ENOMSG, ENOMEM, free_queued_dev_msg_message, State.write,
      k_free, key] at hsub
    all_goals (
      unfold memcpy_src at hsub
      cases hb : s.read_bytes ptr with
      | none => simp [hb] at hsub
      | some b =>
        by_cases hl : len ≤ b.length
        · simp [hb, hl, enqueue_put, k_msgq_put, hlen, ENOMSG, ENOMEM,
            free_queued_dev_msg_message, State.read_msg, State.read, State.write, k_free,
            upd] at hsub <;>
          (refine ⟨b, rfl, hl, ?_⟩
           rw [← hsub]
           simp [State.read_bytes, State.read, upd])
        · simp [hb, hl] at hsub)

/-- A consumer call that dequeues a message with a resolved `app_id` gives no
transport call another application id than the string at that pointer; for a record
fit for a send whose transport call takes an application id, it makes exactly one
transport call, for the dequeued handle and with that string. -/
theorem consume_sends_app_id (cfg : Config) (o : ConsumeEnv) (s s2 : State) (q : Ptr)
    (rest : List Ptr) (m : SensorData) (hinv : s.Inv) (hq : s.queue = q :: rest)
    (hget : o.get_ret = 0) (hm : s.read_msg q = some m) (hres : resolve_app_id cfg m ≠ .null)
    (hprod : run_producers cfg o.producers ({ s with queue := rest }.emit .await_cloud_ready) =
      some s2) :
    ∃ r, consume_device_message cfg o s = some r ∧
      (∀ ev ∈ r.2.trace.drop s.trace.length, ∀ x, ev.sent_app_id = some x →
        x = s2.read_bytes (resolve_app_id cfg m)) ∧
      (sendable cfg o m = true →
        (cfg.binding = .MQTT ∨ ∀ ptr len, m.payload ≠ .data ptr len) →
        sent_handles (r.2.trace.drop s.trace.length) = [q] ∧
        (r.2.trace.drop s.trace.length).filterMap Event.sent_app_id =
          [s2.read_bytes (resolve_app_id cfg m)]) := by
  obtain ⟨r, hr, hargs⟩ := consume_send_args cfg o s s2 q rest m hinv hq hget hm hres hprod
  obtain ⟨r1, hr1, -, -, -, -, hc⟩ :=
    consume_classify cfg o s s2 q rest m hinv hq hget hm hres hprod
  rw [hr] at hr1
  cases hr1
  refine ⟨r, hr, fun ev hev x hx => (hargs ev hev).1 x hx, fun hs hcar => ?_⟩
  obtain ⟨ev0, hev0, hsh0, hsr0, hid0⟩ := sendable_send cfg o m hs s2 q (resolve_app_id cfg m)
  obtain ⟨hid, -⟩ := hid0 hcar
  rcases hc with ⟨e, he, -⟩ | ⟨hn, -⟩ | ⟨ev, hev, hsh, hsr, hcase⟩
  · rw [hev0] at he
    cases he
  · rw [hev0] at hn
    exact absurd (congrArg Prod.snd (Except.ok.inj hn)) (emit_ne _ _)
  · rw [hev0] at hev
    have hee : ev0 = ev := emit_inj s2 _ _ (congrArg Prod.snd (Except.ok.inj hev))
    subst hee
    rcases hcase with ⟨h0, -, ht, -⟩ | ⟨hne, ht, -⟩
    · rw [h0] at hsr
      rw [ht, List.drop_left]
      exact ⟨(handles_of_success cfg ev0 q hsh hsr).1,
        (app_ids_of_call cfg ev0 _ hid 0).1⟩
    · rw [ht, List.append_assoc, List.drop_left]
      exact ⟨(handles_of_failure cfg ev0 q o.send_ret _ hsh hsr hne).1,
        (app_ids_of_call cfg ev0 _ hid _).2⟩

/-- A producer call for a block message whose `data.ptr` is `NULL` has no defined
result once both allocations have succeeded: the `memcpy` of the copy reads through
the null pointer. -/
theorem submit_null_payload_undefined (cfg : Config) (e : EnqueueEnv) (s : State) (a : Nat)
    (m : SensorData) (t : Int) (len : Nat) (hmsg : s.ext a = some (.msg m))
    (hpl : m.payload = .data .null len) (hnow : e.now = some t) (ham : e.alloc_msg = true)
    (had : e.alloc_data = true) : send_device_message cfg e s (.ext a) = none := by
  simp [send_device_message, enqueue_device_message, hnow, State.read_msg, State.read, hmsg,
    allocate_dev_msg_for_queue, k_malloc, ham, had, copy_block, hpl, State.write, memcpy_src,
    State.read_bytes]

/-! ## Claims -/

/-- C1: for every capacity and every finite sequence of producer calls, consumer calls
and caller stores started from the empty queue, whatever the clock, the allocator, the
codec and the transport answer, the queue holds at most `CONFIG_MAX_OUTGOING_MESSAGES`
handles afterwards. -/
theorem C1_queue_within_capacity (cfg : Config) (ext : Nat → Option Obj) (steps : List Step)
    (s : State) (h : run cfg steps (State.init ext) = some s) :
    s.queue.length ≤ cfg.MAX_OUTGOING_MESSAGES :=
  run_queue_le cfg steps (State.init ext) s h (by simp [State.init])

/-- C1 at a concrete run with 2 slots: three producer calls (the third finds the queue
full), a consumer call whose send fails and one whose send succeeds. -/
theorem C1_queue_within_capacity_witness :
    run (example_cfg .MQTT 2) example_steps (State.init example_ext) =
        some (example_run (example_cfg .MQTT 2) example_steps) ∧
      (example_run (example_cfg .MQTT 2) example_steps).queue.length ≤
        (example_cfg .MQTT 2).MAX_OUTGOING_MESSAGES :=
  ⟨some_getD (by decide),
    C1_queue_within_capacity _ _ _ _ (some_getD (d := State.init example_ext) (by decide))⟩

/-- C2: for every state whose queue holds exactly `CONFIG_MAX_OUTGOING_MESSAGES`
handles and every caller message (a block payload addressing `data.len` readable
bytes) for which the clock read and the allocations of the copy succeed,
`send_device_message` returns the non-zero `-ENOMEM`, leaves the queue
(handles and their order), every heap block (so every queued record and payload) and
the set of live blocks exactly as they were, and writes only the time stamp of the
caller's own record. -/
theorem C2_full_queue_rejects_submit (cfg : Config) (o : EnqueueEnv) (s : State) (a : Nat)
    (m : SensorData) (t : Int)
    (hfull : s.queue.length = cfg.MAX_OUTGOING_MESSAGES) (hok : s.HeapOK)
    (hmsg : s.ext a = some (.msg m)) (hv : valid_payload s m) (hnow : o.now = some t)
    (ha : o.alloc_msg = true) (hd : m.data_type = .BLOCK → o.alloc_data = true) :
    ∃ s1, send_device_message cfg o s (.ext a) = some (-ENOMEM, s1) ∧ -ENOMEM ≠ 0 ∧
      s1.queue = s.queue ∧ s1.heap = s.heap ∧ s1.live = s.live ∧
      s1.ext = upd s.ext a (some (.msg { m with ts_ms := t })) ∧
      s1.trace = s.trace ∧ s1.send_failure_count = s.send_failure_count := by
  have hfresh := hok.fresh
  cases hpl : m.payload with
  | data ptr len =>
    have hd1 : o.alloc_data = true := hd (by simp [SensorData.data_type, hpl])
    obtain ⟨c, b, hptr, hc, hl⟩ := hv ptr len hpl
    subst hptr
    have hca : c ≠ a := by
      intro h
      rw [h, hmsg] at hc
      cases hc
    simp [send_device_message, enqueue_device_message, hnow, hmsg, allocate_dev_msg_for_queue,
      k_malloc, ha, hd1, copy_block, hpl, enqueue_put, k_msgq_put, hfull, ENOMSG,
      free_queued_dev_msg_message, State.read_msg, State.read, State.write, k_free, ENOMEM,
      memcpy_src, State.read_bytes, upd, hca, hc, hl]
    funext k
    by_cases h1 : k = s.next <;> by_cases h2 : k = s.next + 1 <;> simp [upd, h1, h2, hfresh]
  | str_val p =>
    simp [send_device_message, enqueue_device_message, hnow, hmsg, allocate_dev_msg_for_queue,
      k_malloc, ha, copy_block, hpl, enqueue_put, k_msgq_put, hfull, ENOMSG,
      free_queued_dev_msg_message, State.read_msg, State.read, State.write, k_free, ENOMEM]
    funext k
    by_cases h1 : k = s.next <;> simp [upd, h1, hfresh]
  | double_val d =>
    simp [send_device_message, enqueue_device_message, hnow, hmsg, allocate_dev_msg_for_queue,
      k_malloc, ha, copy_block, hpl, enqueue_put, k_msgq_put, hfull, ENOMSG,
      free_queued_dev_msg_message, State.read_msg, State.read, State.write, k_free, ENOMEM]
    funext k
    by_cases h1 : k = s.next <;> simp [upd, h1, hfresh]
  | int_val i =>
    simp [send_device_message, enqueue_device_message, hnow, hmsg, allocate_dev_msg_for_queue,
      k_malloc, ha, copy_block, hpl, enqueue_put, k_msgq_put, hfull, ENOMSG,
      free_queued_dev_msg_message, State.read_msg, State.read, State.write, k_free, ENOMEM]
    funext k
    by_cases h1 : k = s.next <;> simp [upd, h1, hfresh]

/-- C2 at a concrete state: one slot, taken by the temperature message; the GNSS block
message submitted at time 11 is rejected. -/
theorem C2_full_queue_rejects_submit_witness :
    (example_state (example_cfg .MQTT 1) [1]).queue.length =
        (example_cfg .MQTT 1).MAX_OUTGOING_MESSAGES ∧
    (example_state (example_cfg .MQTT 1) [1]).queue = [.heap 0] ∧
    ∃ s1, send_device_message (example_cfg .MQTT 1) (submit_at 3 11).env
        (example_state (example_cfg .MQTT 1) [1]) (.ext 3) = some (-ENOMEM, s1) ∧ -ENOMEM ≠ 0 ∧
      s1.queue = (example_state (example_cfg .MQTT 1) [1]).queue ∧
      s1.heap = (example_state (example_cfg .MQTT 1) [1]).heap ∧
      s1.live = (example_state (example_cfg .MQTT 1) [1]).live ∧
      s1.ext = upd (example_state (example_cfg .MQTT 1) [1]).ext 3
        (some (.msg { type := 0, payload := .data (.ext 50) 4, ts_ms := 11, app_id := .null })) ∧
      s1.trace = (example_state (example_cfg .MQTT 1) [1]).trace ∧
      s1.send_failure_count = (example_state (example_cfg .MQTT 1) [1]).send_failure_count :=
  ⟨by decide, by decide,
    C2_full_queue_rejects_submit (example_cfg .MQTT 1) (submit_at 3 11).env
      (example_state (example_cfg .MQTT 1) [1]) 3
      { type := 0, payload := .data (.ext 50) 4, ts_ms := 0, app_id := .null } 11
      (by decide)
      (run_inv (example_cfg .MQTT 1) [.submit (submit_at 1 10)] (State.init example_ext) _
        (init_inv example_ext)
        (some_getD (d := State.init example_ext) (by decide))).heap_ok
      (by decide)
      (fun ptr len h => by
        cases h
        exact ⟨50, [1, 2, 3, 4], rfl, by decide, by decide⟩)
      rfl rfl (fun _ => rfl)⟩

/-- C3, counterexample: the queued copy keeps the caller's `str_val` and `app_id`
pointers. A string message is accepted at time 10; the delivery loop sends the text
found behind `str_val` at send time: "hi" when the caller leaves it alone, "yo" when
the caller has overwritten it meanwhile, nothing readable when the caller has given
the storage up. Likewise the counter message is sent under whatever text its
`app_id` storage holds at send time. -/
theorem C3_caller_strings_reach_transport :
    (example_run (example_cfg .MQTT 3)
        [.submit (submit_at 4 10), .consume (consume_with 0 20)]).trace =
      [.await_cloud_ready,
        .nrf_cloud_send (.heap 0)
          { app_id := some [84, 69, 77, 80], ts := 10, data := .str (some [104, 105]) } 0,
        .stop_led_pattern] ∧
    (example_run (example_cfg .MQTT 3)
        [.submit (submit_at 4 10), .caller_store 60 (some (.bytes [121, 111])),
          .consume (consume_with 0 20)]).trace =
      [.await_cloud_ready,
        .nrf_cloud_send (.heap 0)
          { app_id := some [84, 69, 77, 80], ts := 10, data := .str (some [121, 111]) } 0,
        .stop_led_pattern] ∧
    (example_run (example_cfg .MQTT 3)
        [.submit (submit_at 4 10), .caller_store 60 none,
          .consume (consume_with 0 20)]).trace =
      [.await_cloud_ready,
        .nrf_cloud_send (.heap 0)
          { app_id := some [84, 69, 77, 80], ts := 10, data := .str none } 0,
        .stop_led_pattern] ∧
    (example_run (example_cfg .MQTT 3)
        [.submit (submit_at 2 10), .consume (consume_with 0 20)]).trace =
      [.await_cloud_ready,
        .nrf_cloud_send (.heap 0)
          { app_id := some [67, 79, 85, 78, 84], ts := 10, data := .num (.ofInt 5) } 0,
        .stop_led_pattern] ∧
    (example_run (example_cfg .MQTT 3)
        [.submit (submit_at 2 10), .caller_store 102 (some (.bytes [88])),
          .consume (consume_with 0 20)]).trace =
      [.await_cloud_ready,
        .nrf_cloud_send (.heap 0)
          { app_id := some [88], ts := 10, data := .num (.ofInt 5) } 0,
        .stop_led_pattern] := by
  decide

/-- C3, amended: when `send_device_message` returns 0 the queue holds, behind a new
handle, a copy of the caller's record stamped with the clock reading, whose block
payload is a new heap buffer (`queued_copy`) that holds the `data.len` bytes read from
the caller's buffer, while `app_id` and `str_val` are the caller's pointers. In every
state that satisfies the invariant, a caller store at an address (mutation, or `none`
for giving the storage up) commutes with the consumer call, unless the message at the
head of the queue refers to that address by its resolved `app_id` or its `str_val`:
result, trace, queue and heap of the call are the same whether the store happens
before or after it. -/
theorem C3_copy_isolated_except_strings (cfg : Config) (e : EnqueueEnv) (s s1 : State)
    (a : Nat) (m : SensorData) (t : Int) (hok : s.HeapOK) (hmsg : s.ext a = some (.msg m))
    (hnow : e.now = some t) (hsub : send_device_message cfg e s (.ext a) = some (0, s1)) :
    s1.queue = s.queue ++ [.heap s.next] ∧
    s1.read_msg (.heap s.next) = some (queued_copy m t s.next) ∧
    (∀ ptr len, m.payload = .data ptr len →
      ∃ b, s.read_bytes ptr = some b ∧ len ≤ b.length ∧
        s1.read_bytes (.heap (s.next + 1)) = some (b.take len)) ∧
    ∀ (s2 : State) (k : Nat) (rest : List Ptr) (m2 : SensorData) (b : Nat) (v : Option Obj)
      (o : ConsumeEnv), s2.Inv → s2.queue = .heap k :: rest → s2.read_msg (.heap k) = some m2 →
      o.producers = [] → resolve_app_id cfg m2 ≠ .ext b → m2.payload ≠ .str_val (.ext b) →
      consume_device_message cfg o (s2.caller_store b v) =
        (consume_device_message cfg o s2).map (fun r => (r.1, r.2.caller_store b v)) := by
  have hsub1 : send_device_message cfg e s (caller_ptr (some a)) = some (0, s1) := hsub
  obtain ⟨-, hc⟩ := submit_grows cfg e s (some a) (0, s1) hok hsub1
  rcases hc with ⟨hne, -⟩ | ⟨-, -, hq, -, -, -, a1, m1, t1, ha1, hm1, ht1, hcopy⟩
  · exact absurd rfl hne
  · cases ha1
    rw [hmsg] at hm1
    cases hm1
    rw [hnow] at ht1
    cases ht1
    refine ⟨hq, hcopy,
      fun ptr len hpl => submit_copies_bytes cfg e s s1 a m ptr len hok hmsg hpl hsub, ?_⟩
    intro s2 k rest m2 b v o hinv hq2 hm2 hprod happ hstr
    obtain ⟨k1, m3, hk1, hm3, -, hpl⟩ := hinv.queued (.heap k) (by rw [hq2]; simp)
    cases hk1
    have h32 : m3 = m2 := by
      rw [read_msg_heap s2 k m3 hm3] at hm2
      exact Option.some.inj hm2
    subst h32
    refine consume_caller_store cfg o s2 b v k rest m3 hq2 hm3 hprod happ hstr ?_
    intro len hd
    obtain ⟨j, -, hj, -⟩ := hpl (.ext b) len hd
    cases hj

/-- C3 amended, at a concrete input: the GNSS block message of the example memory,
accepted at time 10 into the empty queue; the new buffer holds the four bytes of the
caller's record. -/
theorem C3_copy_isolated_except_strings_witness :
    (example_submit (example_cfg .MQTT 3) (submit_at 3 10) (State.init example_ext)).2.queue =
      [.heap 0] ∧
    (example_submit (example_cfg .MQTT 3) (submit_at 3 10) (State.init example_ext)).2.read_msg
        (.heap 0) =
      some { type := 0, payload := .data (.heap 1) 4, ts_ms := 10, app_id := .null } ∧
    (example_submit (example_cfg .MQTT 3) (submit_at 3 10) (State.init example_ext)).2.read_bytes
        (.heap 1) = some [1, 2, 3, 4] ∧
    ∀ (s2 : State) (k : Nat) (rest : List Ptr) (m2 : SensorData) (b : Nat) (v : Option Obj)
      (o : ConsumeEnv), s2.Inv → s2.queue = .heap k :: rest → s2.read_msg (.heap k) = some m2 →
      o.producers = [] → resolve_app_id (example_cfg .MQTT 3) m2 ≠ .ext b →
      m2.payload ≠ .str_val (.ext b) →
      consume_device_message (example_cfg .MQTT 3) o (s2.caller_store b v) =
        (consume_device_message (example_cfg .MQTT 3) o s2).map
          (fun r => (r.1, r.2.caller_store b v)) := by
  have h := C3_copy_isolated_except_strings (example_cfg .MQTT 3) (submit_at 3 10).env
    (State.init example_ext) _ 3
    { type := 0, payload := .data (.ext 50) 4, ts_ms := 0, app_id := .null } 10
    (init_inv example_ext).heap_ok (by decide) rfl
    ((some_getD (d := (0, State.init example_ext)) (by decide)).trans
      (congrArg some (Prod.ext (by decide) rfl)))
  obtain ⟨b, hb, -, hcopy⟩ := h.2.2.1 (.ext 50) 4 rfl
  have hb1 : (State.init example_ext).read_bytes (.ext 50) = some [1, 2, 3, 4] := by decide
  rw [hb1] at hb
  cases hb
  exact ⟨h.1, h.2.1, hcopy, h.2.2.2⟩

/-- C4: a consumer call whose send fails puts the message back at the tail of the
queue, behind every handle the queue held at that moment (those left after the dequeue
and those producers added meanwhile), when the clock is readable and a slot is free;
and whenever the message is in the queue on return, that is where it is. And the
scenario:
A, B, C accepted in that order into the empty queue; four consumer calls with no
producer running, the clock readable, every queued record one the send section sends;
the transport fails the first send and succeeds afterwards. Then the four calls send
for A, B, C, A in that order, the sends that succeed are those for B, C, A, and the
queue ends empty. -/
theorem C4_failed_message_retried_from_tail (cfg : Config) :
    (∀ (o : ConsumeEnv) (s s2 : State) (q : Ptr) (rest : List Ptr) (m : SensorData),
      s.Inv → s.queue = q :: rest → o.get_ret = 0 → s.read_msg q = some m →
      resolve_app_id cfg m ≠ .null →
      run_producers cfg o.producers ({ s with queue := rest }.emit .await_cloud_ready) =
        some s2 →
      ∃ r, consume_device_message cfg o s = some r ∧
        ((r.2.trace.drop s.trace.length).any Event.send_failed = true →
          (o.now ≠ none → s2.queue.length < cfg.MAX_OUTGOING_MESSAGES →
            r.2.queue = s2.queue ++ [q]) ∧
          (q ∈ r.2.queue → r.2.queue = s2.queue ++ [q]))) ∧
    (∀ (s0 s1 s2 s3 : State) (a b c : Nat) (ea eb ec : EnqueueEnv) (o1 o2 o3 o4 : ConsumeEnv),
      s0.Inv → s0.queue = [] →
      send_device_message cfg ea s0 (.ext a) = some (0, s1) →
      send_device_message cfg eb s1 (.ext b) = some (0, s2) →
      send_device_message cfg ec s2 (.ext c) = some (0, s3) →
      (∀ o ∈ [o1, o2, o3, o4], o.get_ret = 0 ∧ o.producers = [] ∧ o.now ≠ none) →
      (∀ o ∈ [o1, o2, o3, o4], ∀ q ∈ s3.queue, ∀ m, s3.read_msg q = some m →
        resolve_app_id cfg m ≠ .null ∧ makes_send cfg o m = true) →
      o1.send_ret ≠ 0 → o2.send_ret = 0 → o3.send_ret = 0 → o4.send_ret = 0 →
      s3.queue = [.heap s0.next, .heap s1.next, .heap s2.next] ∧
      ∃ res, consume_seq cfg [o1, o2, o3, o4] s3 = some res ∧
        res.1.map sent_handles =
          [[.heap s0.next], [.heap s1.next], [.heap s2.next], [.heap s0.next]] ∧
        res.1.map delivered_handles =
          [[], [.heap s1.next], [.heap s2.next], [.heap s0.next]] ∧
        res.2.queue = []) := by
  constructor
  · intro o s s2 q rest m hinv hq hget hm hres hprod
    obtain ⟨r, hr, -, -, hnot, -, hc⟩ :=
      consume_classify cfg o s s2 q rest m hinv hq hget hm hres hprod
    refine ⟨r, hr, fun hfail => ?_⟩
    have hawait : Event.await_cloud_ready.send_failed = false := rfl
    have hled := send_failed_of_none (led_event_send_result cfg)
    rcases hc with ⟨e, -, -, -, -, ht, -⟩ | ⟨-, -, -, ht, -⟩ | ⟨ev, -, -, hsr, hcase⟩
    · rw [ht, List.drop_left] at hfail
      simp [hawait] at hfail
    · rw [ht, List.drop_left] at hfail
      simp [hawait, hled] at hfail
    · rcases hcase with ⟨h0, -, ht, -⟩ | ⟨-, -, -, hsub⟩
      · rw [ht, List.drop_left] at hfail
        simp [hawait, hled, send_failed_eq hsr, h0] at hfail
      · rcases hsub with ⟨-, -, hqq, -⟩ | ⟨-, hwhy, hqq, -⟩
        · exact ⟨fun _ _ => hqq, fun _ => hqq⟩
        · refine ⟨fun hn hl => ?_, fun hmem => ?_⟩
          · rcases hwhy with h | h
            · exact absurd h hn
            · omega
          · rw [hqq] at hmem
            exact absurd hmem hnot
  · intro s0 s1 s2 s3 a b c ea eb ec o1 o2 o3 o4 hinv0 hempty hA hB hC ho hms hf1 hs2 hs3 hs4
    obtain ⟨hinv1, hq1, -, -, -⟩ := submit_accepted cfg ea s0 s1 a hinv0 hA
    obtain ⟨hinv2, hq2, -, -, -⟩ := submit_accepted cfg eb s1 s2 b hinv1 hB
    obtain ⟨hinv3, hq3, hlen3, -, -⟩ := submit_accepted cfg ec s2 s3 c hinv2 hC
    rw [hempty] at hq1
    simp only [List.nil_append] at hq1
    rw [hq1] at hq2
    rw [hq2] at hq3 hlen3
    simp only [List.cons_append, List.nil_append] at hq2 hq3
    simp at hlen3
    refine ⟨hq3, ?_⟩
    -- first call: the send for A fails
    obtain ⟨hg1, hp1, hn1⟩ := ho o1 (by simp)
    obtain ⟨kA, mA, hkA, hmA, -, -⟩ := hinv3.queued (.heap s0.next) (by rw [hq3]; simp)
    cases hkA
    have hrA := read_msg_heap s3 _ mA hmA
    obtain ⟨hresA, hmsA⟩ := hms o1 (by simp) (.heap s0.next) (by rw [hq3]; simp) mA hrA
    obtain ⟨r1, ev1, hr1, hinvr1, hsh1, hsr1, hrd1, -, hc1⟩ :=
      consume_sent cfg o1 s3 (.heap s0.next) [.heap s1.next, .heap s2.next] mA hinv3 hq3 hg1 hp1
        hrA hresA hmsA
    rcases hc1 with ⟨hz, -⟩ | ⟨-, ht1, -, hsub⟩
    · exact absurd hz hf1
    · rcases hsub with ⟨-, -, hqq1, t, hnow, hmt⟩ | ⟨-, hwhy, -⟩
      · -- the remaining calls: B, C and A again, all sent successfully
        obtain ⟨res, hres, hsent, hdel, hqe, -⟩ := consume_seq_all_ok cfg
          [.heap s1.next, .heap s2.next, .heap s0.next] [o2, o3, o4] r1.2 hinvr1
          (by simpa using hqq1) rfl
          (by
            intro o hmem
            simp at hmem
            have := ho o (by simp; tauto)
            rcases hmem with rfl | rfl | rfl
            · exact ⟨this.1, this.2.1, hs2⟩
            · exact ⟨this.1, this.2.1, hs3⟩
            · exact ⟨this.1, this.2.1, hs4⟩)
          (by
            intro o hmem q hq m hm
            have ho' : o ∈ [o1, o2, o3, o4] := by simp at hmem ⊢; tauto
            simp at hq
            rcases hq with rfl | rfl | rfl
            · rw [hrd1 _ (by simp)] at hm
              exact hms o ho' _ (by rw [hq3]; simp) m hm
            · rw [hrd1 _ (by simp)] at hm
              exact hms o ho' _ (by rw [hq3]; simp) m hm
            · rw [hmt] at hm
              cases hm
              have := hms o ho' _ (by rw [hq3]; simp) mA hrA
              exact ⟨this.1, by rw [makes_send_ts]; exact this.2⟩)
        obtain ⟨hh1, hh2⟩ := handles_of_failure cfg ev1 (.heap s0.next) o1.send_ret
          (wrap_int (s3.send_failure_count + 1)) hsh1 hsr1 hf1
        have hdrop : r1.2.trace.drop s3.trace.length =
            [.await_cloud_ready, ev1] ++ breaker_events cfg (wrap_int (s3.send_failure_count + 1)) := by
          rw [ht1, List.append_assoc, List.drop_left]
        refine ⟨(r1.2.trace.drop s3.trace.length :: res.1, res.2),
          consume_seq_cons cfg o1 _ s3 r1 res hr1 hres, ?_, ?_, hqe⟩
        · simp only [List.map_cons, hdrop, hh1, hsent, List.map_nil]
        · simp only [List.map_cons, hdrop, hh2, hdel, List.map_nil]
      · rcases hwhy with hnone | hfull
        · exact absurd hnone hn1
        · simp at hfull
          omega

/-- C4 at a concrete run: the temperature, counter and GNSS messages of the example
memory, 3 slots, the first send failing. -/
theorem C4_failed_message_retried_from_tail_witness :
    (example_state (example_cfg .MQTT 3) [1, 2, 3]).queue = [.heap 0, .heap 1, .heap 2] ∧
    ∃ res, consume_seq (example_cfg .MQTT 3)
        [consume_with (-5) 20, consume_with 0 21, consume_with 0 22, consume_with 0 23]
        (example_state (example_cfg .MQTT 3) [1, 2, 3]) = some res ∧
      res.1.map sent_handles = [[.heap 0], [.heap 1], [.heap 2], [.heap 0]] ∧
      res.1.map delivered_handles = [[], [.heap 1], [.heap 2], [.heap 0]] ∧
      res.2.queue = [] :=
  (C4_failed_message_retried_from_tail (example_cfg .MQTT 3)).2
    (State.init example_ext)
    (example_submit (example_cfg .MQTT 3) (submit_at 1 10) (State.init example_ext)).2
    (example_submit (example_cfg .MQTT 3) (submit_at 2 11)
      (example_submit (example_cfg .MQTT 3) (submit_at 1 10) (State.init example_ext)).2).2
    (example_state (example_cfg .MQTT 3) [1, 2, 3])
    1 2 3 (submit_at 1 10).env (submit_at 2 11).env (submit_at 3 12).env
    (consume_with (-5) 20) (consume_with 0 21) (consume_with 0 22) (consume_with 0 23)
    (init_inv example_ext) rfl
    ((some_getD (d := (0, State.init example_ext)) (by decide)).trans
      (congrArg some (Prod.ext (by decide) rfl)))
    ((some_getD (d := (0, (example_submit (example_cfg .MQTT 3) (submit_at 1 10)
      (State.init example_ext)).2)) (by decide)).trans
      (congrArg some (Prod.ext (by decide) rfl)))
    ((some_getD (d := (0, (example_submit (example_cfg .MQTT 3) (submit_at 2 11)
      (example_submit (example_cfg .MQTT 3) (submit_at 1 10)
        (State.init example_ext)).2).2)) (by decide)).trans
      (congrArg some (Prod.ext (by decide) rfl)))
    (by decide)
    (sendable_queue_spec _ _ _ (by decide))
    (by decide) rfl rfl rfl

/-- C6: under any threshold and from any counter value, a consumer call whose
transport send fails increments the counter (a C `int`) and makes `disconnect_cloud`
followed by the cooldown `k_sleep`, once, when the counter after its increment exceeds
the threshold, and makes neither call otherwise. In consecutive such calls during which
the counter stays within the range of `int`, call number `i` (counted from 0) does so
according to the start value plus `i + 1`. With threshold 3 and the counter at 0 the
first three calls make neither and the 4th and every later one makes both, once. -/
theorem C6_breaker_trips_above_threshold (cfg : Config) (os : List ConsumeEnv) (s : State)
    (res : List (List Event) × State) (h : consume_seq cfg os s = some res)
    (hf : ∀ evs ∈ res.1, evs.any Event.send_failed = true)
    (hlo : -2147483648 ≤ s.send_failure_count)
    (hhi : s.send_failure_count + os.length ≤ 2147483647) :
    (∀ (o : ConsumeEnv) (s0 : State) (r : Int × State),
      consume_device_message cfg o s0 = some r →
      (r.2.trace.drop s0.trace.length).any Event.send_failed = true →
      r.2.send_failure_count = wrap_int (s0.send_failure_count + 1) ∧
      (r.2.trace.drop s0.trace.length).filter Event.is_breaker =
        if r.2.send_failure_count > cfg.MAX_CONSECUTIVE_SEND_FAILURES then
          [.disconnect_cloud, .k_sleep cfg.CONSECUTIVE_SEND_FAILURE_COOLDOWN_SECONDS]
        else []) ∧
    (∀ (i : Nat) (evs : List Event), res.1[i]? = some evs →
      evs.filter Event.is_breaker =
        if s.send_failure_count + (i + 1) > cfg.MAX_CONSECUTIVE_SEND_FAILURES then
          [.disconnect_cloud, .k_sleep cfg.CONSECUTIVE_SEND_FAILURE_COOLDOWN_SECONDS]
        else []) ∧
    (cfg.MAX_CONSECUTIVE_SEND_FAILURES = 3 → s.send_failure_count = 0 →
      ∀ (i : Nat) (evs : List Event), res.1[i]? = some evs →
        evs.filter Event.is_breaker =
          if 3 ≤ i then
            [.disconnect_cloud, .k_sleep cfg.CONSECUTIVE_SEND_FAILURE_COOLDOWN_SECONDS]
          else []) := by
  have hlen := consume_seq_length cfg os s res h
  have key := (consume_seq_failures cfg os s res h hf hlo (by rw [hlen]; exact hhi)).2
  refine ⟨fun o s0 r hr hfail => ?_, fun i evs hi => by rw [key i evs hi]; rfl,
    fun hT h0 i evs hi => ?_⟩
  · obtain ⟨h1, h2⟩ := consume_send_failed cfg o s0 r hr hfail
    refine ⟨h1, ?_⟩
    rw [h2, h1]
    rfl
  · rw [key i evs hi, breaker_events, hT, h0]
    by_cases h3 : 3 ≤ i
    · rw [if_pos h3, if_pos (by omega)]
    · rw [if_neg h3, if_neg (by omega)]

/-- C6 at a concrete run: one queued message, threshold 3, five consumer calls whose
sends all fail; the 4th and the 5th make the two breaker calls. -/
theorem C6_breaker_trips_above_threshold_witness :
    consume_seq (example_cfg .MQTT 2) (List.replicate 5 (consume_with (-5) 20))
        (example_state (example_cfg .MQTT 2) [1]) =
      some (example_consume_seq (example_cfg .MQTT 2) (List.replicate 5 (consume_with (-5) 20))
        (example_state (example_cfg .MQTT 2) [1])) ∧
    (∀ evs ∈ (example_consume_seq (example_cfg .MQTT 2)
        (List.replicate 5 (consume_with (-5) 20))
        (example_state (example_cfg .MQTT 2) [1])).1, evs.any Event.send_failed = true) ∧
    (example_consume_seq (example_cfg .MQTT 2) (List.replicate 5 (consume_with (-5) 20))
        (example_state (example_cfg .MQTT 2) [1])).1.map (List.filter Event.is_breaker) =
      [[], [], [], [.disconnect_cloud, .k_sleep 10], [.disconnect_cloud, .k_sleep 10]] ∧
    (∀ (i : Nat) (evs : List Event),
      (example_consume_seq (example_cfg .MQTT 2) (List.replicate 5 (consume_with (-5) 20))
        (example_state (example_cfg .MQTT 2) [1])).1[i]? = some evs →
      evs.filter Event.is_breaker =
        if 3 ≤ i then [.disconnect_cloud, .k_sleep 10] else []) :=
  ⟨some_getD (by decide), by decide, by decide,
    (C6_breaker_trips_above_threshold _ _ _ _
      (some_getD (d := ([], example_state (example_cfg .MQTT 2) [1])) (by decide))
      (by decide) (by decide) (by decide)).2.2 rfl (by decide)⟩

/-- C7: with the counter at 0, after `N` consecutive consumer calls whose sends fail,
`N` below the threshold, and one call whose send succeeds, the counter is 0, and `N`
more consecutive calls whose sends fail make neither `disconnect_cloud` nor the
cooldown `k_sleep` (nor did the first `N`). -/
theorem C7_counter_reset_on_success (cfg : Config) (os1 os2 : List ConsumeEnv)
    (o : ConsumeEnv) (s : State) (res1 res2 : List (List Event) × State) (r : Int × State)
    (h0 : s.send_failure_count = 0)
    (h1 : consume_seq cfg os1 s = some res1)
    (hf1 : ∀ evs ∈ res1.1, evs.any Event.send_failed = true)
    (hN : (res1.1.length : Int) < cfg.MAX_CONSECUTIVE_SEND_FAILURES)
    (h2 : consume_device_message cfg o res1.2 = some r)
    (hs : (r.2.trace.drop res1.2.trace.length).any Event.send_succeeded = true)
    (h3 : consume_seq cfg os2 r.2 = some res2)
    (hf2 : ∀ evs ∈ res2.1, evs.any Event.send_failed = true)
    (hlen : res2.1.length = res1.1.length) :
    res1.2.send_failure_count = res1.1.length ∧ r.2.send_failure_count = 0 ∧
    (∀ evs ∈ res2.1, evs.filter Event.is_breaker = []) ∧
    (∀ evs ∈ res1.1, evs.filter Event.is_breaker = []) := by
  have hT := cfg.threshold_fits_int.2
  obtain ⟨hc1, hb1⟩ := consume_seq_failures cfg os1 s res1 h1 hf1 (by rw [h0]; decide)
    (by rw [h0]; omega)
  obtain ⟨hz, -⟩ := consume_send_succeeded cfg o res1.2 r h2 hs
  obtain ⟨-, hb2⟩ := consume_seq_failures cfg os2 r.2 res2 h3 hf2 (by rw [hz]; decide)
    (by rw [hz, hlen]; omega)
  refine ⟨by rw [hc1, h0]; simp, hz, ?_, ?_⟩
  · intro evs he
    obtain ⟨i, hi, hget⟩ := List.getElem_of_mem he
    rw [hb2 i evs (by rw [List.getElem?_eq_getElem hi, hget]), breaker_events, hz]
    rw [if_neg]
    have : ((i : Int) + 1) ≤ res1.1.length := by rw [← hlen]; exact_mod_cast hi
    omega
  · intro evs he
    obtain ⟨i, hi, hget⟩ := List.getElem_of_mem he
    rw [hb1 i evs (by rw [List.getElem?_eq_getElem hi, hget]), breaker_events, h0]
    rw [if_neg]
    have : ((i : Int) + 1) ≤ res1.1.length := by exact_mod_cast hi
    omega

/-- C7 at a concrete run with threshold 3 and two queued messages: two failing sends,
one successful send, two more failing sends. -/
theorem C7_counter_reset_on_success_witness :
    (example_consume (example_cfg .MQTT 3) (consume_with 0 30)
        (example_consume_seq (example_cfg .MQTT 3) (List.replicate 2 (consume_with (-5) 20))
          (example_state (example_cfg .MQTT 3) [1, 2])).2).2.send_failure_count = 0 ∧
    (example_consume_seq (example_cfg .MQTT 3) (List.replicate 2 (consume_with (-5) 40))
        (example_consume (example_cfg .MQTT 3) (consume_with 0 30)
          (example_consume_seq (example_cfg .MQTT 3) (List.replicate 2 (consume_with (-5) 20))
            (example_state (example_cfg .MQTT 3) [1, 2])).2).2).1.map
      (List.filter Event.is_breaker) = [[], []] ∧
    ∀ evs ∈ (example_consume_seq (example_cfg .MQTT 3)
        (List.replicate 2 (consume_with (-5) 40))
        (example_consume (example_cfg .MQTT 3) (consume_with 0 30)
          (example_consume_seq (example_cfg .MQTT 3) (List.replicate 2 (consume_with (-5) 20))
            (example_state (example_cfg .MQTT 3) [1, 2])).2).2).1,
      evs.filter Event.is_breaker = [] :=
  ⟨by decide, by decide,
    (C7_counter_reset_on_success (example_cfg .MQTT 3)
      (List.replicate 2 (consume_with (-5) 20)) (List.replicate 2 (consume_with (-5) 40))
      (consume_with 0 30) (example_state (example_cfg .MQTT 3) [1, 2]) _ _ _
      (by decide)
      (some_getD (d := ([], example_state (example_cfg .MQTT 3) [1, 2])) (by decide))
      (by decide) (by decide)
      (some_getD (d := (0, (example_consume_seq (example_cfg .MQTT 3)
        (List.replicate 2 (consume_with (-5) 20))
        (example_state (example_cfg .MQTT 3) [1, 2])).2)) (by decide))
      (by decide)
      (some_getD (d := ([], (example_consume (example_cfg .MQTT 3) (consume_with 0 30)
        (example_consume_seq (example_cfg .MQTT 3) (List.replicate 2 (consume_with (-5) 20))
          (example_state (example_cfg .MQTT 3) [1, 2])).2).2)) (by decide))
      (by decide) (by decide)).2.2.1⟩

/-- C8, evaluation at the failing input: under the CoAP binding, with the counter at
1 after a failed send, the consumer call that dequeues a GNSS block of the wrong
length makes no transport send at all and yet takes the success branch: it returns 0
and sets the counter to 0. -/
theorem C8_coap_resets_counter_without_send :
    (example_consume_seq (example_cfg .COAP 3) [consume_with (-5) 20]
        (example_state (example_cfg .COAP 3) [1, 6])).2.send_failure_count = 1 ∧
    (example_consume_seq (example_cfg .COAP 3) [consume_with (-5) 20]
        (example_state (example_cfg .COAP 3) [1, 6])).2.queue = [.heap 1, .heap 0] ∧
    consume_seq (example_cfg .COAP 3) [consume_with (-5) 21]
        (example_consume_seq (example_cfg .COAP 3) [consume_with (-5) 20]
          (example_state (example_cfg .COAP 3) [1, 6])).2 =
      some (example_consume_seq (example_cfg .COAP 3) [consume_with (-5) 21]
        (example_consume_seq (example_cfg .COAP 3) [consume_with (-5) 20]
          (example_state (example_cfg .COAP 3) [1, 6])).2) ∧
    (example_consume_seq (example_cfg .COAP 3) [consume_with (-5) 21]
        (example_consume_seq (example_cfg .COAP 3) [consume_with (-5) 20]
          (example_state (example_cfg .COAP 3) [1, 6])).2).1 =
      [[.await_cloud_ready, .stop_led_pattern]] ∧
    (example_consume_seq (example_cfg .COAP 3) [consume_with (-5) 21]
        (example_consume_seq (example_cfg .COAP 3) [consume_with (-5) 20]
          (example_state (example_cfg .COAP 3) [1, 6])).2).2.send_failure_count = 0 ∧
    (example_consume (example_cfg .COAP 3) (consume_with (-5) 21)
        (example_consume_seq (example_cfg .COAP 3) [consume_with (-5) 20]
          (example_state (example_cfg .COAP 3) [1, 6])).2).1 = 0 :=
  ⟨by decide, by decide, some_getD (by decide), by decide, by decide, by decide⟩

/-- C9, counterexample: under the MQTT binding the GNSS block message of the wrong
length is accepted by `send_device_message` (result 0) into a queue of 3 slots. The
consumer call that dequeues it fails to encode it: it returns `-ENOTSUP`, makes no
transport send at all, and releases the message (record block 0 and payload block 1
are given back, the queue is empty). The message is destroyed unsent in a call in
which no send failed and the queue was not full. -/
theorem C9_encode_failure_releases_unsent :
    (example_submit (example_cfg .MQTT 3) (submit_at 6 10) (State.init example_ext)).1 = 0 ∧
    (example_state (example_cfg .MQTT 3) [6]).queue = [.heap 0] ∧
    (example_state (example_cfg .MQTT 3) [6]).live = [1, 0] ∧
    consume_device_message (example_cfg .MQTT 3) (consume_with 0 20)
        (example_state (example_cfg .MQTT 3) [6]) =
      some (example_consume (example_cfg .MQTT 3) (consume_with 0 20)
        (example_state (example_cfg .MQTT 3) [6])) ∧
    (example_consume (example_cfg .MQTT 3) (consume_with 0 20)
        (example_state (example_cfg .MQTT 3) [6])).1 = -ENOTSUP ∧
    (example_consume (example_cfg .MQTT 3) (consume_with 0 20)
        (example_state (example_cfg .MQTT 3) [6])).2.trace = [.await_cloud_ready] ∧
    (example_consume (example_cfg .MQTT 3) (consume_with 0 20)
        (example_state (example_cfg .MQTT 3) [6])).2.queue = [] ∧
    (example_consume (example_cfg .MQTT 3) (consume_with 0 20)
        (example_state (example_cfg .MQTT 3) [6])).2.live = [] ∧
    (example_consume (example_cfg .MQTT 3) (consume_with 0 20)
        (example_state (example_cfg .MQTT 3) [6])).2.heap 0 = none ∧
    (example_consume (example_cfg .MQTT 3) (consume_with 0 20)
        (example_state (example_cfg .MQTT 3) [6])).2.heap 1 = none :=
  ⟨by decide, by decide, by decide, some_getD (by decide), by decide, by decide, by decide,
    by decide, by decide, by decide⟩

/-- C9, amended: a consumer call that dequeues a message with a resolved `app_id`
(and, under the CoAP binding, of a kind the switch sends) is defined and ends in one
of four ways. The message is released without having been transmitted (1) under the
MQTT binding when encoding fails, before any send, and (2) when the send fails and
the re-insertion is refused, because the clock read fails or because no slot is free.
Otherwise (3) the send fails and the message is back at the tail of the queue, still
a queued copy, or (4) the send succeeds and the message is released. `s2` is the
state after the producers that ran while the consumer waited. -/
theorem C9_release_without_transmission (cfg : Config) (o : ConsumeEnv) (s s2 : State)
    (q : Ptr) (rest : List Ptr) (m : SensorData) (hinv : s.Inv) (hq : s.queue = q :: rest)
    (hget : o.get_ret = 0) (hm : s.read_msg q = some m)
    (hres : resolve_app_id cfg m ≠ .null)
    (hprod : run_producers cfg o.producers ({ s with queue := rest }.emit .await_cloud_ready) =
      some s2)
    (hcoap : cfg.binding = .COAP → makes_send cfg o m = true) :
    ∃ r, consume_device_message cfg o s = some r ∧
      ((cfg.binding = .MQTT ∧
          send_section cfg o s2 q (resolve_app_id cfg m) m 0 = .error r.1 ∧ r.1 ≠ 0 ∧
          sent_handles (r.2.trace.drop s.trace.length) = [] ∧
          q ∉ r.2.queue ∧ Released s r.2 q) ∨
       (sent_handles (r.2.trace.drop s.trace.length) = [q] ∧
          delivered_handles (r.2.trace.drop s.trace.length) = [] ∧ o.send_ret ≠ 0 ∧
          (o.now = none ∨ cfg.MAX_OUTGOING_MESSAGES ≤ s2.queue.length) ∧ r.1 ≠ 0 ∧
          q ∉ r.2.queue ∧ Released s r.2 q) ∨
       (sent_handles (r.2.trace.drop s.trace.length) = [q] ∧
          delivered_handles (r.2.trace.drop s.trace.length) = [] ∧ o.send_ret ≠ 0 ∧
          o.now ≠ none ∧ s2.queue.length < cfg.MAX_OUTGOING_MESSAGES ∧
          r.2.queue = s2.queue ++ [q] ∧ r.2.Queued q) ∨
       (sent_handles (r.2.trace.drop s.trace.length) = [q] ∧
          delivered_handles (r.2.trace.drop s.trace.length) = [q] ∧ o.send_ret = 0 ∧
          r.1 = 0 ∧ q ∉ r.2.queue ∧ Released s r.2 q)) := by
  obtain ⟨r, hr, hinv1, -, hnot, -, hc⟩ :=
    consume_classify cfg o s s2 q rest m hinv hq hget hm hres hprod
  refine ⟨r, hr, ?_⟩
  rcases hc with ⟨e, he, hre, hne, hb, ht, -, hqq, hrel⟩ | ⟨hn, hb, -⟩ |
    ⟨ev, hev, hsh, hsr, hcase⟩
  · left
    refine ⟨hb, by rw [hre]; exact he, by rw [hre]; exact hne, ?_, by rw [hqq]; exact hnot,
      hrel⟩
    rw [ht, List.drop_left]
    rfl
  · obtain ⟨ev0, hev0, -, -⟩ := makes_send_ok cfg o m (hcoap hb) s2 q
    rw [hev0] at hn
    exact absurd (congrArg Prod.snd (Except.ok.inj hn)) (emit_ne _ _)
  · right
    rcases hcase with ⟨h0, hr0, ht, -, hqq, hrel⟩ | ⟨hne, ht, -, hsub⟩
    · right; right
      rw [h0] at hsr
      obtain ⟨hh1, hh2⟩ := handles_of_success cfg ev q hsh hsr
      refine ⟨?_, ?_, h0, hr0, by rw [hqq]; exact hnot, hrel⟩
      · rw [ht, List.drop_left]; exact hh1
      · rw [ht, List.drop_left]; exact hh2
    · obtain ⟨hh1, hh2⟩ := handles_of_failure cfg ev q o.send_ret (wrap_int (s.send_failure_count + 1))
        hsh hsr hne
      have hd : r.2.trace.drop s.trace.length =
          [.await_cloud_ready, ev] ++ breaker_events cfg (wrap_int (s.send_failure_count + 1)) := by
        rw [ht, List.append_assoc, List.drop_left]
      rcases hsub with ⟨-, hlen, hqq, -, t, hnow, -⟩ | ⟨hrn, hwhy, hqq, hrel⟩
      · right; left
        refine ⟨by rw [hd]; exact hh1, by rw [hd]; exact hh2, hne, by rw [hnow]; simp, hlen,
          hqq, ?_⟩
        exact hinv1.queued q (by rw [hqq]; simp)
      · left
        exact ⟨by rw [hd]; exact hh1, by rw [hd]; exact hh2, hne, hwhy, hrn,
          by rw [hqq]; exact hnot, hrel⟩

/-- C9 amended, at a concrete input: the temperature message alone in a queue of 3
slots, its send failing while the clock is readable. -/
theorem C9_release_without_transmission_witness :
    ∃ r, consume_device_message (example_cfg .MQTT 3) (consume_with (-5) 20)
        (example_state (example_cfg .MQTT 3) [1]) = some r ∧
      (((example_cfg .MQTT 3).binding = .MQTT ∧
          send_section (example_cfg .MQTT 3) (consume_with (-5) 20)
              ({ example_state (example_cfg .MQTT 3) [1] with queue := [] }.emit
                .await_cloud_ready)
              (.heap 0)
              (resolve_app_id (example_cfg .MQTT 3)
                { type := 1, payload := .double_val 7, ts_ms := 10, app_id := .null })
              { type := 1, payload := .double_val 7, ts_ms := 10, app_id := .null } 0 =
            .error r.1 ∧ r.1 ≠ 0 ∧
          sent_handles (r.2.trace.drop (example_state (example_cfg .MQTT 3) [1]).trace.length) =
            [] ∧
          .heap 0 ∉ r.2.queue ∧ Released (example_state (example_cfg .MQTT 3) [1]) r.2 (.heap 0)) ∨
       (sent_handles (r.2.trace.drop (example_state (example_cfg .MQTT 3) [1]).trace.length) =
            [.heap 0] ∧
          delivered_handles
              (r.2.trace.drop (example_state (example_cfg .MQTT 3) [1]).trace.length) = [] ∧
          (consume_with (-5) 20).send_ret ≠ 0 ∧
          ((consume_with (-5) 20).now = none ∨
            (example_cfg .MQTT 3).MAX_OUTGOING_MESSAGES ≤
              ({ example_state (example_cfg .MQTT 3) [1] with queue := [] }.emit
                .await_cloud_ready).queue.length) ∧
          r.1 ≠ 0 ∧ .heap 0 ∉ r.2.queue ∧
          Released (example_state (example_cfg .MQTT 3) [1]) r.2 (.heap 0)) ∨
       (sent_handles (r.2.trace.drop (example_state (example_cfg .MQTT 3) [1]).trace.length) =
            [.heap 0] ∧
          delivered_handles
              (r.2.trace.drop (example_state (example_cfg .MQTT 3) [1]).trace.length) = [] ∧
          (consume_with (-5) 20).send_ret ≠ 0 ∧ (consume_with (-5) 20).now ≠ none ∧
          ({ example_state (example_cfg .MQTT 3) [1] with queue := [] }.emit
              .await_cloud_ready).queue.length < (example_cfg .MQTT 3).MAX_OUTGOING_MESSAGES ∧
          r.2.queue =
            ({ example_state (example_cfg .MQTT 3) [1] with queue := [] }.emit
              .await_cloud_ready).queue ++ [.heap 0] ∧
          r.2.Queued (.heap 0)) ∨
       (sent_handles (r.2.trace.drop (example_state (example_cfg .MQTT 3) [1]).trace.length) =
            [.heap 0] ∧
          delivered_handles
              (r.2.trace.drop (example_state (example_cfg .MQTT 3) [1]).trace.length) =
            [.heap 0] ∧
          (consume_with (-5) 20).send_ret = 0 ∧ r.1 = 0 ∧ .heap 0 ∉ r.2.queue ∧
          Released (example_state (example_cfg .MQTT 3) [1]) r.2 (.heap 0))) :=
  C9_release_without_transmission (example_cfg .MQTT 3) (consume_with (-5) 20)
    (example_state (example_cfg .MQTT 3) [1]) _ (.heap 0) []
    { type := 1, payload := .double_val 7, ts_ms := 10, app_id := .null }
    (run_inv (example_cfg .MQTT 3) [.submit (submit_at 1 10)] (State.init example_ext) _
      (init_inv example_ext) (some_getD (d := State.init example_ext) (by decide)))
    (by decide) rfl (by decide) (by decide) rfl (fun h => absurd h (by decide))

/-- C10, evaluation at the failing input: an int message whose `app_id` is `NULL` and
whose sensor type has no application id is accepted (result 0, record block 0 live).
The consumer call that dequeues it returns `-EINVAL` before `await_cloud_ready`: the
handle is gone from the queue, but block 0 is still live and still holds the record.
Under either binding the live blocks and the queue differ from then on. -/
theorem C10_unresolved_app_id_leaks_message :
    (example_submit (example_cfg .MQTT 3) (submit_at 5 10) (State.init example_ext)).1 = 0 ∧
    (example_state (example_cfg .MQTT 3) [5]).queue = [.heap 0] ∧
    (example_state (example_cfg .MQTT 3) [5]).live = [0] ∧
    consume_device_message (example_cfg .MQTT 3) (consume_with 0 20)
        (example_state (example_cfg .MQTT 3) [5]) =
      some (example_consume (example_cfg .MQTT 3) (consume_with 0 20)
        (example_state (example_cfg .MQTT 3) [5])) ∧
    (example_consume (example_cfg .MQTT 3) (consume_with 0 20)
        (example_state (example_cfg .MQTT 3) [5])).1 = -EINVAL ∧
    (example_consume (example_cfg .MQTT 3) (consume_with 0 20)
        (example_state (example_cfg .MQTT 3) [5])).2.queue = [] ∧
    (example_consume (example_cfg .MQTT 3) (consume_with 0 20)
        (example_state (example_cfg .MQTT 3) [5])).2.live = [0] ∧
    (example_consume (example_cfg .MQTT 3) (consume_with 0 20)
        (example_state (example_cfg .MQTT 3) [5])).2.heap 0 =
      some (.msg { type := 9, payload := .int_val 1, ts_ms := 10, app_id := .null }) ∧
    (example_consume (example_cfg .MQTT 3) (consume_with 0 20)
        (example_state (example_cfg .MQTT 3) [5])).2.trace = [] ∧
    (example_consume (example_cfg .COAP 3) (consume_with 0 20)
        (example_state (example_cfg .COAP 3) [5])).1 = -EINVAL ∧
    (example_consume (example_cfg .COAP 3) (consume_with 0 20)
        (example_state (example_cfg .COAP 3) [5])).2.queue = [] ∧
    (example_consume (example_cfg .COAP 3) (consume_with 0 20)
        (example_state (example_cfg .COAP 3) [5])).2.live = [0] :=
  ⟨by decide, by decide, by decide, some_getD (by decide), by decide, by decide, by decide,
    by decide, by decide, by decide, by decide, by decide⟩

/-- C11, evaluation at the failing input: the GNSS block message of length 3 (the
record size is 4) alone in the queue, the counter at 2. Under the CoAP binding the
consumer call makes no transport send, returns 0 instead of `-ENOTSUP`, makes the LED
call of the success branch and sets the counter to 0; record and payload buffer are
released. Under the MQTT binding the same call returns `-ENOTSUP`, makes no send and no
LED call, leaves the counter at 2 and releases record and payload buffer. -/
theorem C11_coap_wrong_length_block_taken_as_sent :
    (example_counted (example_cfg .COAP 3) [6] 2).queue = [.heap 0] ∧
    (example_counted (example_cfg .COAP 3) [6] 2).live = [1, 0] ∧
    (example_counted (example_cfg .COAP 3) [6] 2).read_msg (.heap 0) =
      some { type := 0, payload := .data (.heap 1) 3, ts_ms := 10, app_id := .null } ∧
    consume_device_message (example_cfg .COAP 3) (consume_with (-5) 20)
        (example_counted (example_cfg .COAP 3) [6] 2) =
      some (example_consume (example_cfg .COAP 3) (consume_with (-5) 20)
        (example_counted (example_cfg .COAP 3) [6] 2)) ∧
    (example_consume (example_cfg .COAP 3) (consume_with (-5) 20)
        (example_counted (example_cfg .COAP 3) [6] 2)).1 = 0 ∧
    (example_consume (example_cfg .COAP 3) (consume_with (-5) 20)
        (example_counted (example_cfg .COAP 3) [6] 2)).2.trace =
      [.await_cloud_ready, .stop_led_pattern] ∧
    (example_consume (example_cfg .COAP 3) (consume_with (-5) 20)
        (example_counted (example_cfg .COAP 3) [6] 2)).2.send_failure_count = 0 ∧
    (example_consume (example_cfg .COAP 3) (consume_with (-5) 20)
        (example_counted (example_cfg .COAP 3) [6] 2)).2.queue = [] ∧
    (example_consume (example_cfg .COAP 3) (consume_with (-5) 20)
        (example_counted (example_cfg .COAP 3) [6] 2)).2.live = [] ∧
    consume_device_message (example_cfg .MQTT 3) (consume_with (-5) 20)
        (example_counted (example_cfg .MQTT 3) [6] 2) =
      some (example_consume (example_cfg .MQTT 3) (consume_with (-5) 20)
        (example_counted (example_cfg .MQTT 3) [6] 2)) ∧
    (example_consume (example_cfg .MQTT 3) (consume_with (-5) 20)
        (example_counted (example_cfg .MQTT 3) [6] 2)).1 = -ENOTSUP ∧
    (example_consume (example_cfg .MQTT 3) (consume_with (-5) 20)
        (example_counted (example_cfg .MQTT 3) [6] 2)).2.trace = [.await_cloud_ready] ∧
    (example_consume (example_cfg .MQTT 3) (consume_with (-5) 20)
        (example_counted (example_cfg .MQTT 3) [6] 2)).2.send_failure_count = 2 ∧
    (example_consume (example_cfg .MQTT 3) (consume_with (-5) 20)
        (example_counted (example_cfg .MQTT 3) [6] 2)).2.queue = [] ∧
    (example_consume (example_cfg .MQTT 3) (consume_with (-5) 20)
        (example_counted (example_cfg .MQTT 3) [6] 2)).2.live = [] :=
  ⟨by decide, by decide, by decide, some_getD (by decide), by decide, by decide, by decide,
    by decide, by decide, some_getD (by decide), by decide, by decide, by decide, by decide,
    by decide⟩

/-- C12, evaluation at the failing input: the string message of the example memory
(text "hi", sensor type 1 with application id "TEMP") accepted at time 10, alone in the
queue, the counter at 2. Under the CoAP binding the consumer call makes no transport
send at all, yet returns 0, makes the LED call of the success branch, sets the counter
to 0 and releases the message. Under the MQTT binding the same call passes the text,
the application id and the time stamp to `nrf_cloud_send`. -/
theorem C12_coap_string_released_unsent :
    (example_counted (example_cfg .COAP 3) [4] 2).queue = [.heap 0] ∧
    (example_counted (example_cfg .COAP 3) [4] 2).read_msg (.heap 0) =
      some { type := 1, payload := .str_val (.ext 60), ts_ms := 10, app_id := .null } ∧
    resolve_app_id (example_cfg .COAP 3)
        { type := 1, payload := .str_val (.ext 60), ts_ms := 10, app_id := .null } = .ext 101 ∧
    consume_device_message (example_cfg .COAP 3) (consume_with 0 20)
        (example_counted (example_cfg .COAP 3) [4] 2) =
      some (example_consume (example_cfg .COAP 3) (consume_with 0 20)
        (example_counted (example_cfg .COAP 3) [4] 2)) ∧
    (example_consume (example_cfg .COAP 3) (consume_with 0 20)
        (example_counted (example_cfg .COAP 3) [4] 2)).1 = 0 ∧
    (example_consume (example_cfg .COAP 3) (consume_with 0 20)
        (example_counted (example_cfg .COAP 3) [4] 2)).2.trace =
      [.await_cloud_ready, .stop_led_pattern] ∧
    sent_handles (example_consume (example_cfg .COAP 3) (consume_with 0 20)
        (example_counted (example_cfg .COAP 3) [4] 2)).2.trace = [] ∧
    (example_consume (example_cfg .COAP 3) (consume_with 0 20)
        (example_counted (example_cfg .COAP 3) [4] 2)).2.send_failure_count = 0 ∧
    (example_consume (example_cfg .COAP 3) (consume_with 0 20)
        (example_counted (example_cfg .COAP 3) [4] 2)).2.queue = [] ∧
    (example_consume (example_cfg .COAP 3) (consume_with 0 20)
        (example_counted (example_cfg .COAP 3) [4] 2)).2.live = [] ∧
    (example_consume (example_cfg .MQTT 3) (consume_with 0 20)
        (example_counted (example_cfg .MQTT 3) [4] 2)).2.trace =
      [.await_cloud_ready,
        .nrf_cloud_send (.heap 0)
          { app_id := some [84, 69, 77, 80], ts := 10, data := .str (some [104, 105]) } 0,
        .stop_led_pattern] :=
  ⟨by decide, by decide, by decide, some_getD (by decide), by decide, by decide, by decide,
    by decide, by decide, by decide, by decide⟩

/-- C13, counterexample: with one slot, taken, the counter message submitted at time
11 is refused for the full queue; with a free slot and the allocator failing it is
refused for want of memory. Both calls return the same value, `-ENOMEM`. -/
theorem C13_queue_full_and_alloc_failure_coincide :
    (example_state (example_cfg .MQTT 1) [1]).queue.length =
      (example_cfg .MQTT 1).MAX_OUTGOING_MESSAGES ∧
    (example_submit (example_cfg .MQTT 1) (submit_at 2 11)
        (example_state (example_cfg .MQTT 1) [1])).1 = -ENOMEM ∧
    (example_submit (example_cfg .MQTT 1) (submit_at 2 11)
        (example_state (example_cfg .MQTT 1) [1])).2.next = 2 ∧
    (example_state (example_cfg .MQTT 3) [1]).queue.length <
      (example_cfg .MQTT 3).MAX_OUTGOING_MESSAGES ∧
    (example_submit (example_cfg .MQTT 3)
        { msg := some 2, env := { now := some 11, alloc_msg := false, alloc_data := true } }
        (example_state (example_cfg .MQTT 3) [1])).1 = -ENOMEM ∧
    (example_submit (example_cfg .MQTT 3)
        { msg := some 2, env := { now := some 11, alloc_msg := false, alloc_data := true } }
        (example_state (example_cfg .MQTT 3) [1])).2.next = 1 ∧
    (example_submit (example_cfg .MQTT 1) (submit_at 2 11)
        (example_state (example_cfg .MQTT 1) [1])).1 =
      (example_submit (example_cfg .MQTT 3)
        { msg := some 2, env := { now := some 11, alloc_msg := false, alloc_data := true } }
        (example_state (example_cfg .MQTT 3) [1])).1 := by
  decide

/-- C13, amended: `send_device_message` has four results. For `NULL` it returns
`-EINVAL`. For a caller record (a block payload addressing `data.len` readable bytes)
it returns `-ETIME` when the clock read fails;
otherwise `-ENOMEM` when an allocation of the copy fails, and the same `-ENOMEM` when
the allocations succeed and the queue is full; otherwise 0. The values 0, `-EINVAL`,
`-ETIME` and `-ENOMEM` are pairwise distinct. -/
theorem C13_submit_results (cfg : Config) (e : EnqueueEnv) (s : State) (a : Nat)
    (m : SensorData) (hmsg : s.ext a = some (.msg m)) (hv : valid_payload s m) :
    send_device_message cfg e s .null = some (-EINVAL, s) ∧
    (∃ r, send_device_message cfg e s (.ext a) = some r ∧
      r.1 =
        if e.now = none then -ETIME
        else if e.alloc_msg = false ∨ (m.data_type = .BLOCK ∧ e.alloc_data = false) then -ENOMEM
        else if cfg.MAX_OUTGOING_MESSAGES ≤ s.queue.length then -ENOMEM
        else 0) ∧
    -EINVAL ≠ (0 : Int) ∧ -ETIME ≠ (0 : Int) ∧ -ENOMEM ≠ (0 : Int) ∧ -EINVAL ≠ -ETIME ∧
    -EINVAL ≠ -ENOMEM ∧ -ETIME ≠ -ENOMEM := by
  refine ⟨by simp [send_device_message, enqueue_device_message], ?_, by decide, by decide,
    by decide, by decide, by decide, by decide⟩
  cases hnow : e.now with
  | none => simp [send_device_message, enqueue_device_message, hnow]
  | some t =>
    cases ham : e.alloc_msg with
    | false =>
      simp [send_device_message, enqueue_device_message, hnow, hmsg,
        allocate_dev_msg_for_queue, k_malloc, ham, State.read_msg, State.read, State.write, upd]
    | true =>
      by_cases hfull : cfg.MAX_OUTGOING_MESSAGES ≤ s.queue.length
      · have hlt : ¬ s.queue.length < cfg.MAX_OUTGOING_MESSAGES := by omega
        cases hpl : m.payload with
        | data ptr len =>
          obtain ⟨c, b, hptr, hc, hl⟩ := hv ptr len hpl
          subst hptr
          have hca : c ≠ a := by
            intro h
            rw [h, hmsg] at hc
            cases hc
          cases had : e.alloc_data <;>
            simp [send_device_message, enqueue_device_message, hnow, hmsg,
              allocate_dev_msg_for_queue, k_malloc, ham, had, copy_block, hpl, enqueue_put,
              k_msgq_put, hlt, hfull, ENOMSG, free_queued_dev_msg_message, State.read_msg,
              State.read, State.write, k_free, upd, SensorData.data_type, memcpy_src,
              State.read_bytes, hca, hc, hl]
        | str_val p =>
          simp [send_device_message, enqueue_device_message, hnow, hmsg,
            allocate_dev_msg_for_queue, k_malloc, ham, copy_block, hpl, enqueue_put,
            k_msgq_put, hlt, hfull, ENOMSG, free_queued_dev_msg_message, State.read_msg,
            State.read, State.write, k_free, upd, SensorData.data_type]
        | double_val d =>
          simp [send_device_message, enqueue_device_message, hnow, hmsg,
            allocate_dev_msg_for_queue, k_malloc, ham, copy_block, hpl, enqueue_put,
            k_msgq_put, hlt, hfull, ENOMSG, free_queued_dev_msg_message, State.read_msg,
            State.read, State.write, k_free, upd, SensorData.data_type]
        | int_val i =>
          simp [send_device_message, enqueue_device_message, hnow, hmsg,
            allocate_dev_msg_for_queue, k_malloc, ham, copy_block, hpl, enqueue_put,
            k_msgq_put, hlt, hfull, ENOMSG, free_queued_dev_msg_message, State.read_msg,
            State.read, State.write, k_free, upd, SensorData.data_type]
      · have hlt : s.queue.length < cfg.MAX_OUTGOING_MESSAGES := by omega
        cases hpl : m.payload with
        | data ptr len =>
          obtain ⟨c, b, hptr, hc, hl⟩ := hv ptr len hpl
          subst hptr
          have hca : c ≠ a := by
            intro h
            rw [h, hmsg] at hc
            cases hc
          cases had : e.alloc_data <;>
            simp [send_device_message, enqueue_device_message, hnow, hmsg,
              allocate_dev_msg_for_queue, k_malloc, ham, had, copy_block, hpl, enqueue_put,
              k_msgq_put, hlt, hfull, ENOMSG, free_queued_dev_msg_message, State.read_msg,
              State.read, State.write, k_free, upd, SensorData.data_type, memcpy_src,
              State.read_bytes, hca, hc, hl]
        | str_val p =>
          simp [send_device_message, enqueue_device_message, hnow, hmsg,
            allocate_dev_msg_for_queue, k_malloc, ham, copy_block, hpl, enqueue_put,
            k_msgq_put, hlt, hfull, ENOMSG, free_queued_dev_msg_message, State.read_msg,
            State.read, State.write, k_free, upd, SensorData.data_type]
        | double_val d =>
          simp [send_device_message, enqueue_device_message, hnow, hmsg,
            allocate_dev_msg_for_queue, k_malloc, ham, copy_block, hpl, enqueue_put,
            k_msgq_put, hlt, hfull, ENOMSG, free_queued_dev_msg_message, State.read_msg,
            State.read, State.write, k_free, upd, SensorData.data_type]
        | int_val i =>
          simp [send_device_message, enqueue_device_message, hnow, hmsg,
            allocate_dev_msg_for_queue, k_malloc, ham, copy_block, hpl, enqueue_put,
            k_msgq_put, hlt, hfull, ENOMSG, free_queued_dev_msg_message, State.read_msg,
            State.read, State.write, k_free, upd, SensorData.data_type]

/-- C13 amended, at a concrete input: the counter message submitted at time 11 to the
full queue of one slot. -/
theorem C13_submit_results_witness :
    (example_state (example_cfg .MQTT 1) [1]).ext 2 =
      some (.msg { type := 0, payload := .int_val 5, ts_ms := 0, app_id := .ext 102 }) ∧
    ∃ r, send_device_message (example_cfg .MQTT 1) (submit_at 2 11).env
        (example_state (example_cfg .MQTT 1) [1]) (.ext 2) = some r ∧ r.1 = -ENOMEM := by
  refine ⟨by decide, ?_⟩
  obtain ⟨r, hr, hv⟩ := (C13_submit_results (example_cfg .MQTT 1) (submit_at 2 11).env
    (example_state (example_cfg .MQTT 1) [1]) 2
    { type := 0, payload := .int_val 5, ts_ms := 0, app_id := .ext 102 } (by decide)
    (fun _ _ h => by cases h)).2.1
  exact ⟨r, hr, hv.trans (by decide)⟩

/-- C14: when the clock read fails, `send_device_message` called for any non-null
message pointer returns `-ETIME` and changes nothing: the queue is as before and no
block has been allocated (the allocation mark and the live blocks are as before). -/
theorem C14_clock_failure_rejects_submit (cfg : Config) (e : EnqueueEnv) (s : State)
    (msg : Ptr) (hmsg : msg ≠ .null) (hnow : e.now = none) :
    ∃ s1, send_device_message cfg e s msg = some (-ETIME, s1) ∧ -ETIME ≠ 0 ∧
      s1.queue = s.queue ∧ s1.next = s.next ∧ s1.live = s.live ∧ s1.heap = s.heap ∧
      s1.ext = s.ext := by
  refine ⟨s, ?_, by decide, rfl, rfl, rfl, rfl, rfl⟩
  simp [send_device_message, enqueue_device_message, hmsg, hnow]

/-- C14 at a concrete input: the GNSS block message submitted to the queue holding
the temperature message, the clock read failing. -/
theorem C14_clock_failure_rejects_submit_witness :
    ∃ s1, send_device_message (example_cfg .MQTT 3)
        { now := none, alloc_msg := true, alloc_data := true }
        (example_state (example_cfg .MQTT 3) [1]) (.ext 3) = some (-ETIME, s1) ∧ -ETIME ≠ 0 ∧
      s1.queue = (example_state (example_cfg .MQTT 3) [1]).queue ∧
      s1.next = (example_state (example_cfg .MQTT 3) [1]).next ∧
      s1.live = (example_state (example_cfg .MQTT 3) [1]).live ∧
      s1.heap = (example_state (example_cfg .MQTT 3) [1]).heap ∧
      s1.ext = (example_state (example_cfg .MQTT 3) [1]).ext :=
  C14_clock_failure_rejects_submit (example_cfg .MQTT 3)
    { now := none, alloc_msg := true, alloc_data := true }
    (example_state (example_cfg .MQTT 3) [1]) (.ext 3) (by decide) rfl

/-- C15: for a dequeued message, the application id given to the encoder and to the
transport is the string at the message's own `app_id` whenever that pointer is set,
whatever the sensor type, and the call then does not depend on the lookup table at
all (it is the same call under any other table); when `app_id` is `NULL` it is the
string at `nrf_cloud_sensor_app_id_lookup(type)`. In both cases the call is defined
and is the rest of the function run with that pointer; no transport call is given
another string, and for a record fit for a send (`sendable`) whose transport call takes
an application id (every call under MQTT, the sensor call under CoAP) exactly one
transport call is made, with that string. `s2` is the state after the producers that
ran while the consumer waited. -/
theorem C15_own_app_id_before_lookup (cfg : Config) (o : ConsumeEnv) (s s2 : State) (q : Ptr)
    (rest : List Ptr) (m : SensorData) (hinv : s.Inv) (hq : s.queue = q :: rest)
    (hget : o.get_ret = 0) (hm : s.read_msg q = some m)
    (hprod : run_producers cfg o.producers ({ s with queue := rest }.emit .await_cloud_ready) =
      some s2) :
    (m.app_id ≠ .null →
      (∃ r, consume_device_message cfg o s = some r ∧
        (∀ ev ∈ r.2.trace.drop s.trace.length, ∀ x, ev.sent_app_id = some x →
          x = s2.read_bytes m.app_id) ∧
        (sendable cfg o m = true →
          (cfg.binding = .MQTT ∨ ∀ ptr len, m.payload ≠ .data ptr len) →
          sent_handles (r.2.trace.drop s.trace.length) = [q] ∧
          (r.2.trace.drop s.trace.length).filterMap Event.sent_app_id =
            [s2.read_bytes m.app_id])) ∧
      consume_device_message cfg o s =
        send_and_settle cfg o { s with queue := rest } q m.app_id 0 ∧
      ∀ f : Nat → Ptr,
        consume_device_message { cfg with nrf_cloud_sensor_app_id_lookup := f } o s =
          consume_device_message cfg o s) ∧
    (m.app_id = .null → cfg.nrf_cloud_sensor_app_id_lookup m.type ≠ .null →
      (∃ r, consume_device_message cfg o s = some r ∧
        (∀ ev ∈ r.2.trace.drop s.trace.length, ∀ x, ev.sent_app_id = some x →
          x = s2.read_bytes (cfg.nrf_cloud_sensor_app_id_lookup m.type)) ∧
        (sendable cfg o m = true →
          (cfg.binding = .MQTT ∨ ∀ ptr len, m.payload ≠ .data ptr len) →
          sent_handles (r.2.trace.drop s.trace.length) = [q] ∧
          (r.2.trace.drop s.trace.length).filterMap Event.sent_app_id =
            [s2.read_bytes (cfg.nrf_cloud_sensor_app_id_lookup m.type)])) ∧
      consume_device_message cfg o s =
        send_and_settle cfg o { s with queue := rest } q
          (cfg.nrf_cloud_sensor_app_id_lookup m.type) 0) := by
  constructor
  · intro happ
    have hr : ∀ c : Config, resolve_app_id c m = m.app_id := by
      intro c
      simp [resolve_app_id, happ]
    have hres : resolve_app_id cfg m ≠ .null := by rw [hr]; exact happ
    obtain ⟨r, hcr, hargs, hsend⟩ :=
      consume_sends_app_id cfg o s s2 q rest m hinv hq hget hm hres hprod
    rw [hr] at hargs hsend
    have h1 := consume_after_dequeue cfg o s q rest m hq hget hm hres
    rw [hr] at h1
    refine ⟨⟨r, hcr, hargs, hsend⟩, h1, fun f => ?_⟩
    have h2 := consume_after_dequeue { cfg with nrf_cloud_sensor_app_id_lookup := f } o s q rest
      m hq hget hm (by rw [hr]; exact happ)
    rw [hr, send_and_settle_lookup] at h2
    rw [h2, h1]
  · intro happ hlook
    have hr : resolve_app_id cfg m = cfg.nrf_cloud_sensor_app_id_lookup m.type := by
      simp [resolve_app_id, happ]
    have hres : resolve_app_id cfg m ≠ .null := by rw [hr]; exact hlook
    obtain ⟨r, hcr, hargs, hsend⟩ :=
      consume_sends_app_id cfg o s s2 q rest m hinv hq hget hm hres hprod
    rw [hr] at hargs hsend
    have h1 := consume_after_dequeue cfg o s q rest m hq hget hm hres
    rw [hr] at h1
    exact ⟨⟨r, hcr, hargs, hsend⟩, h1⟩

/-- C15 at a concrete input: the counter message, of sensor type 0, for which the
table gives "GNSS", with its own `app_id` "COUNT": one transport call is made, for
this message, and it is given "COUNT". -/
theorem C15_own_app_id_before_lookup_witness :
    (example_cfg .MQTT 3).nrf_cloud_sensor_app_id_lookup 0 = .ext 100 ∧
    (example_state (example_cfg .MQTT 3) [2]).read_bytes (.ext 100) = some [71, 78, 83, 83] ∧
    (example_consume (example_cfg .MQTT 3) (consume_with 0 20)
        (example_state (example_cfg .MQTT 3) [2])).2.trace =
      [.await_cloud_ready,
        .nrf_cloud_send (.heap 0)
          { app_id := some [67, 79, 85, 78, 84], ts := 10, data := .num (.ofInt 5) } 0,
        .stop_led_pattern] ∧
    ∃ r, consume_device_message (example_cfg .MQTT 3) (consume_with 0 20)
        (example_state (example_cfg .MQTT 3) [2]) = some r ∧
      sent_handles (r.2.trace.drop (example_state (example_cfg .MQTT 3) [2]).trace.length) =
        [.heap 0] ∧
      (r.2.trace.drop (example_state (example_cfg .MQTT 3) [2]).trace.length).filterMap
        Event.sent_app_id = [some [67, 79, 85, 78, 84]] := by
  refine ⟨rfl, by decide, by decide, ?_⟩
  obtain ⟨r, hr, -, h⟩ := ((C15_own_app_id_before_lookup (example_cfg .MQTT 3)
    (consume_with 0 20) (example_state (example_cfg .MQTT 3) [2]) _ (.heap 0) []
    { type := 0, payload := .int_val 5, ts_ms := 10, app_id := .ext 102 }
    (run_inv (example_cfg .MQTT 3) [.submit (submit_at 2 10)] (State.init example_ext) _
      (init_inv example_ext) (some_getD (d := State.init example_ext) (by decide)))
    (by decide) rfl (by decide) rfl).1 (by decide)).1
  obtain ⟨h1, h2⟩ := h (by decide) (Or.inl rfl)
  exact ⟨r, hr, h1, h2.trans (by decide)⟩

/-- C16, counterexample: a queue of one slot, taken by the temperature message. Before
the consumer call a producer is refused (`-ENOMEM`). During the consumer call, while
the consumer waits in `await_cloud_ready`, the same producer call is accepted: the
slot is free, the temperature message has left the queue before the wait. The call is
the rest of the function, from the wait on, run on the empty queue. When the send then
fails the temperature message cannot go back and is released. -/
theorem C16_slot_free_during_wait :
    (example_state (example_cfg .MQTT 1) [1]).queue = [.heap 0] ∧
    (example_cfg .MQTT 1).MAX_OUTGOING_MESSAGES = 1 ∧
    (example_submit (example_cfg .MQTT 1) (submit_at 2 15)
        (example_state (example_cfg .MQTT 1) [1])).1 = -ENOMEM ∧
    consume_device_message (example_cfg .MQTT 1)
        { consume_with (-5) 20 with producers := [submit_at 2 15] }
        (example_state (example_cfg .MQTT 1) [1]) =
      send_and_settle (example_cfg .MQTT 1)
        { consume_with (-5) 20 with producers := [submit_at 2 15] }
        { example_state (example_cfg .MQTT 1) [1] with queue := [] } (.heap 0) (.ext 101) 0 ∧
    ((run_producers (example_cfg .MQTT 1) [submit_at 2 15]
        ({ example_state (example_cfg .MQTT 1) [1] with queue := [] }.emit
          .await_cloud_ready)).map (fun s2 => s2.queue)) = some [.heap 1] ∧
    consume_device_message (example_cfg .MQTT 1)
        { consume_with (-5) 20 with producers := [submit_at 2 15] }
        (example_state (example_cfg .MQTT 1) [1]) =
      some (example_consume (example_cfg .MQTT 1)
        { consume_with (-5) 20 with producers := [submit_at 2 15] }
        (example_state (example_cfg .MQTT 1) [1])) ∧
    (example_consume (example_cfg .MQTT 1)
        { consume_with (-5) 20 with producers := [submit_at 2 15] }
        (example_state (example_cfg .MQTT 1) [1])).2.trace =
      [.await_cloud_ready,
        .nrf_cloud_send (.heap 0)
          { app_id := some [84, 69, 77, 80], ts := 10, data := .num (.bits 7) } (-5)] ∧
    (example_consume (example_cfg .MQTT 1)
        { consume_with (-5) 20 with producers := [submit_at 2 15] }
        (example_state (example_cfg .MQTT 1) [1])).2.queue = [.heap 1] ∧
    (example_consume (example_cfg .MQTT 1)
        { consume_with (-5) 20 with producers := [submit_at 2 15] }
        (example_state (example_cfg .MQTT 1) [1])).2.read_msg (.heap 1) =
      some { type := 0, payload := .int_val 5, ts_ms := 15, app_id := .ext 102 } ∧
    (example_consume (example_cfg .MQTT 1)
        { consume_with (-5) 20 with producers := [submit_at 2 15] }
        (example_state (example_cfg .MQTT 1) [1])).1 = -ENOMEM ∧
    (example_consume (example_cfg .MQTT 1)
        { consume_with (-5) 20 with producers := [submit_at 2 15] }
        (example_state (example_cfg .MQTT 1) [1])).2.live = [1] :=
  ⟨by decide, rfl, by decide,
    consume_after_dequeue (example_cfg .MQTT 1) _ _ (.heap 0) []
      { type := 1, payload := .double_val 7, ts_ms := 10, app_id := .null }
      (by decide) rfl (by decide) (by decide),
    by decide, some_getD (by decide), by decide, by decide, by decide, by decide, by decide⟩

/-- C16, amended: a consumer call that dequeues a message with a resolved `app_id`
removes the handle from the queue first and waits afterwards: the call is the rest of
the function, which starts with `await_cloud_ready`, run on the queue without the
handle, and the wait is the first call it makes. In the state `s2` reached while the
consumer waits (after the producers that ran meanwhile) the queue holds the handles
that were behind the dequeued one, followed by those of the producers, and not the
dequeued one; the dequeued message is still allocated, owned by the consumer together
with the queued ones. -/
theorem C16_wait_follows_dequeue (cfg : Config) (o : ConsumeEnv) (s s2 : State) (q : Ptr)
    (rest : List Ptr) (m : SensorData) (hinv : s.Inv) (hq : s.queue = q :: rest)
    (hget : o.get_ret = 0) (hm : s.read_msg q = some m) (hres : resolve_app_id cfg m ≠ .null)
    (hprod : run_producers cfg o.producers ({ s with queue := rest }.emit .await_cloud_ready) =
      some s2) :
    consume_device_message cfg o s =
      send_and_settle cfg o { s with queue := rest } q (resolve_app_id cfg m) 0 ∧
    (∃ r tail, consume_device_message cfg o s = some r ∧
      r.2.trace = s.trace ++ .await_cloud_ready :: tail) ∧
    (∃ new, s2.queue = rest ++ new) ∧ q ∉ s2.queue ∧ s2.Owns (q :: s2.queue) ∧
    s2.read_msg q = some m := by
  obtain ⟨m1, hm1, -, h2⟩ := consume_owned cfg o s q rest hinv hq hget
  rw [hm] at hm1
  cases hm1
  obtain ⟨-, ho2, hm2, -, hnew, -⟩ := h2 hres s2 hprod
  obtain ⟨r, hr, -, -, hnot, -, hc⟩ :=
    consume_classify cfg o s s2 q rest m hinv hq hget hm hres hprod
  refine ⟨consume_after_dequeue cfg o s q rest m hq hget hm hres, ?_, hnew, hnot, ho2, hm2⟩
  rcases hc with ⟨e, -, -, -, -, ht, -⟩ | ⟨-, -, -, ht, -⟩ | ⟨ev, -, -, -, hcase⟩
  · exact ⟨r, [], hr, ht⟩
  · exact ⟨r, [led_event cfg], hr, ht⟩
  · rcases hcase with ⟨-, -, ht, -⟩ | ⟨-, ht, -⟩
    · exact ⟨r, [ev, led_event cfg], hr, ht⟩
    · exact ⟨r, ev :: breaker_events cfg (wrap_int (s.send_failure_count + 1)), hr, by rw [ht]; simp⟩

/-- C16 amended, at a concrete input: the temperature and the counter message queued,
the temperature message dequeued while a producer submits the GNSS message during
the wait. -/
theorem C16_wait_follows_dequeue_witness :
    (example_state (example_cfg .MQTT 3) [1, 2]).queue = [.heap 0, .heap 1] ∧
    (∃ r tail, consume_device_message (example_cfg .MQTT 3)
        { consume_with 0 20 with producers := [submit_at 3 15] }
        (example_state (example_cfg .MQTT 3) [1, 2]) = some r ∧
      r.2.trace = (example_state (example_cfg .MQTT 3) [1, 2]).trace ++
        .await_cloud_ready :: tail) ∧
    (run_producers (example_cfg .MQTT 3) [submit_at 3 15]
        ({ example_state (example_cfg .MQTT 3) [1, 2] with queue := [.heap 1] }.emit
          .await_cloud_ready)).map (fun s2 => s2.queue) = some [.heap 1, .heap 2] := by
  have h := C16_wait_follows_dequeue (example_cfg .MQTT 3)
    { consume_with 0 20 with producers := [submit_at 3 15] }
    (example_state (example_cfg .MQTT 3) [1, 2])
    ((run_producers (example_cfg .MQTT 3) [submit_at 3 15]
      ({ example_state (example_cfg .MQTT 3) [1, 2] with queue := [.heap 1] }.emit
        .await_cloud_ready)).getD (State.init example_ext))
    (.heap 0) [.heap 1]
    { type := 1, payload := .double_val 7, ts_ms := 10, app_id := .null }
    (run_inv (example_cfg .MQTT 3) [.submit (submit_at 1 10), .submit (submit_at 2 11)]
      (State.init example_ext) _ (init_inv example_ext)
      (some_getD (d := State.init example_ext) (by decide)))
    (by decide) rfl (by decide) (by decide) (some_getD (by decide))
  exact ⟨by decide, h.2.1, by decide⟩

/-- C17, evaluation at the failing inputs. (1) The temperature message alone in a
queue of 3 slots, the transport send returning the error -5 while the clock is
readable: the message is not transmitted (no send of the call succeeded), it is put
back into the queue, and the call returns 0, the result of the re-insertion. (2) The
kernel reporting the dequeue error `-ENOMSG`: the call returns `ENOMSG`, a positive
value. -/
theorem C17_failed_send_returns_zero :
    (example_state (example_cfg .MQTT 3) [1]).queue = [.heap 0] ∧
    consume_device_message (example_cfg .MQTT 3) (consume_with (-5) 20)
        (example_state (example_cfg .MQTT 3) [1]) =
      some (example_consume (example_cfg .MQTT 3) (consume_with (-5) 20)
        (example_state (example_cfg .MQTT 3) [1])) ∧
    (example_consume (example_cfg .MQTT 3) (consume_with (-5) 20)
        (example_state (example_cfg .MQTT 3) [1])).2.trace =
      [.await_cloud_ready,
        .nrf_cloud_send (.heap 0)
          { app_id := some [84, 69, 77, 80], ts := 10, data := .num (.bits 7) } (-5)] ∧
    delivered_handles (example_consume (example_cfg .MQTT 3) (consume_with (-5) 20)
        (example_state (example_cfg .MQTT 3) [1])).2.trace = [] ∧
    (example_consume (example_cfg .MQTT 3) (consume_with (-5) 20)
        (example_state (example_cfg .MQTT 3) [1])).2.queue = [.heap 0] ∧
    (example_consume (example_cfg .MQTT 3) (consume_with (-5) 20)
        (example_state (example_cfg .MQTT 3) [1])).2.send_failure_count = 1 ∧
    (example_consume (example_cfg .MQTT 3) (consume_with (-5) 20)
        (example_state (example_cfg .MQTT 3) [1])).1 = 0 ∧
    consume_device_message (example_cfg .MQTT 3)
        { consume_with 0 20 with get_ret := -ENOMSG } (example_state (example_cfg .MQTT 3) [1]) =
      some (example_consume (example_cfg .MQTT 3) { consume_with 0 20 with get_ret := -ENOMSG }
        (example_state (example_cfg .MQTT 3) [1])) ∧
    (example_consume (example_cfg .MQTT 3) { consume_with 0 20 with get_ret := -ENOMSG }
        (example_state (example_cfg .MQTT 3) [1])).1 = ENOMSG ∧
    (0 : Int) < ENOMSG :=
  ⟨by decide, some_getD (by decide), by decide, by decide, by decide, by decide, by decide,
    some_getD (by decide), by decide, by decide⟩

/-- C18: a consumer call during which no producer runs and whose clock read succeeds,
on a queue `q :: rest` of at most `CONFIG_MAX_OUTGOING_MESSAGES` handles, with a send
made for `q` that fails: the call is defined, the re-insertion is accepted (result 0),
the queue is `rest ++ [q]` afterwards, of the same length as before, and the message
is not released: `q` still addresses a live queued copy and the live blocks are the
same. -/
theorem C18_own_slot_admits_retry (cfg : Config) (o : ConsumeEnv) (s : State) (q : Ptr)
    (rest : List Ptr) (m : SensorData) (t : Int) (hinv : s.Inv) (hq : s.queue = q :: rest)
    (hcap : s.queue.length ≤ cfg.MAX_OUTGOING_MESSAGES) (hget : o.get_ret = 0)
    (hprod : o.producers = []) (hnow : o.now = some t) (hm : s.read_msg q = some m)
    (hres : resolve_app_id cfg m ≠ .null) (hms : makes_send cfg o m = true)
    (hfail : o.send_ret ≠ 0) :
    ∃ r, consume_device_message cfg o s = some r ∧
      sent_handles (r.2.trace.drop s.trace.length) = [q] ∧
      delivered_handles (r.2.trace.drop s.trace.length) = [] ∧
      r.1 = 0 ∧ r.2.queue = rest ++ [q] ∧ r.2.queue.length = s.queue.length ∧
      r.2.Queued q ∧ r.2.live = s.live := by
  have hp : run_producers cfg o.producers ({ s with queue := rest }.emit .await_cloud_ready) =
      some ({ s with queue := rest }.emit .await_cloud_ready) := by
    rw [hprod]
    rfl
  obtain ⟨r, hr, hinv1, -, -, -, hc⟩ := consume_classify cfg o s _ q rest m hinv hq hget hm hres hp
  obtain ⟨ev0, hev0, -, -⟩ := makes_send_ok cfg o m hms
    ({ s with queue := rest }.emit .await_cloud_ready) q
  refine ⟨r, hr, ?_⟩
  rcases hc with ⟨e, he, -⟩ | ⟨hn, -⟩ | ⟨ev, hev, hsh, hsr, hcase⟩
  · rw [hev0] at he
    cases he
  · rw [hev0] at hn
    exact absurd (congrArg Prod.snd (Except.ok.inj hn)) (emit_ne _ _)
  · rcases hcase with ⟨h0, -⟩ | ⟨-, ht, -, hsub⟩
    · exact absurd h0 hfail
    · obtain ⟨hh1, hh2⟩ := handles_of_failure cfg ev q o.send_ret (wrap_int (s.send_failure_count + 1))
        hsh hsr hfail
      have hd : r.2.trace.drop s.trace.length =
          [.await_cloud_ready, ev] ++ breaker_events cfg (wrap_int (s.send_failure_count + 1)) := by
        rw [ht, List.append_assoc, List.drop_left]
      rcases hsub with ⟨hr0, -, hqq, hlive, -⟩ | ⟨-, hwhy, -⟩
      · have hqq1 : r.2.queue = rest ++ [q] := hqq
        refine ⟨by rw [hd]; exact hh1, by rw [hd]; exact hh2, hr0, hqq1, ?_, ?_, hlive⟩
        · rw [hqq1, hq]
          simp
        · exact hinv1.queued q (by rw [hqq1]; simp)
      · rcases hwhy with hnone | hfull
        · rw [hnow] at hnone
          cases hnone
        · have hfull1 : cfg.MAX_OUTGOING_MESSAGES ≤ rest.length := hfull
          rw [hq] at hcap
          simp at hcap
          omega

/-- C18 at a concrete input: a full queue of 2 slots holding the temperature and the
counter message; the send for the first fails and it is put back behind the second. -/
theorem C18_own_slot_admits_retry_witness :
    (example_state (example_cfg .MQTT 2) [1, 2]).queue = [.heap 0, .heap 1] ∧
    ∃ r, consume_device_message (example_cfg .MQTT 2) (consume_with (-5) 20)
        (example_state (example_cfg .MQTT 2) [1, 2]) = some r ∧
      sent_handles (r.2.trace.drop (example_state (example_cfg .MQTT 2) [1, 2]).trace.length) =
        [.heap 0] ∧
      delivered_handles
        (r.2.trace.drop (example_state (example_cfg .MQTT 2) [1, 2]).trace.length) = [] ∧
      r.1 = 0 ∧ r.2.queue = [.heap 1] ++ [.heap 0] ∧
      r.2.queue.length = (example_state (example_cfg .MQTT 2) [1, 2]).queue.length ∧
      r.2.Queued (.heap 0) ∧ r.2.live = (example_state (example_cfg .MQTT 2) [1, 2]).live :=
  ⟨by decide,
    C18_own_slot_admits_retry (example_cfg .MQTT 2) (consume_with (-5) 20)
      (example_state (example_cfg .MQTT 2) [1, 2]) (.heap 0) [.heap 1]
      { type := 1, payload := .double_val 7, ts_ms := 10, app_id := .null } 20
      (run_inv (example_cfg .MQTT 2) [.submit (submit_at 1 10), .submit (submit_at 2 11)]
        (State.init example_ext) _ (init_inv example_ext)
        (some_getD (d := State.init example_ext) (by decide)))
      (by decide) (by decide) rfl rfl rfl (by decide) (by decide) (by decide) (by decide)⟩

/-- C19: a consumer call whose send for the dequeued message fails, with the clock
reading `t` and a slot free for the re-insertion, is defined and puts the same object
back at the tail of the queue: the handle is the one dequeued, nothing has been
allocated (allocation mark and live blocks are those of `s2`, the state after the
producers that ran during the wait), the record behind it is the record dequeued with
`ts_ms` overwritten by `t` (type, payload member and `app_id` as before), and the
bytes of a block payload are as they were. Every later consumer call that dequeues the
handle with this record gives its transport send the time stamp `t`. -/
theorem C19_retry_restamps_same_object (cfg : Config) (o : ConsumeEnv) (s s2 : State)
    (q : Ptr) (rest : List Ptr) (m : SensorData) (t : Int) (hinv : s.Inv)
    (hq : s.queue = q :: rest) (hget : o.get_ret = 0) (hm : s.read_msg q = some m)
    (hres : resolve_app_id cfg m ≠ .null)
    (hprod : run_producers cfg o.producers ({ s with queue := rest }.emit .await_cloud_ready) =
      some s2)
    (hms : makes_send cfg o m = true) (hfail : o.send_ret ≠ 0) (hnow : o.now = some t)
    (hroom : s2.queue.length < cfg.MAX_OUTGOING_MESSAGES) :
    ∃ r, consume_device_message cfg o s = some r ∧
      sent_handles (r.2.trace.drop s.trace.length) = [q] ∧
      delivered_handles (r.2.trace.drop s.trace.length) = [] ∧
      r.2.queue = s2.queue ++ [q] ∧ r.2.next = s2.next ∧ r.2.live = s2.live ∧
      r.2.read_msg q = some { m with ts_ms := t } ∧
      (∀ ptr len, m.payload = .data ptr len → r.2.read_bytes ptr = s.read_bytes ptr) ∧
      ∀ (o1 : ConsumeEnv) (s3 s4 : State) (rest1 : List Ptr), s3.Inv → s3.queue = q :: rest1 →
        o1.get_ret = 0 → s3.read_msg q = r.2.read_msg q →
        run_producers cfg o1.producers ({ s3 with queue := rest1 }.emit .await_cloud_ready) =
          some s4 →
        ∃ r1, consume_device_message cfg o1 s3 = some r1 ∧
          ∀ ev ∈ r1.2.trace.drop s3.trace.length, ∀ ts, ev.sent_ts = some ts → ts = t := by
  obtain ⟨m1, hm1, -, h2⟩ := consume_owned cfg o s q rest hinv hq hget
  rw [hm] at hm1
  cases hm1
  obtain ⟨heq, ho2, hm2, -, -, ht2, -, hgrow⟩ := h2 hres s2 hprod
  obtain ⟨ev, hev, hsh, hsr⟩ := makes_send_ok cfg o m hms s2 q
  rw [hev] at heq
  simp only at heq
  have ho3 : (s2.emit ev).Owns (q :: (s2.emit ev).queue) := ho2.congr rfl rfl rfl
  obtain ⟨r, hr, hinv1, -, hnext, -, -, hcase⟩ := after_send_owned cfg o (s2.emit ev) q o.send_ret ho3
  obtain ⟨k, mk, hk, hmk, hklive, hpay⟩ := hinv.queued q (by rw [hq]; simp)
  subst hk
  have hmk1 : mk = m := by
    rw [read_msg_heap s k mk hmk] at hm
    exact Option.some.inj hm
  subst hmk1
  have htr := after_send_trace cfg o (s2.emit ev) (.heap k) o.send_ret r hr
  refine ⟨r, by rw [heq]; exact hr, ?_⟩
  rcases hcase with ⟨h0, -⟩ | ⟨-, hr0, -, hqq, hlive, t1, m1, ht1, hm1, hrm⟩ | ⟨-, -, hwhy, -⟩
  · exact absurd h0 hfail
  · rw [hnow] at ht1
    cases ht1
    have hm3 : (s2.emit ev).read_msg (.heap k) = some mk := by
      rw [emit_read_msg]
      exact hm2
    rw [hm3] at hm1
    cases hm1
    obtain ⟨hh1, hh2⟩ := handles_of_failure cfg ev (.heap k) o.send_ret
      (wrap_int ((s2.emit ev).send_failure_count + 1)) hsh hsr hfail
    have hd : r.2.trace.drop s.trace.length =
        [.await_cloud_ready, ev] ++ breaker_events cfg (wrap_int ((s2.emit ev).send_failure_count + 1)) := by
      rcases htr with ⟨-, -, htr1⟩ | ⟨h0, -⟩
      · rw [htr1, emit_trace, ht2, List.append_assoc, List.append_assoc, List.drop_left]
        rfl
      · exact absurd h0 hfail
    refine ⟨by rw [hd]; exact hh1, by rw [hd]; exact hh2, hqq, hnext, hlive, hrm, ?_, ?_⟩
    · intro ptr len hpl
      obtain ⟨j, b, hj, hjb, hjlive⟩ := hpay ptr len hpl
      subst hj
      have hjk : j ≠ k := by
        intro hjk
        rw [hjk, hmk] at hjb
        cases hjb
      have h1 : r.2.heap j = (s2.emit ev).heap j :=
        after_send_requeued cfg o (s2.emit ev) k o.send_ret r hr hfail hr0 j hjk
      have h3 : s2.heap j = s.heap j :=
        hgrow.heap_eq j (hinv.heap_ok.live_lt j hjlive)
      have h4 : r.2.heap j = s.heap j := by
        rw [h1]
        exact h3
      simp [State.read_bytes, State.read, h4]
    · intro o1 s3 s4 rest1 hinv3 hq3 hget3 hm3r hprod3
      rw [hrm] at hm3r
      obtain ⟨r1, hr1, hargs⟩ := consume_send_args cfg o1 s3 s4 (.heap k) rest1
        { mk with ts_ms := t } hinv3 hq3 hget3 hm3r hres hprod3
      exact ⟨r1, hr1, fun e he ts hts => (hargs e he).2 ts hts⟩
  · rcases hwhy with hnone | hfull
    · rw [hnow] at hnone
      cases hnone
    · have hfull1 : cfg.MAX_OUTGOING_MESSAGES ≤ s2.queue.length := hfull
      omega

/-- C19 at a concrete input: the temperature message, accepted at time 10, alone in
the queue; its send fails at time 20 and it is put back; the next consumer call, at
time 30, gives the transport the time stamp 20. -/
theorem C19_retry_restamps_same_object_witness :
    (example_state (example_cfg .MQTT 3) [1]).read_msg (.heap 0) =
      some { type := 1, payload := .double_val 7, ts_ms := 10, app_id := .null } ∧
    ∃ r, consume_device_message (example_cfg .MQTT 3) (consume_with (-5) 20)
        (example_state (example_cfg .MQTT 3) [1]) = some r ∧
      r.2.queue = [.heap 0] ∧
      r.2.live = (example_state (example_cfg .MQTT 3) [1]).live ∧
      r.2.read_msg (.heap 0) =
        some { type := 1, payload := .double_val 7, ts_ms := 20, app_id := .null } ∧
      ∃ r1, consume_device_message (example_cfg .MQTT 3) (consume_with 0 30) r.2 = some r1 ∧
        ∀ ev ∈ r1.2.trace.drop r.2.trace.length, ∀ ts, ev.sent_ts = some ts → ts = 20 := by
  refine ⟨by decide, ?_⟩
  have hinv : (example_state (example_cfg .MQTT 3) [1]).Inv :=
    run_inv (example_cfg .MQTT 3) [.submit (submit_at 1 10)] (State.init example_ext) _
      (init_inv example_ext) (some_getD (d := State.init example_ext) (by decide))
  obtain ⟨r, hr, -, -, hqq, -, hlive, hrm, -, hlater⟩ :=
    C19_retry_restamps_same_object (example_cfg .MQTT 3) (consume_with (-5) 20)
      (example_state (example_cfg .MQTT 3) [1]) _ (.heap 0) []
      { type := 1, payload := .double_val 7, ts_ms := 10, app_id := .null } 20
      hinv (by decide) rfl (by decide) (by decide) rfl (by decide) (by decide) rfl (by decide)
  have hqq1 : r.2.queue = [.heap 0] := hqq
  exact ⟨r, hr, hqq1, hlive, hrm,
    hlater (consume_with 0 30) r.2 _ [] (consume_inv _ _ _ r hinv hr) hqq1 rfl rfl rfl⟩

/-- C20: under the MQTT binding a consumer call that ends before the transport send
leaves `send_failure_count` and the trace of breaker calls alone and does not put the
message back, whatever the counter holds: (1) on a `NULL` handle it returns `-ENOMSG`,
(2) on a message whose `app_id` does not resolve it returns `-EINVAL`, both with the
state unchanged but for the dequeue; (3) on an encoding error it returns the error
after `await_cloud_ready`, its only call, with the counter unchanged and the message
released and not in the queue. -/
theorem C20_local_failure_keeps_counter (cfg : Config) (hb : cfg.binding = .MQTT) :
    (∀ (o : ConsumeEnv) (s : State) (rest : List Ptr),
      s.queue = .null :: rest → o.get_ret = 0 →
      consume_device_message cfg o s = some (-ENOMSG, { s with queue := rest })) ∧
    (∀ (o : ConsumeEnv) (s : State) (q : Ptr) (rest : List Ptr) (m : SensorData),
      s.queue = q :: rest → o.get_ret = 0 → s.read_msg q = some m →
      resolve_app_id cfg m = .null →
      consume_device_message cfg o s = some (-EINVAL, { s with queue := rest })) ∧
    (∀ (o : ConsumeEnv) (s s2 : State) (q : Ptr) (rest : List Ptr) (m : SensorData),
      s.Inv → s.queue = q :: rest → o.get_ret = 0 → s.read_msg q = some m →
      resolve_app_id cfg m ≠ .null →
      run_producers cfg o.producers ({ s with queue := rest }.emit .await_cloud_ready) =
        some s2 →
      (encode_device_message cfg o s2 (resolve_app_id cfg m) m).1 ≠ 0 →
      ∃ r, consume_device_message cfg o s = some r ∧
        r.1 = (encode_device_message cfg o s2 (resolve_app_id cfg m) m).1 ∧
        r.2.send_failure_count = s.send_failure_count ∧
        r.2.trace = s.trace ++ [.await_cloud_ready] ∧
        r.2.queue = s2.queue ∧ q ∉ r.2.queue ∧ Released s r.2 q) := by
  refine ⟨?_, ?_, ?_⟩
  · intro o s rest hq hget
    simp [consume_device_message, k_msgq_get, hq, hget]
  · intro o s q rest m hq hget hm hres
    have hq0 : q ≠ .null := by
      intro h
      rw [h] at hm
      simp [State.read_msg, State.read] at hm
    simp [consume_device_message, k_msgq_get, hq, hget, hq0]
    have hm1 : ({ s with queue := rest } : State).read_msg q = some m := hm
    rw [hm1]
    simp [hres]
  · intro o s s2 q rest m hinv hq hget hm hres hprod henc
    obtain ⟨r, hr, -, -, hnot, -, hc⟩ :=
      consume_classify cfg o s s2 q rest m hinv hq hget hm hres hprod
    have hss : send_section cfg o s2 q (resolve_app_id cfg m) m 0 =
        .error (encode_device_message cfg o s2 (resolve_app_id cfg m) m).1 := by
      simp [send_section, hb, henc]
    refine ⟨r, hr, ?_⟩
    rcases hc with ⟨e, he, hre, -, -, ht, hcnt, hqq, hrel⟩ | ⟨hn, -⟩ | ⟨ev, hev, -⟩
    · rw [hss] at he
      cases he
      exact ⟨hre, hcnt, ht, hqq, by rw [hqq]; exact hnot, hrel⟩
    · rw [hss] at hn
      cases hn
    · rw [hss] at hev
      cases hev

/-- C20 at a concrete input: the GNSS block message of the wrong length alone in the
queue, the counter at 7, above the threshold 3; encoding fails with `-ENOTSUP`. -/
theorem C20_local_failure_keeps_counter_witness :
    (example_cfg .MQTT 3).MAX_CONSECUTIVE_SEND_FAILURES <
      (example_counted (example_cfg .MQTT 3) [6] 7).send_failure_count ∧
    ∃ r, consume_device_message (example_cfg .MQTT 3) (consume_with 0 20)
        (example_counted (example_cfg .MQTT 3) [6] 7) = some r ∧
      r.1 = -ENOTSUP ∧ r.2.send_failure_count = 7 ∧
      r.2.trace = (example_counted (example_cfg .MQTT 3) [6] 7).trace ++ [.await_cloud_ready] ∧
      r.2.queue = [] ∧ .heap 0 ∉ r.2.queue ∧
      Released (example_counted (example_cfg .MQTT 3) [6] 7) r.2 (.heap 0) := by
  refine ⟨by decide, ?_⟩
  have hinv0 : (example_state (example_cfg .MQTT 3) [6]).Inv :=
    run_inv (example_cfg .MQTT 3) [.submit (submit_at 6 10)] (State.init example_ext) _
      (init_inv example_ext) (some_getD (d := State.init example_ext) (by decide))
  have hinv : (example_counted (example_cfg .MQTT 3) [6] 7).Inv :=
    State.Owns.congr (s := example_state (example_cfg .MQTT 3) [6]) hinv0 rfl rfl rfl
  obtain ⟨r, hr, h1, h2, h3, h4, h5, h6⟩ :=
    (C20_local_failure_keeps_counter (example_cfg .MQTT 3) rfl).2.2 (consume_with 0 20)
      (example_counted (example_cfg .MQTT 3) [6] 7) _ (.heap 0) []
      { type := 0, payload := .data (.heap 1) 3, ts_ms := 10, app_id := .null }
      hinv (by decide) rfl (by decide) (by decide) rfl (by decide)
  exact ⟨r, hr, h1.trans (by decide), h2.trans (by decide), h3, h4, h5, h6⟩

end MessageQueue
